import Mathlib

/-!
# Ritmo: lane scheduler, note distance state machine, input resolver, hold chain

A shallow embedding of `Lane.cpp` / `Lane.h` (class `ULane`) and of
`SplineMeshHoldNote.cpp` (class `ASplineMeshHoldNote`).

Conventions of the embedding
* C++ `float` quantities (path percentages, times, lengths) are exact rationals `ℚ`;
  comparisons and arithmetic are the exact ones, rounding is not modelled.
* A note object (`ABaseNote*`) is a record carrying an `Id`; pointers to notes
  (`NoteWithinBounds`) are `Option Nat` holding that `Id`.
* Multicast delegates (`OnNoteMiss`, `ACompleteMiss`) and calls into note classes whose
  bodies are outside the lane (`RegisterTouch`, `RegisterMiss`, `TouchReleased`) are
  recorded as a list of `LaneEvent`s.
* Rendering (ring materials, particles, spline meshes) is left out, except for the
  array accesses of the mesh array, whose bounds decide whether `MoveTick` runs through.
-/

namespace Ritmo

/-! ## Data model -/

/-- Modelled from the spec: the declaration of the enum `ENoteDistance` is not in the
sources. Spec §3: "Location: InLane|InButton|PastButton"; these are the three values
`Lane.cpp:224-229` writes. -/
inductive ENoteDistance
  | InLane
  | InButton
  | PastButton
  deriving DecidableEq, Repr

/-- Modelled from the spec: the declaration of the enum `ENoteType` is not in the sources.
Spec §3: "closed enum {EMPTY, SINGLE, BEG_HOLD, HOLD, END_HOLD, SWIPE, BOMB, RANDOM, IGC}";
these are the values named in `Lane.cpp:135-175` and `BaseRitmoLevel.cpp:141-163`. -/
inductive ENoteType
  | EMPTY
  | SINGLE
  | BEG_HOLD
  | HOLD
  | END_HOLD
  | SWIPE
  | BOMB
  | RANDOM
  | IGC
  deriving DecidableEq, Repr

/-- Modelled from the spec: the declaration of the class `ABaseNote` is not in the sources.
The record holds what `Lane.cpp` reads and writes of a note (spec §3, "Note"): its
identity, `GetType()`, `NoteState.Location`, `NoteState.bActive`, the three path
percentages, `bToBeDeactivated`, `bIgnoresMiss` and the duration given to
`SetHoldDuration`. -/
structure ABaseNote where
  Id : Nat
  NoteType : ENoteType
  Location : ENoteDistance
  bActive : Bool
  HeadPathPercentage : ℚ
  RootPathPercentage : ℚ
  TailPathPercentage : ℚ
  bToBeDeactivated : Bool
  bIgnoresMiss : Bool
  HoldDuration : Option ℚ
  deriving DecidableEq, Repr

/-- What the lane sends out: delegate broadcasts and calls into the note classes. -/
inductive LaneEvent
  | OnNoteMiss (note : Nat)
  | ACompleteMiss
  | RegisterTouch (note : Nat) (SecondsSinceStart DeltaTime : ℚ)
  | RegisterMiss (note : Nat) (SecondsSinceStart DeltaTime : ℚ)
  | NoteTouchReleased (note : Nat)
  | NoteReset (note : Nat)
  deriving DecidableEq, Repr

/-! ## Note distance state machine (`ULane::UpdateNotes`, first loop) -/

/-- The location written by `Lane.cpp:224-229` for a note whose current location is `loc`,
read against the boundary percentages `bs` (start) and `be` (end). -/
def UpdateNotes_Location (bs be : ℚ) (loc : ENoteDistance) (head tail : ℚ) : ENoteDistance :=
  if head < bs ∧ loc ≠ ENoteDistance.InLane then ENoteDistance.InLane
  else if head > bs ∧ tail < be ∧ loc ≠ ENoteDistance.InButton then ENoteDistance.InButton
  else if tail ≥ be ∧ loc ≠ ENoteDistance.PastButton then ENoteDistance.PastButton
  else loc

/-- The locations one note takes over a sequence of `UpdateNotes` ticks: `obs` lists, per
tick, the `(HeadPathPercentage, TailPathPercentage)` the classification reads. The first
entry of the result is the location before the first tick. -/
def LocationTrace (bs be : ℚ) : ENoteDistance → List (ℚ × ℚ) → List ENoteDistance
  | loc, [] => [loc]
  | loc, p :: rest => loc :: LocationTrace bs be (UpdateNotes_Location bs be loc p.1 p.2) rest

/-- Forward movement of one note: from tick to tick neither percentage decreases. -/
def ForwardMovement (obs : List (ℚ × ℚ)) : Prop :=
  List.Chain' (fun a b : ℚ × ℚ => a.1 ≤ b.1 ∧ a.2 ≤ b.2) obs

/-- The tail is never ahead of the head. -/
def TailBehindHead (obs : List (ℚ × ℚ)) : Prop :=
  ∀ p ∈ obs, p.2 ≤ p.1

/-- One step of the location order: never back to an earlier state. -/
def NoBackwardStep (a b : ENoteDistance) : Prop :=
  (a = ENoteDistance.InButton → b ≠ ENoteDistance.InLane) ∧
  (a = ENoteDistance.PastButton → b = ENoteDistance.PastButton)

/-- Whether the event is a `RegisterTouch` call on a note. -/
def LaneEvent.isRegisterTouch : LaneEvent → Bool
  | LaneEvent.RegisterTouch _ _ _ => true
  | _ => false

/-! ## The lane (`ULane`) -/

/-- Modelled from the spec: the declaration of the struct `FLevelMapRow` is not in the
sources. Spec §3: rows "{Time: seconds, LaneTypes: … array[NumLanes] of NoteType}", read
as `LevelMap[NoteIndex].Time` and `LevelMap[NoteIndex].Lanes[LaneIdx]` in `Lane.cpp`. -/
structure FLevelMapRow where
  Time : ℚ
  Lanes : List ENoteType
  deriving DecidableEq, Repr

/-- Modelled from the spec: the declaration of the class `ARhythmGameGameMode` is not in
the sources. The record holds the fields `Lane.cpp` reads through `GameMode->…` (spec §6:
`Clock.SecondsSinceStart`, `GameSpeed`, `IgcSpawnFreq`, `RandSpawnFreq`). -/
structure ARhythmGameGameMode where
  bIsPlaying : Bool
  SecondsSinceStart : ℚ
  GameSpeed : ℚ
  IgcNoteSpawnFreq : Int
  RandNoteSpawnFreq : Int

/-- The virtual calls into note classes whose bodies are outside the lane:
`Note->SetActive(true)`, `Note->MoveTick(…, TickPercentage)` and the dynamic type test
`Cast<ABaseHoldNote>(Note)`. -/
structure NoteClasses where
  SetActive : ABaseNote → ABaseNote
  MoveTick : ABaseNote → ℚ → ABaseNote
  IsHoldNote : Nat → Bool

/-- The logical state of a lane (`Lane.h:295-393`). `SplineLength` is
`MovementPath->GetSplineLength()`, the two boundary distances are
`MovementPath->GetDistanceAlongSplineAtSplinePoint` at `NoteBoundaryStartPointIdx` and
`NoteBoundaryEndPointIdx`; `bBombsEnabled`, `BombSpawnFreq` are `LevelGeneralParams`,
`OwningLevelMoveSpeed` is `OwningLevel->MoveSpeed`. -/
structure ULane where
  LaneIdx : Nat
  MoveSpeed : ℚ
  SpawnTimeOffset : ℚ
  MovementPathLength : ℚ
  SplineLength : ℚ
  BoundaryStartDistance : ℚ
  BoundaryEndDistance : ℚ
  HoldNoteData : List (ℚ × ℚ)
  HoldNoteIndex : Nat
  LevelMap : List FLevelMapRow
  NoteIndex : Nat
  Notes : List ABaseNote
  NoteWithinBounds : Option Nat
  bButtonIsPressed : Bool
  bFirstFrame : Bool
  bInputValid : Bool
  ButtonPressLength : ℚ
  bBombsEnabled : Bool
  BombSpawnFreq : Int
  OwningLevelMoveSpeed : ℚ
  deriving DecidableEq, Repr

namespace ULane

/-- The function `ULane::GetPercentageAlongMovementPathAtSplinePoint(NoteBoundaryStartPointIdx)`
(`Lane.cpp:614-617`). -/
def GetBoundaryStartPercentage (L : ULane) : ℚ :=
  L.BoundaryStartDistance / L.MovementPathLength

/-- The function `ULane::GetPercentageAlongMovementPathAtSplinePoint(NoteBoundaryEndPointIdx)`
(`Lane.cpp:614-617`). -/
def GetBoundaryEndPercentage (L : ULane) : ℚ :=
  L.BoundaryEndDistance / L.MovementPathLength

/-- The function `ULane::GetButtonPercentageAlongMovementPath` (`Lane.h:262`). -/
def GetButtonPercentageAlongMovementPath (L : ULane) : ℚ :=
  (L.GetBoundaryEndPercentage - L.GetBoundaryStartPercentage) / 2 + L.GetBoundaryStartPercentage

/-- The function `ULane::SetMoveSpeed` (`Lane.cpp:605-612`); the second component is the returned
`SpawnTimeOffset`. -/
def SetMoveSpeed (gm : ARhythmGameGameMode) (NewSpeed : ℚ) (L : ULane) : ULane × ℚ :=
  let L1 := { L with MoveSpeed := NewSpeed }
  let L2 := { L1 with
    SpawnTimeOffset :=
      ((L1.GetButtonPercentageAlongMovementPath * L1.SplineLength) / L1.MoveSpeed) * gm.GameSpeed }
  (L2, L2.SpawnTimeOffset)

/-- The function `ULane::SetParameters` (`Lane.cpp:49-85`): the lane index and the move
speed are set, then the cached path length is read from the spline (materials and world
locations are left out). `NewMoveSpeed` is an `int`. -/
def SetParameters (gm : ARhythmGameGameMode) (NewLaneIdx : Nat) (NewMoveSpeed : Int)
    (L : ULane) : ULane :=
  let L1 := (SetMoveSpeed gm (NewMoveSpeed : ℚ) { L with LaneIdx := NewLaneIdx }).1
  { L1 with MovementPathLength := L1.SplineLength }

/-- The function `ULane::LoadNotes` (`Lane.cpp:491-495`). -/
def LoadNotes (Rows : List FLevelMapRow) (HoldNoteData : List (ℚ × ℚ)) (L : ULane) : ULane :=
  { L with LevelMap := Rows, HoldNoteData := HoldNoteData }

/-- The function `ULane::RandSwapForSpecial` (`Lane.cpp:205-216`). `draw k` is the value
returned by the `k`-th call of `FMath::RandRange` made by this invocation; a check whose guard
is false makes no call (`&&` short-circuits). -/
def RandSwapForSpecial (L : ULane) (gm : ARhythmGameGameMode) (draw : Nat → Int)
    (NoteType : ENoteType) : ENoteType :=
  if NoteType ≠ ENoteType.SINGLE then NoteType
  else
    let bombOn : Bool := L.bBombsEnabled && decide (L.BombSpawnFreq > 0)
    let t1 := if bombOn && decide (draw 0 = 0) then ENoteType.BOMB else NoteType
    let k1 := if bombOn then 1 else 0
    let igcOn : Bool := decide (gm.IgcNoteSpawnFreq > 0)
    let t2 := if igcOn && decide (draw k1 = 0) then ENoteType.IGC else t1
    let k2 := if igcOn then k1 + 1 else k1
    let randOn : Bool := decide (gm.RandNoteSpawnFreq > 0)
    if randOn && decide (draw k2 = 0) then ENoteType.RANDOM else t2

/-- The function `ULane::DeactivateNote` (`Lane.cpp:516-520`): `Note->Reset()` and
`Notes.Remove(Note)`, which removes every entry that is this note. -/
def DeactivateNote (Note : Nat) (L : ULane) : ULane × List LaneEvent :=
  ({ L with Notes := L.Notes.filter (fun m => decide (m.Id ≠ Note)) }, [LaneEvent.NoteReset Note])

/-- The function `ULane::ActivateNote` (`Lane.cpp:522-543`). Fails when a hold note is activated
with `HoldNoteIndex` outside `HoldNoteData`. -/
def ActivateNote (nc : NoteClasses) (Note : ABaseNote) (L : ULane) : Option ULane :=
  let n1 := { Note with Location := ENoteDistance.InLane }
  let n2 : Option ABaseNote :=
    if n1.NoteType = ENoteType.HOLD then
      (L.HoldNoteData.get? L.HoldNoteIndex).map (fun p => { n1 with HoldDuration := some p.2 })
    else some n1
  n2.map (fun n => { L with Notes := L.Notes ++ [nc.SetActive n] })

/-- The function `ULane::NoteSpawn` (`Lane.cpp:131-181`). `pool` is
`GameMode->NotePool->GetPooledObject`. `RandSwapForSpecial` takes the map entry by reference, so
its result is written into `LevelMap`. Fails when `Lanes[LaneIdx]` is outside the row or the
activation fails. -/
def NoteSpawn (gm : ARhythmGameGameMode) (nc : NoteClasses) (pool : ENoteType → ABaseNote)
    (draw : Nat → Int) (L : ULane) : Option ULane :=
  match L.LevelMap.get? L.NoteIndex with
  | none => some L
  | some row =>
    if row.Time - L.SpawnTimeOffset ≤ gm.SecondsSinceStart then
      match row.Lanes.get? L.LaneIdx with
      | none => none
      | some t =>
        if t = ENoteType.EMPTY ∨ t = ENoteType.HOLD ∨ t = ENoteType.END_HOLD then some L
        else
          let t1 := RandSwapForSpecial L gm draw t
          let L1 := { L with
            LevelMap := L.LevelMap.set L.NoteIndex { row with Lanes := row.Lanes.set L.LaneIdx t1 } }
          let activated : Option ULane :=
            match t1 with
            | ENoteType.SINGLE => ActivateNote nc (pool ENoteType.SINGLE) L1
            | ENoteType.BEG_HOLD =>
              (ActivateNote nc (pool ENoteType.HOLD) L1).map
                (fun L2 => { L2 with HoldNoteIndex := L2.HoldNoteIndex + 1 })
            | ENoteType.SWIPE => ActivateNote nc (pool ENoteType.SINGLE) L1
            | ENoteType.BOMB => ActivateNote nc (pool ENoteType.BOMB) L1
            | ENoteType.IGC => ActivateNote nc (pool ENoteType.IGC) L1
            | ENoteType.RANDOM => ActivateNote nc (pool ENoteType.RANDOM) L1
            | _ => some L1
          activated.map (fun L3 => { L3 with NoteIndex := L3.NoteIndex + 1 })
    else some L

/-- The function `ULane::CustomStart` (`Lane.cpp:183-203`): each cursor is set to the first
index whose time is later than `StartTimeValue`, and is left as it is when there is none. -/
def CustomStart (StartTimeValue : ℚ) (L : ULane) : ULane :=
  let L1 :=
    match L.LevelMap.findIdx? (fun r => decide (StartTimeValue < r.Time)) with
    | some i => { L with NoteIndex := i }
    | none => L
  match L1.HoldNoteData.findIdx? (fun p => decide (StartTimeValue < p.1)) with
  | some i => { L1 with HoldNoteIndex := i }
  | none => L1

end ULane

/-! ## Per-tick note update, bounds scan and input (`ULane`) -/

/-- What the second loop of `ULane::UpdateNotes` does before it breaks. -/
inductive SweepAction
  | Miss (n : ABaseNote)
  | Deactivate (n : ABaseNote)
  deriving DecidableEq, Repr

namespace ULane

/-- First loop body of `ULane::UpdateNotes`, lines 224-229: `Note->UpdateDistance(…)`. -/
def UpdateNotes_Classify (L : ULane) (n : ABaseNote) : ABaseNote :=
  { n with
    Location := (UpdateNotes_Location L.GetBoundaryStartPercentage L.GetBoundaryEndPercentage
      n.Location n.HeadPathPercentage n.TailPathPercentage) }

/-- The local `TickPercentage` of `Lane.cpp:232`. -/
def TickPercentage (L : ULane) (DeltaTime : ℚ) : ℚ :=
  L.MoveSpeed * DeltaTime / L.MovementPathLength

/-- Second loop of `ULane::UpdateNotes` (`Lane.cpp:241-262`): the first note, in the
order of `Notes`, that takes one of the two branches; both branches `break`. -/
def UpdateNotes_SweepTarget : List ABaseNote → Option SweepAction
  | [] => none
  | n :: rest =>
    if n.Location = ENoteDistance.PastButton ∧ n.bToBeDeactivated = false then
      some (SweepAction.Miss n)
    else if n.TailPathPercentage ≥ 1 ∧ n.bToBeDeactivated = true then
      some (SweepAction.Deactivate n)
    else UpdateNotes_SweepTarget rest

/-- The write `Note->bToBeDeactivated = true` through the pointer: every entry that is this note. -/
def SetToBeDeactivated (Note : Nat) (Notes : List ABaseNote) : List ABaseNote :=
  Notes.map (fun m => if m.Id = Note then { m with bToBeDeactivated := true } else m)

/-- The function `ULane::NoteMiss` (`Lane.cpp:329-332`), a subscriber of `OnNoteMiss`. -/
def NoteMiss (_Note : Nat) (L : ULane) : ULane :=
  { L with NoteWithinBounds := none }

/-- Second loop of `ULane::UpdateNotes` applied to the lane. -/
def UpdateNotes_Sweep (L : ULane) : ULane × List LaneEvent :=
  match UpdateNotes_SweepTarget L.Notes with
  | none => (L, [])
  | some (SweepAction.Miss n) =>
    let L1 := if n.bIgnoresMiss then L else NoteMiss n.Id L
    ({ L1 with Notes := SetToBeDeactivated n.Id L1.Notes, NoteWithinBounds := none },
      if n.bIgnoresMiss then [] else [LaneEvent.OnNoteMiss n.Id])
  | some (SweepAction.Deactivate n) => DeactivateNote n.Id L

/-- First loop of `ULane::UpdateNotes` (`Lane.cpp:221-238`): every note is classified and
then moved by `Note->MoveTick(…, TickPercentage)`. -/
def UpdateNotes_Move (nc : NoteClasses) (DeltaTime : ℚ) (L : ULane) : ULane :=
  { L with
    Notes := (L.Notes.map
      (fun n => nc.MoveTick (L.UpdateNotes_Classify n) (L.TickPercentage DeltaTime))) }

/-- The function `ULane::UpdateNotes` (`Lane.cpp:219-263`). -/
def UpdateNotes (nc : NoteClasses) (DeltaTime : ℚ) (L : ULane) : ULane × List LaneEvent :=
  UpdateNotes_Sweep (UpdateNotes_Move nc DeltaTime L)

/-- The function `ULane::CheckIfNoteWithinBounds` (`Lane.cpp:265-307`); the scan breaks at the first
`InButton` note. -/
def CheckIfNoteWithinBounds (L : ULane) : ULane :=
  if L.Notes.length = 0 then L
  else
    { L with
      NoteWithinBounds :=
        ((L.Notes.find? (fun n => decide (n.Location = ENoteDistance.InButton))).map (·.Id)) }

/-- The function `ULane::UpdateQueue` (`Lane.cpp:309-319`): removes the first inactive note. -/
def UpdateQueue (L : ULane) : ULane :=
  match L.Notes.find? (fun n => !n.bActive) with
  | none => L
  | some n => { L with Notes := L.Notes.filter (fun m => decide (m.Id ≠ n.Id)) }

/-- The function `ULane::NoteHit` (`Lane.cpp:321-327`). -/
def NoteHit (Note : Nat) (L : ULane) : ULane × List LaneEvent :=
  let r := DeactivateNote Note { L with bInputValid := false }
  ({ r.1 with NoteWithinBounds := none }, r.2)

/-- The function `ULane::TouchHeld` (`Lane.cpp:343-371`). -/
def TouchHeld (SecondsSinceStart DeltaTime : ℚ) (L : ULane) : ULane × List LaneEvent :=
  let L1 := { L with bButtonIsPressed := true }
  let first : ULane × List LaneEvent :=
    if L1.bFirstFrame then
      let L2 := { L1 with bFirstFrame := false }
      if L2.NoteWithinBounds.isNone then
        ({ L2 with bInputValid := false }, [LaneEvent.ACompleteMiss])
      else (L2, [])
    else (L1, [])
  let L3 := first.1
  let L4 :=
    if L3.bButtonIsPressed then { L3 with ButtonPressLength := L3.ButtonPressLength + DeltaTime }
    else L3
  let touch : List LaneEvent :=
    match L4.NoteWithinBounds with
    | some id => if L4.bInputValid then [LaneEvent.RegisterTouch id SecondsSinceStart DeltaTime] else []
    | none => []
  (L4, first.2 ++ touch)

/-- The function `ULane::TouchNotHeld` (`Lane.cpp:373-379`). -/
def TouchNotHeld (nc : NoteClasses) (SecondsSinceStart DeltaTime : ℚ) (L : ULane) :
    ULane × List LaneEvent :=
  match L.NoteWithinBounds with
  | some id =>
    if nc.IsHoldNote id then (L, [LaneEvent.RegisterMiss id SecondsSinceStart DeltaTime])
    else (L, [])
  | none => (L, [])

/-- The function `ULane::TouchReleased` (`Lane.cpp:381-393`). -/
def TouchReleased (L : ULane) : ULane × List LaneEvent :=
  let L1 := { L with bInputValid := true, bFirstFrame := true, bButtonIsPressed := false }
  (L1, match L1.NoteWithinBounds with
       | some id => [LaneEvent.NoteTouchReleased id]
       | none => [])

/-- The function `ULane::ResetLane` (`Lane.cpp:554-588`). -/
def ResetLane (L : ULane) : ULane :=
  { L with MoveSpeed := L.OwningLevelMoveSpeed, Notes := [], NoteIndex := 0, HoldNoteIndex := 0 }

/-- The function `ULane::TickComponent` (`Lane.cpp:110-128`). -/
def TickComponent (gm : ARhythmGameGameMode) (nc : NoteClasses) (pool : ENoteType → ABaseNote)
    (draw : Nat → Int) (DeltaTime : ℚ) (L : ULane) : Option (ULane × List LaneEvent) :=
  if gm.bIsPlaying then
    (NoteSpawn gm nc pool draw L).map (fun L1 =>
      let r2 := UpdateNotes nc DeltaTime L1
      let L3 := CheckIfNoteWithinBounds r2.1
      let r4 : ULane × List LaneEvent :=
        if !L3.bButtonIsPressed then TouchNotHeld nc gm.SecondsSinceStart DeltaTime L3
        else (L3, [])
      (UpdateQueue r4.1, r2.2 ++ r4.2))
  else some (L, [])

end ULane

/-- The lane operations that read or write the logical state, with their arguments. -/
inductive LaneOp
  | TickComponent (gm : ARhythmGameGameMode) (pool : ENoteType → ABaseNote) (draw : Nat → Int)
      (DeltaTime : ℚ)
  | NoteSpawn (gm : ARhythmGameGameMode) (pool : ENoteType → ABaseNote) (draw : Nat → Int)
  | UpdateNotes (DeltaTime : ℚ)
  | CheckIfNoteWithinBounds
  | UpdateQueue
  | NoteHit (Note : Nat)
  | NoteMiss (Note : Nat)
  | CompleteMiss
  | TouchHeld (SecondsSinceStart DeltaTime : ℚ)
  | TouchNotHeld (SecondsSinceStart DeltaTime : ℚ)
  | TouchReleased
  | ActivateNote (Note : ABaseNote)
  | DeactivateNote (Note : Nat)
  | LoadNotes (Rows : List FLevelMapRow) (HoldNoteData : List (ℚ × ℚ))
  | CustomStart (StartTimeValue : ℚ)
  | SetMoveSpeed (gm : ARhythmGameGameMode) (NewSpeed : ℚ)
  | SetParameters (gm : ARhythmGameGameMode) (NewLaneIdx : Nat) (NewMoveSpeed : Int)
  | ResetLane

/-- Whether the operation is `ULane::TouchReleased`. -/
def LaneOp.isTouchReleased : LaneOp → Bool
  | LaneOp.TouchReleased => true
  | _ => false

/-- One lane operation: the new state and the events sent, or `none` when the operation
indexes outside an array. `ULane::CompleteMiss` (`Lane.cpp:334-341`) only scores. -/
def LaneOp.step (nc : NoteClasses) (L : ULane) : LaneOp → Option (ULane × List LaneEvent)
  | LaneOp.TickComponent gm pool draw dt => ULane.TickComponent gm nc pool draw dt L
  | LaneOp.NoteSpawn gm pool draw => (ULane.NoteSpawn gm nc pool draw L).map (fun L1 => (L1, []))
  | LaneOp.UpdateNotes dt => some (ULane.UpdateNotes nc dt L)
  | LaneOp.CheckIfNoteWithinBounds => some (ULane.CheckIfNoteWithinBounds L, [])
  | LaneOp.UpdateQueue => some (ULane.UpdateQueue L, [])
  | LaneOp.NoteHit Note => some (ULane.NoteHit Note L)
  | LaneOp.NoteMiss Note => some (ULane.NoteMiss Note L, [])
  | LaneOp.CompleteMiss => some (L, [])
  | LaneOp.TouchHeld t dt => some (ULane.TouchHeld t dt L)
  | LaneOp.TouchNotHeld t dt => some (ULane.TouchNotHeld nc t dt L)
  | LaneOp.TouchReleased => some (ULane.TouchReleased L)
  | LaneOp.ActivateNote Note => (ULane.ActivateNote nc Note L).map (fun L1 => (L1, []))
  | LaneOp.DeactivateNote Note => some (ULane.DeactivateNote Note L)
  | LaneOp.LoadNotes Rows Hold => some (ULane.LoadNotes Rows Hold L, [])
  | LaneOp.CustomStart t => some (ULane.CustomStart t L, [])
  | LaneOp.SetMoveSpeed gm v => some ((ULane.SetMoveSpeed gm v L).1, [])
  | LaneOp.SetParameters gm i v => some (ULane.SetParameters gm i v L, [])
  | LaneOp.ResetLane => some (ULane.ResetLane L, [])

/-- A sequence of lane operations, run until one of them fails: the state reached and
all events sent up to there. -/
def LaneOp.run (nc : NoteClasses) : ULane → List LaneOp → ULane × List LaneEvent
  | L, [] => (L, [])
  | L, op :: ops =>
    match LaneOp.step nc L op with
    | none => (L, [])
    | some r => ((LaneOp.run nc r.1 ops).1, r.2 ++ (LaneOp.run nc r.1 ops).2)

/-- No entry of the list is the note `id` with the flag `bToBeDeactivated` still clear. -/
def AllFlagged (id : Nat) (l : List ABaseNote) : Prop :=
  ∀ m ∈ l, m.Id = id → m.bToBeDeactivated = true

/-- A running game at song time `now` with the IGC and random substitutions switched off. -/
def PlayingAt (now : ℚ) : ARhythmGameGameMode :=
  { bIsPlaying := true, SecondsSinceStart := now, GameSpeed := 1,
    IgcNoteSpawnFreq := 0, RandNoteSpawnFreq := 0 }

/-- Modelled from the spec: `ABaseNote::MoveTick` of a simple note is not in the sources.
Spec §4.2: "advance `RootPathPercentage` by `MoveSpeed·dt / PathLength`, clamped to 1.0;
Head/Tail percentages are derived offsets (constant for simple notes)". -/
def SimpleNote_MoveTick (n : ABaseNote) (TickPercentage : ℚ) : ABaseNote :=
  let root := min (n.RootPathPercentage + TickPercentage) 1
  { n with
    RootPathPercentage := root,
    HeadPathPercentage := n.HeadPathPercentage + (root - n.RootPathPercentage),
    TailPathPercentage := n.TailPathPercentage + (root - n.RootPathPercentage) }

/-- Modelled from the spec: the note classes of a lane that holds simple notes only;
`ABaseNote::SetActive` is not in the sources. Spec §4.1: "activate it at the lane's start
location with root percentage 0"; the note has no extent, so head and tail are at the
root. -/
def SimpleNotes : NoteClasses :=
  { SetActive := fun n =>
      { n with
        bActive := true, RootPathPercentage := 0, HeadPathPercentage := 0,
        TailPathPercentage := 0 },
    MoveTick := SimpleNote_MoveTick,
    IsHoldNote := fun _ => false }

/-- The single note of Scenario A, just activated at the start of the path. -/
def ScenarioA_Note : ABaseNote :=
  { Id := 0, NoteType := ENoteType.SINGLE, Location := ENoteDistance.InLane, bActive := true,
    HeadPathPercentage := 0, RootPathPercentage := 0, TailPathPercentage := 0,
    bToBeDeactivated := false, bIgnoresMiss := false, HoldDuration := none }

/-- The lane of Scenario A: `MoveSpeed = 500`, path length 1000, boundaries at 40% and
60%, `SpawnTimeOffset = 1`, holding the one note and receiving no input. -/
def ScenarioA_Lane : ULane :=
  { LaneIdx := 0, MoveSpeed := 500, SpawnTimeOffset := 1, MovementPathLength := 1000,
    SplineLength := 1000, BoundaryStartDistance := 400, BoundaryEndDistance := 600,
    HoldNoteData := [], HoldNoteIndex := 0,
    LevelMap := [{ Time := 0, Lanes := [ENoteType.SINGLE] }], NoteIndex := 1,
    Notes := [ScenarioA_Note], NoteWithinBounds := none,
    bButtonIsPressed := false, bFirstFrame := true, bInputValid := true,
    ButtonPressLength := 0, bBombsEnabled := false, BombSpawnFreq := 0,
    OwningLevelMoveSpeed := 500 }

/-- Whether the operation is `ULane::TouchHeld`. -/
def LaneOp.isTouchHeld : LaneOp → Bool
  | LaneOp.TouchHeld _ _ => true
  | _ => false

/-- The two press flags of the lane are the same in both states. -/
def SamePressFlags (L L1 : ULane) : Prop :=
  L1.bInputValid = L.bInputValid ∧ L1.bFirstFrame = L.bFirstFrame

/-- The event is neither an `ACompleteMiss` broadcast nor a `RegisterTouch` call. -/
def NotPressEvent (e : LaneEvent) : Prop :=
  e ≠ LaneEvent.ACompleteMiss ∧ e.isRegisterTouch = false

/-- Scenario A from the start of the level: the map `[{Time: 0, Lane0: SINGLE}]` is
loaded, no note is active yet. -/
def ScenarioA_Start : ULane :=
  { ScenarioA_Lane with NoteIndex := 0, Notes := [] }

/-- The note pool of Scenario A hands out the one note, with the type asked for. -/
def ScenarioA_Pool (t : ENoteType) : ABaseNote :=
  { ScenarioA_Note with NoteType := t }

/-- Six frames of `TickComponent`, half a second apart, from song time `-1` to `3/2`,
with no input. -/
def ScenarioA_Frames : List LaneOp :=
  [LaneOp.TickComponent (PlayingAt (-1)) ScenarioA_Pool (fun _ => 1) (1/2),
   LaneOp.TickComponent (PlayingAt (-1/2)) ScenarioA_Pool (fun _ => 1) (1/2),
   LaneOp.TickComponent (PlayingAt 0) ScenarioA_Pool (fun _ => 1) (1/2),
   LaneOp.TickComponent (PlayingAt (1/2)) ScenarioA_Pool (fun _ => 1) (1/2),
   LaneOp.TickComponent (PlayingAt 1) ScenarioA_Pool (fun _ => 1) (1/2),
   LaneOp.TickComponent (PlayingAt (3/2)) ScenarioA_Pool (fun _ => 1) (1/2)]

/-- Scenario B of the specification on the lane of Scenario A: what follows the first
`TouchHeld` tick of the press. Three ticks bring the note into the button, the bounds
scan finds it, and the button is still held. -/
def ScenarioB_Press : List LaneOp :=
  [LaneOp.UpdateNotes (1/2), LaneOp.UpdateNotes (1/2), LaneOp.UpdateNotes (1/2),
   LaneOp.CheckIfNoteWithinBounds, LaneOp.TouchHeld 1 (1/2)]

/-! ## Hold note chain (`ASplineMeshHoldNote`) -/

/-- The struct `FSplinePointMeta` (`SplineMeshHoldNote.h:18-29`) with its default values. -/
structure FSplinePointMeta where
  Percentage : ℚ := 0
  MaxPercentage : ℚ := 1
  deriving DecidableEq, Repr

/-- The hold note: the base note, `NoteState.bStationary`, `EndTime`, the chain
`SplinePointsMeta` with its cursor `ActiveSplinePoint`, the number of entries of
`SplineMeshCmps` and `TailMeshCmp->bHiddenInGame`. `BodySpline` gets a point whenever
`SplinePointsMeta` gets an entry (`SplineMeshHoldNote.cpp:124-125`) and both are cleared
together (`:185`, `:191`), so `BodySpline->GetNumberOfSplinePoints()` is the length of
`SplinePointsMeta`. -/
structure ASplineMeshHoldNote extends ABaseNote where
  bStationary : Bool
  EndTime : ℚ
  SplinePointsMeta : List FSplinePointMeta
  ActiveSplinePoint : Int
  SplineMeshCmpsNum : Nat
  bTailHiddenInGame : Bool
  deriving DecidableEq, Repr

namespace ASplineMeshHoldNote

/-- The constant `SingleBodyLength` (`SplineMeshHoldNote.cpp:115`). -/
def SingleBodyLength : ℚ := 100

/-- The C++ conversion `int(x)` of a float: truncation toward zero. -/
def truncToInt (x : ℚ) : Int :=
  if 0 ≤ x then ⌊x⌋ else ⌈x⌉

/-- The local `TotalNoteLength` (`SplineMeshHoldNote.cpp:112`). -/
def TotalNoteLength (L : ULane) (SecondsSinceStart : ℚ) (N : ASplineMeshHoldNote) : ℚ :=
  L.MoveSpeed * (N.EndTime - L.SpawnTimeOffset - SecondsSinceStart)

/-- The local `TotalBodyLength` (`SplineMeshHoldNote.cpp:113`). -/
def TotalBodyLength (L : ULane) (SecondsSinceStart HeadLength TailLength : ℚ)
    (N : ASplineMeshHoldNote) : ℚ :=
  TotalNoteLength L SecondsSinceStart N - HeadLength - TailLength

/-- The local `BodyNum` (`SplineMeshHoldNote.cpp:116`): `FMath::CeilToInt(TotalBodyLength /
SingleBodyLength)`. -/
def BodyNum (L : ULane) (SecondsSinceStart HeadLength TailLength : ℚ)
    (N : ASplineMeshHoldNote) : Int :=
  ⌈TotalBodyLength L SecondsSinceStart HeadLength TailLength N / SingleBodyLength⌉

/-- The local `MeshesNum` (`SplineMeshHoldNote.cpp:118`). -/
def MeshesNum (L : ULane) (SecondsSinceStart HeadLength TailLength : ℚ)
    (N : ASplineMeshHoldNote) : Int :=
  BodyNum L SecondsSinceStart HeadLength TailLength N + 2

/-- The local `PointsNum` (`SplineMeshHoldNote.cpp:119`). -/
def PointsNum (L : ULane) (SecondsSinceStart HeadLength TailLength : ℚ)
    (N : ASplineMeshHoldNote) : Int :=
  MeshesNum L SecondsSinceStart HeadLength TailLength N + 1

/-- Body of the first loop of `SetActive` for index `i`, applied to `SplinePointsMeta[i]`
(`SplineMeshHoldNote.cpp:127-141`). -/
def SetActive_Point (PathLength HeadLength TailLength TotalBody : ℚ) (bodyNum pointsNum : Int)
    (i : Int) (p : FSplinePointMeta) : FSplinePointMeta :=
  let p1 : FSplinePointMeta :=
    if i = 0 then { p with MaxPercentage := HeadLength / PathLength }
    else if i < bodyNum then { p with MaxPercentage := SingleBodyLength / PathLength }
    else if i = bodyNum then
      { p with
        MaxPercentage :=
          (((truncToInt TotalBody).tmod (truncToInt SingleBodyLength) : Int) : ℚ) / PathLength }
    else if i = pointsNum - 2 then { p with MaxPercentage := TailLength / PathLength }
    else p
  if p1.MaxPercentage > 1 then { p1 with MaxPercentage := 1 } else p1

/-- First loop of `SetActive` (`SplineMeshHoldNote.cpp:122-142`): iteration `i` appends a
default entry to the array and then writes entry `i` of the array. -/
def SetActive_Points (PathLength HeadLength TailLength TotalBody : ℚ) (bodyNum pointsNum : Int)
    (old : List FSplinePointMeta) : List FSplinePointMeta :=
  (List.range pointsNum.toNat).foldl
    (fun (arr : List FSplinePointMeta) (i : Nat) =>
      (arr ++ [({} : FSplinePointMeta)]).modify
        (SetActive_Point PathLength HeadLength TailLength TotalBody bodyNum pointsNum (i : Int)) i)
    old

/-- The function `ASplineMeshHoldNote::SetActive` (`SplineMeshHoldNote.cpp:102-177`).
`HeadLength` and `TailLength` are the mesh extents of lines 109-110. `Super::SetActive` is
outside the sources and is not modelled. -/
def SetActive (L : ULane) (SecondsSinceStart HeadLength TailLength : ℚ) (IsActive : Bool)
    (N : ASplineMeshHoldNote) : ASplineMeshHoldNote :=
  if !IsActive then N
  else
    { N with
      SplinePointsMeta :=
        (SetActive_Points L.MovementPathLength HeadLength TailLength
          (TotalBodyLength L SecondsSinceStart HeadLength TailLength N)
          (BodyNum L SecondsSinceStart HeadLength TailLength N)
          (PointsNum L SecondsSinceStart HeadLength TailLength N) N.SplinePointsMeta),
      SplineMeshCmpsNum :=
        (N.SplineMeshCmpsNum + (MeshesNum L SecondsSinceStart HeadLength TailLength N).toNat),
      HeadPathPercentage := (HeadLength / 2 / L.SplineLength),
      RootPathPercentage := 0,
      TailPathPercentage := (0 - TailLength / 2 / L.SplineLength) }

/-- The function `ASplineMeshHoldNote::Reset` (`SplineMeshHoldNote.cpp:179-197`). `Super::Reset` is
outside the sources and is not modelled. -/
def Reset (N : ASplineMeshHoldNote) : ASplineMeshHoldNote :=
  { N with ActiveSplinePoint := 0, SplinePointsMeta := [], SplineMeshCmpsNum := 0 }

/-- Whether iteration `i` of the loop of `MoveTick` indexes `SplineMeshCmps` (of `m`
entries) inside its bounds (`SplineMeshHoldNote.cpp:225-260`); `num` is the number of
spline points. -/
def MoveTick_MeshAccessOk (num m : Int) (i : Int) : Bool :=
  if i = 0 then decide (0 < m)
  else if i = 1 then decide (1 < m)
  else if i < m - 1 then true
  else if i = num - 2 then decide (i < m)
  else if i = num - 1 then decide (i - 1 < m)
  else true

/-- The update of one active point (`SplineMeshHoldNote.cpp:215`). -/
def MoveTick_Point (TickPercentage MaxPercentage : ℚ) (p : FSplinePointMeta) : FSplinePointMeta :=
  if p.Percentage + TickPercentage < MaxPercentage then
    { p with Percentage := p.Percentage + TickPercentage }
  else { p with Percentage := MaxPercentage }

/-- Whether the note is being held: `InButton`, button pressed, input valid
(`SplineMeshHoldNote.cpp:207`, `:265`). -/
def MoveTick_Held (L : ULane) (N : ASplineMeshHoldNote) : Bool :=
  decide (N.Location = ENoteDistance.InButton) && L.bButtonIsPressed && L.bInputValid

/-- The local `MaxPercentage` of `MoveTick` (`SplineMeshHoldNote.cpp:205-208`). -/
def MoveTick_MaxPercentage (L : ULane) (N : ASplineMeshHoldNote) : ℚ :=
  if MoveTick_Held L N then L.GetButtonPercentageAlongMovementPath else 1

/-- The advance of `HeadPathPercentage` and of `RootPathPercentage`
(`SplineMeshHoldNote.cpp:201-202`): the third operand of the conditional expression is the
bare constant `1.0f`, which assigns nothing. -/
def MoveTick_Advance (x TickPercentage : ℚ) : ℚ :=
  if x + TickPercentage < 1 then x + TickPercentage else x

/-- The chain after the loop of `MoveTick` (`SplineMeshHoldNote.cpp:211-215`): the points
up to the cursor are moved. -/
def MoveTick_Points (L : ULane) (TickPercentage : ℚ) (N : ASplineMeshHoldNote) :
    List FSplinePointMeta :=
  N.SplinePointsMeta.mapIdx
    (fun i p =>
      if (i : Int) ≤ N.ActiveSplinePoint then
        MoveTick_Point TickPercentage (MoveTick_MaxPercentage L N) p
      else p)

/-- The cursor after `SplineMeshHoldNote.cpp:264-268`, with `a` the point under the
cursor; `FMath::IsNearlyEqual(x, y, 0.01f)` is `|x - y| ≤ 1/100`. -/
def MoveTick_Ratchet (L : ULane) (N : ASplineMeshHoldNote) (a : FSplinePointMeta) : Int :=
  if (a.Percentage ≥ a.MaxPercentage ∧
        N.ActiveSplinePoint < (N.SplinePointsMeta.length : Int) - 1) ∨
      (|a.Percentage - MoveTick_MaxPercentage L N| ≤ 1/100 ∧
        N.ActiveSplinePoint < (N.SplinePointsMeta.length : Int) - 1 ∧
        MoveTick_Held L N = true)
  then N.ActiveSplinePoint + 1 else N.ActiveSplinePoint

/-- The flag `TailMeshCmp->bHiddenInGame` after `SplineMeshHoldNote.cpp:271-272`. -/
def MoveTick_TailHidden (N : ASplineMeshHoldNote) (asp : Int) : Bool :=
  if asp = (N.SplinePointsMeta.length : Int) - 1 ∧ N.bTailHiddenInGame = true then false
  else N.bTailHiddenInGame

/-- The flag `NoteState.bStationary` after `SplineMeshHoldNote.cpp:277-280`. -/
def MoveTick_Stationary (L : ULane) (N : ASplineMeshHoldNote) (tail : ℚ) : Bool :=
  if N.Location = ENoteDistance.PastButton ∧ tail < MoveTick_MaxPercentage L N ∧
      N.bStationary = false then true
  else if tail ≥ MoveTick_MaxPercentage L N ∧ N.bStationary = true then false
  else N.bStationary

/-- The function `ASplineMeshHoldNote::MoveTick` (`SplineMeshHoldNote.cpp:199-281`) with `L` the
parent lane. `none` when an array is indexed outside its bounds: `SplineMeshCmps` in the loop,
`SplinePointsMeta[ActiveSplinePoint]` at line 264. The last point, read at line 274, exists
whenever that line is reached. -/
def MoveTick (L : ULane) (TickPercentage : ℚ) (N : ASplineMeshHoldNote) :
    Option ASplineMeshHoldNote :=
  if (List.range N.SplinePointsMeta.length).all
      (fun i => MoveTick_MeshAccessOk (N.SplinePointsMeta.length : Int) N.SplineMeshCmpsNum i) then
    if 0 ≤ N.ActiveSplinePoint ∧ N.ActiveSplinePoint < (N.SplinePointsMeta.length : Int) then
      match (MoveTick_Points L TickPercentage N).get? N.ActiveSplinePoint.toNat with
      | none => none
      | some a =>
        let hidden := MoveTick_TailHidden N (MoveTick_Ratchet L N a)
        let tail :=
          if hidden = false then ((MoveTick_Points L TickPercentage N).getLastD a).Percentage
          else N.TailPathPercentage
        some { N with
          HeadPathPercentage := MoveTick_Advance N.HeadPathPercentage TickPercentage,
          RootPathPercentage := MoveTick_Advance N.RootPathPercentage TickPercentage,
          TailPathPercentage := tail,
          SplinePointsMeta := MoveTick_Points L TickPercentage N,
          ActiveSplinePoint := MoveTick_Ratchet L N a,
          bTailHiddenInGame := hidden,
          bStationary := MoveTick_Stationary L N tail }
    else none
  else none

end ASplineMeshHoldNote

/-- One `MoveTick` call on a hold note: the parent lane as it is at the call, the location
the lane has written into the note before the call (`Lane.cpp:224-229`) and the
`TickPercentage` passed. -/
structure HoldTick where
  Lane : ULane
  Location : ENoteDistance
  TickPercentage : ℚ

/-- The location write of the lane followed by `MoveTick`. -/
def HoldTick.apply (k : HoldTick) (N : ASplineMeshHoldNote) : Option ASplineMeshHoldNote :=
  ASplineMeshHoldNote.MoveTick k.Lane k.TickPercentage { N with Location := k.Location }

/-- The states of a hold note after each of a sequence of `MoveTick` calls, up to the first
call that fails. -/
def MoveTicks : ASplineMeshHoldNote → List HoldTick → List ASplineMeshHoldNote
  | _, [] => []
  | N, k :: ks =>
    match k.apply N with
    | none => []
    | some N1 => N1 :: MoveTicks N1 ks

/-- Scenario C of the specification: `MoveSpeed = 500`, path length 1000,
`SpawnTimeOffset = 1`, activation at song time `-1` of a hold note that ends at time 2
(two seconds long), head and tail 50 long. -/
def ScenarioC_Note : ASplineMeshHoldNote :=
  { Id := 1, NoteType := ENoteType.HOLD, Location := ENoteDistance.InLane, bActive := true,
    HeadPathPercentage := 0, RootPathPercentage := 0, TailPathPercentage := 0,
    bToBeDeactivated := false, bIgnoresMiss := false, HoldDuration := some 2,
    bStationary := false, EndTime := 2, SplinePointsMeta := [], ActiveSplinePoint := 0,
    SplineMeshCmpsNum := 0, bTailHiddenInGame := true }

/-- A hold note that ends at the moment its head would reach the button: activated on
the lane of Scenario A at song time `-1` its `TotalNoteLength` is 0. -/
def ShortHold_Note : ASplineMeshHoldNote :=
  { ScenarioC_Note with EndTime := 0 }

/-- The state of a hold note chain between `MoveTick` calls: `n` points, `m` meshes, the
cursor inside the chain, and every point beyond the cursor still at percentage 0. -/
def HoldInv (n m : Nat) (S : ASplineMeshHoldNote) : Prop :=
  S.SplinePointsMeta.length = n ∧ S.SplineMeshCmpsNum = m ∧
  0 ≤ S.ActiveSplinePoint ∧ S.ActiveSplinePoint < (n : Int) ∧
  ∀ (i : Nat) (p : FSplinePointMeta), S.SplinePointsMeta[i]? = some p →
    S.ActiveSplinePoint < (i : Int) → p.Percentage = 0

/-- The cursor does not move back from one state to the next. -/
def CursorNotBack (A B : ASplineMeshHoldNote) : Prop :=
  A.ActiveSplinePoint ≤ B.ActiveSplinePoint

/-- The hold note of Scenario C activated on the lane of Scenario A. -/
def ScenarioC_Active : ASplineMeshHoldNote :=
  ASplineMeshHoldNote.SetActive ScenarioA_Lane (-1) 50 50 true
    (ASplineMeshHoldNote.Reset ScenarioC_Note)

/-- Nine ticks of 5% of the path with the note still `InLane` and the button up. -/
def ScenarioC_Ticks : List HoldTick :=
  List.replicate 9
    { Lane := ScenarioA_Lane, Location := ENoteDistance.InLane, TickPercentage := 1/20 }

/-- A tick of 10% of the path with the note `InButton`, the button pressed and the input
valid. -/
def ScenarioC_HeldTick : HoldTick :=
  { Lane := { ScenarioA_Lane with bButtonIsPressed := true, bFirstFrame := false },
    Location := ENoteDistance.InButton, TickPercentage := 1/10 }

/-- A lane whose map starts with a row that is EMPTY for this lane, followed by a SINGLE
note one second later; no note is active and the scheduler stands at the first row. -/
def MarkerRow_Lane : ULane :=
  { ScenarioA_Lane with
    LevelMap := [{ Time := 0, Lanes := [ENoteType.EMPTY] }, { Time := 1, Lanes := [ENoteType.SINGLE] }],
    NoteIndex := 0, Notes := [] }

/-- The lane scheduler called `k` times in a row, at the song times `now k`, …, `now 1`. -/
def NoteSpawnTimes (nc : NoteClasses) (pool : ENoteType → ABaseNote) (draw : Nat → Int)
    (now : Nat → ℚ) : Nat → ULane → Option ULane
  | 0, L => some L
  | k + 1, L =>
    (ULane.NoteSpawn (PlayingAt (now (k + 1))) nc pool draw L).bind
      (NoteSpawnTimes nc pool draw now k)

/-! ## Lane scheduler scenarios -/

/-- A lane whose map holds two SINGLE rows, at times 0 and 1/10, both due at song time 0
with `SpawnTimeOffset = 1`; no note is active and the scheduler stands at the first row. -/
def TwoDueRows_Lane : ULane :=
  { ScenarioA_Lane with
    LevelMap := [{ Time := 0, Lanes := [ENoteType.SINGLE] },
                 { Time := 1/10, Lanes := [ENoteType.SINGLE] }],
    NoteIndex := 0, Notes := [] }

/-- No row is due and left unprocessed at song time `now`: the scheduler is at (or beyond)
the end of the map, or the row it stands at is not due yet. -/
def NoDueRowLeft (now : ℚ) (L : ULane) : Prop :=
  L.LevelMap.length ≤ L.NoteIndex ∨
    ∃ row, L.LevelMap.get? L.NoteIndex = some row ∧ row.Time - L.SpawnTimeOffset > now

/-- The type is one of the three markers `NoteSpawn` returns on (`Lane.cpp:135-137`). -/
def IsMarker (t : ENoteType) : Prop :=
  t = ENoteType.EMPTY ∨ t = ENoteType.HOLD ∨ t = ENoteType.END_HOLD

/-! ## Special substitution: reference of the specification -/

/-- Checks evaluated in order: an enabled check takes the next draw and triggers when the
draw is 0; the result is the type of the last enabled check that triggered, or `cur`
when there is none. `k` counts the draws taken so far. -/
def LastTriggered (draw : Nat → Int) : List (Bool × ENoteType) → Nat → ENoteType → ENoteType
  | [], _, cur => cur
  | (enabled, ty) :: rest, k, cur =>
    if enabled then LastTriggered draw rest (k + 1) (if draw k = 0 then ty else cur)
    else LastTriggered draw rest k cur

/-- The reference of the specification (§4.1, "Special substitution") for
`RandSwapForSpecial`: a type other than SINGLE is returned unchanged; for SINGLE the
checks bomb, igc, rand are evaluated in that order, each enabled iff its frequency is
positive, and the last enabled check that triggered decides. -/
def RandSwapForSpecial_Reference (BombFreq IgcFreq RandFreq : Int) (draw : Nat → Int)
    (NoteType : ENoteType) : ENoteType :=
  if NoteType = ENoteType.SINGLE then
    LastTriggered draw
      [(decide (BombFreq > 0), ENoteType.BOMB), (decide (IgcFreq > 0), ENoteType.IGC),
       (decide (RandFreq > 0), ENoteType.RANDOM)] 0 ENoteType.SINGLE
  else NoteType

/-- The same reference with the bomb check enabled iff the switch `bBombsEnabled` is on and
the bomb frequency is positive. -/
def RandSwapForSpecial_Switched (bBombsEnabled : Bool) (BombFreq IgcFreq RandFreq : Int)
    (draw : Nat → Int) (NoteType : ENoteType) : ENoteType :=
  if NoteType = ENoteType.SINGLE then
    LastTriggered draw
      [(bBombsEnabled && decide (BombFreq > 0), ENoteType.BOMB),
       (decide (IgcFreq > 0), ENoteType.IGC),
       (decide (RandFreq > 0), ENoteType.RANDOM)] 0 ENoteType.SINGLE
  else NoteType

/-- A lane configuration with the bomb switch off and a positive bomb frequency. -/
def BombsOff_Lane : ULane :=
  { ScenarioA_Lane with bBombsEnabled := false, BombSpawnFreq := 5 }

/-! ## Hold durations handed out by the scheduler -/

/-- The durations the hold notes of a lane were activated with, in the order of `Notes`. -/
def HoldDurations (Notes : List ABaseNote) : List (Option ℚ) :=
  (Notes.filter (fun n => decide (n.NoteType = ENoteType.HOLD))).map (·.HoldDuration)

/-- One call of the scheduler: the game mode, the note pool and the draws at that call. -/
structure SpawnCall where
  gm : ARhythmGameGameMode
  pool : ENoteType → ABaseNote
  draw : Nat → Int

/-- A sequence of `NoteSpawn` calls; `none` when one of them fails. -/
def NoteSpawnCalls (nc : NoteClasses) : ULane → List SpawnCall → Option ULane
  | L, [] => some L
  | L, c :: cs => (ULane.NoteSpawn c.gm nc c.pool c.draw L).bind (fun L1 => NoteSpawnCalls nc L1 cs)

/-- The pool hands out a hold note exactly when a hold note is asked for
(`GetPooledObject(ENoteType::HOLD)`). -/
def PoolTyped (pool : ENoteType → ABaseNote) : Prop :=
  ∀ t, (pool t).NoteType = ENoteType.HOLD ↔ t = ENoteType.HOLD

/-- The call `Note->SetActive(true)` leaves the type of the note and the duration given to
`SetHoldDuration` alone. -/
def SetActiveKeepsHold (nc : NoteClasses) : Prop :=
  ∀ n, (nc.SetActive n).NoteType = n.NoteType ∧ (nc.SetActive n).HoldDuration = n.HoldDuration

/-- The durations of the hold notes in the lane are the first `HoldNoteIndex` entries of
the hold table, in order. -/
def HoldsInTableOrder (L : ULane) : Prop :=
  HoldDurations L.Notes = (L.HoldNoteData.take L.HoldNoteIndex).map (fun p => some p.2)

/-- A lane with three rows for lane 0, BEG_HOLD, SINGLE, BEG_HOLD, and a hold table of two
entries with durations 2 and 3. -/
def TwoHolds_Lane : ULane :=
  { ScenarioA_Lane with
    LevelMap := [{ Time := 0, Lanes := [ENoteType.BEG_HOLD] },
                 { Time := 1, Lanes := [ENoteType.SINGLE] },
                 { Time := 2, Lanes := [ENoteType.BEG_HOLD] }],
    HoldNoteData := [(0, 2), (2, 3)],
    NoteIndex := 0, HoldNoteIndex := 0, Notes := [] }

/-- Three calls of the scheduler on `TwoHolds_Lane`, at song times 0, 1 and 2. -/
def TwoHolds_Calls : List SpawnCall :=
  [{ gm := PlayingAt 0, pool := ScenarioA_Pool, draw := fun _ => 1 },
   { gm := PlayingAt 1, pool := ScenarioA_Pool, draw := fun _ => 1 },
   { gm := PlayingAt 2, pool := ScenarioA_Pool, draw := fun _ => 1 }]

/-! ## Lead time of a spawned note -/

/-- The value of `RootPathPercentage` after a sequence of `MoveTick` calls with the given
tick percentages (`SplineMeshHoldNote.cpp:202`). -/
def RootPathTicks (root : ℚ) (ticks : List ℚ) : ℚ :=
  ticks.foldl ASplineMeshHoldNote.MoveTick_Advance root

/-- The lane of Scenario A before its speed is set. -/
def ScenarioA_Unset : ULane :=
  { ScenarioA_Lane with MoveSpeed := 0, SpawnTimeOffset := 0 }

/-- Three `MoveTick` calls on a note in the lane of Scenario A for frames of 1/2, 1/4 and
1/4 seconds: 25%, 12.5% and 12.5% of the path. -/
def LeadTime_Ticks : List HoldTick :=
  [{ Lane := ScenarioA_Lane, Location := ENoteDistance.InLane, TickPercentage := 1/4 },
   { Lane := ScenarioA_Lane, Location := ENoteDistance.InLane, TickPercentage := 1/8 },
   { Lane := ScenarioA_Lane, Location := ENoteDistance.InLane, TickPercentage := 1/8 }]

/-! ## Resuming with `CustomStart` -/

/-- A lane whose map has two BEG_HOLD rows, at times 10 and 20, with the matching hold
table, and both cursors at 0. -/
def PastEnd_Lane : ULane :=
  { ScenarioA_Lane with
    LevelMap := [{ Time := 10, Lanes := [ENoteType.BEG_HOLD] },
                 { Time := 20, Lanes := [ENoteType.BEG_HOLD] }],
    HoldNoteData := [(10, 1), (20, 1)],
    NoteIndex := 0, HoldNoteIndex := 0, Notes := [] }

/-! ## Entering the button window -/

/-- What `MoveTick` of any note class leaves alone, further: `NoteState.Location`, which
only `UpdateDistance` writes (the hold note's `MoveTick`, `SplineMeshHoldNote.cpp:199-281`,
reads it). -/
def MoveTickKeepsLocation (nc : NoteClasses) : Prop :=
  ∀ (n : ABaseNote) (d : ℚ), (nc.MoveTick n d).Location = n.Location

/-- An `InLane` note whose head is exactly at the start boundary of Scenario A (40%) and
whose tail is at 30%. -/
def AtBoundary_Note : ABaseNote :=
  { ScenarioA_Note with
    HeadPathPercentage := 2/5, RootPathPercentage := 7/20, TailPathPercentage := 3/10 }

/-- The lane of Scenario A holding `AtBoundary_Note`. -/
def AtBoundary_Lane : ULane :=
  { ScenarioA_Lane with Notes := [AtBoundary_Note] }

/-- An `InLane` note whose head is at 45%, past the start boundary of Scenario A, and
whose tail is at 35%. -/
def PastBoundary_Note : ABaseNote :=
  { ScenarioA_Note with
    HeadPathPercentage := 9/20, RootPathPercentage := 2/5, TailPathPercentage := 7/20 }

/-- The lane of Scenario A holding `PastBoundary_Note`. -/
def PastBoundary_Lane : ULane :=
  { ScenarioA_Lane with Notes := [PastBoundary_Note] }

/-! ## Miss sweep with several notes -/

/-- No note of the list takes a branch of the second loop of `ULane::UpdateNotes`
(`Lane.cpp:245`, `:257`), so the loop runs past all of them. -/
def SweepPasses (l : List ABaseNote) : Prop :=
  ∀ m ∈ l, ¬ (m.Location = ENoteDistance.PastButton ∧ m.bToBeDeactivated = false) ∧
    ¬ (m.TailPathPercentage ≥ 1 ∧ m.bToBeDeactivated = true)

/-- A note still `InButton` that a long frame has carried to 75% of the path. -/
def Past_Note0 : ABaseNote :=
  { ScenarioA_Note with
    Id := 0, Location := ENoteDistance.InButton,
    HeadPathPercentage := 3/4, RootPathPercentage := 3/4, TailPathPercentage := 3/4 }

/-- A second note still `InButton` that the same frame has carried to 70% of the path. -/
def Past_Note1 : ABaseNote :=
  { ScenarioA_Note with
    Id := 1, Location := ENoteDistance.InButton,
    HeadPathPercentage := 7/10, RootPathPercentage := 7/10, TailPathPercentage := 7/10 }

/-- The lane of Scenario A holding the two notes, both past `BoundaryEnd` (60%). -/
def TwoPast_Lane : ULane :=
  { ScenarioA_Lane with Notes := [Past_Note0, Past_Note1] }

/-- The lane of Scenario A holding a note at the start of the path and, behind it in
`Notes`, a note past `BoundaryEnd`. -/
def OnePast_Lane : ULane :=
  { ScenarioA_Lane with Notes := [{ ScenarioA_Note with Id := 0 }, Past_Note1] }

/-! ## Root advance of the hold note -/

/-- Three ticks of 30% of the path and then one tick of 20%, the button up, on the lane of
Scenario A. -/
def NearEnd_Ticks : List HoldTick :=
  [{ Lane := ScenarioA_Lane, Location := ENoteDistance.InLane, TickPercentage := 3/10 },
   { Lane := ScenarioA_Lane, Location := ENoteDistance.InLane, TickPercentage := 3/10 },
   { Lane := ScenarioA_Lane, Location := ENoteDistance.InButton, TickPercentage := 3/10 },
   { Lane := ScenarioA_Lane, Location := ENoteDistance.PastButton, TickPercentage := 1/5 }]

/-! ## Growth of the chain points -/

/-- Three ticks with the button up, of 25%, 25% and 5% of the path, that carry the head
point of the chain to 55%, past the button (50%), the note being `InButton` at the last. -/
def LatePress_Ticks : List HoldTick :=
  [{ Lane := ScenarioA_Lane, Location := ENoteDistance.InLane, TickPercentage := 1/4 },
   { Lane := ScenarioA_Lane, Location := ENoteDistance.InLane, TickPercentage := 1/4 },
   { Lane := ScenarioA_Lane, Location := ENoteDistance.InButton, TickPercentage := 1/20 }]

/-- The percentages of the chain points of a hold note. -/
def ChainPercentages (N : ASplineMeshHoldNote) : List ℚ :=
  N.SplinePointsMeta.map (·.Percentage)

/-! ## Several notes in the button window -/

/-- A lane whose notes are, in the order of `Notes`: a note already `PastButton` (id 2),
and two notes that are both `InButton` (ids 0 and 1). -/
def TwoInButton_Lane : ULane :=
  { ScenarioA_Lane with
    Notes :=
      [{ ScenarioA_Note with
          Id := 2, Location := ENoteDistance.PastButton, bToBeDeactivated := true,
          HeadPathPercentage := 7/10, RootPathPercentage := 7/10, TailPathPercentage := 7/10 },
       { ScenarioA_Note with
          Id := 0, Location := ENoteDistance.InButton,
          HeadPathPercentage := 11/20, RootPathPercentage := 11/20, TailPathPercentage := 11/20 },
       { ScenarioA_Note with
          Id := 1, Location := ENoteDistance.InButton,
          HeadPathPercentage := 9/20, RootPathPercentage := 9/20, TailPathPercentage := 9/20 }],
    NoteWithinBounds := none }

/-! ## The loaded map under `NoteSpawn` -/

/-- A running game at song time 0 with `IgcNoteSpawnFreq = 1` and the random substitution
switched off. -/
def IgcOn_Game : ARhythmGameGameMode :=
  { PlayingAt 0 with IgcNoteSpawnFreq := 1 }

/-! ## Loading a map -/

/-- A map whose Time column is not increasing: a row at time 2 followed by a row at
time 1. -/
def Unsorted_Rows : List FLevelMapRow :=
  [{ Time := 2, Lanes := [ENoteType.SINGLE] }, { Time := 1, Lanes := [ENoteType.SINGLE] }]

/-! ## The note within bounds across a reset -/

/-- A lane at song time 5: the note of its one row (time 5) is at the button, `InButton`,
and is the note within bounds. -/
def InWindow_Lane : ULane :=
  { ScenarioA_Lane with
    LevelMap := [{ Time := 5, Lanes := [ENoteType.SINGLE] }], NoteIndex := 1,
    Notes :=
      [{ ScenarioA_Note with
          Id := 0, Location := ENoteDistance.InButton,
          HeadPathPercentage := 1/2, RootPathPercentage := 1/2, TailPathPercentage := 1/2 }],
    NoteWithinBounds := some 0 }

/-! ## Download bookkeeping (`UPatchController`) -/

/-- The enum `FChunkDownloader::EChunkStatus`, with the six values the sources name
(`PatchController.cpp:261`, `:320`, `:432-450`). -/
inductive EChunkStatus
  | Mounted
  | Cached
  | Downloading
  | Partial
  | Remote
  | Unknown
  deriving DecidableEq, Repr

/-- The delegates `FinishedDownloadingChunk` broadcasts (`PatchController.h:85-89`). -/
inductive PatchEvent
  | OnLevelDownloadSuccess (LevelID : Int)
  | OnLevelDownloadFailure (LevelID : Int)
  | OnSongDownloadSuccess (SongID : Int)
  | OnSongDownloadFailure (SongID : Int)
  deriving DecidableEq, Repr

/-- The two download lists of the patch controller (`PatchController.h:189-191`). -/
structure UPatchController where
  LevelDownloadList : List Int
  SongDownloadList : List Int
  deriving DecidableEq, Repr

/-- What `FinishedDownloadingChunk` reads from outside the controller:
`Downloader->GetChunkStatus(AssetIDtoChunkID(EAssetType::LEVEL, LevelID))` and the same for
a song. -/
structure FChunkDownloader where
  LevelStatus : Int → EChunkStatus
  SongStatus : Int → EChunkStatus

namespace UPatchController

/-- One of the two loops of `UPatchController::FinishedDownloadingChunk`
(`PatchController.cpp:424-457`, `:460-493`), from index `i` on: the entry at `i` is
notified and removed with `RemoveAt(i)` when its chunk is `Mounted`, `Partial`, `Remote`
or `Unknown`, and in every case the index is then incremented. The first argument bounds
the number of iterations. -/
def FinishedDownloadingChunk_Loop (status : Int → EChunkStatus)
    (Success Failure : Int → PatchEvent) :
    Nat → Nat → List Int → List PatchEvent → List Int × List PatchEvent
  | 0, _, list, ev => (list, ev)
  | fuel + 1, i, list, ev =>
    match list.get? i with
    | none => (list, ev)
    | some id =>
      match status id with
      | EChunkStatus.Mounted =>
        FinishedDownloadingChunk_Loop status Success Failure fuel (i + 1) (list.eraseIdx i)
          (ev ++ [Success id])
      | EChunkStatus.Partial =>
        FinishedDownloadingChunk_Loop status Success Failure fuel (i + 1) (list.eraseIdx i)
          (ev ++ [Failure id])
      | EChunkStatus.Remote =>
        FinishedDownloadingChunk_Loop status Success Failure fuel (i + 1) (list.eraseIdx i)
          (ev ++ [Failure id])
      | EChunkStatus.Unknown =>
        FinishedDownloadingChunk_Loop status Success Failure fuel (i + 1) (list.eraseIdx i)
          (ev ++ [Failure id])
      | _ => FinishedDownloadingChunk_Loop status Success Failure fuel (i + 1) list ev

/-- The function `UPatchController::FinishedDownloadingChunk` (`PatchController.cpp:419-494`);
the second component lists the broadcasts in order. Each loop makes at most as many
iterations as its list has entries at the start. -/
def FinishedDownloadingChunk (D : FChunkDownloader) (P : UPatchController) :
    UPatchController × List PatchEvent :=
  let levels := FinishedDownloadingChunk_Loop D.LevelStatus PatchEvent.OnLevelDownloadSuccess
    PatchEvent.OnLevelDownloadFailure P.LevelDownloadList.length 0 P.LevelDownloadList []
  let songs := FinishedDownloadingChunk_Loop D.SongStatus PatchEvent.OnSongDownloadSuccess
    PatchEvent.OnSongDownloadFailure P.SongDownloadList.length 0 P.SongDownloadList levels.2
  ({ LevelDownloadList := levels.1, SongDownloadList := songs.1 }, songs.2)

end UPatchController

/-- A chunk downloader that reports every chunk as mounted. -/
def AllMounted : FChunkDownloader :=
  { LevelStatus := fun _ => EChunkStatus.Mounted, SongStatus := fun _ => EChunkStatus.Mounted }

/-- A controller waiting for the levels 1 and 2 and the songs 7, 8 and 9. -/
def TwoLevels_Controller : UPatchController :=
  { LevelDownloadList := [1, 2], SongDownloadList := [7, 8, 9] }

/-- The chunk statuses for which `FinishedDownloadingChunk` notifies and removes an
entry. -/
def IsFinished (s : EChunkStatus) : Prop :=
  s = EChunkStatus.Mounted ∨ s = EChunkStatus.Partial ∨ s = EChunkStatus.Remote ∨
    s = EChunkStatus.Unknown

/-! ## Note type resolver (`FNoteMeta`) -/

/-- The comparison `_NoteType == "…"` of `FString` with a literal. The operator belongs to
the engine, not to the sources; it compares the two strings ignoring the case of the
letters A to Z. -/
def FString_eq (a b : String) : Bool :=
  decide (a.data.map Char.toLower = b.data.map Char.toLower)

/-- The seven `bUsing…` flags of `FNoteMeta` (`NoteMeta.h:50-69`); the mesh references and
colours of the struct are left out. -/
structure FNoteMeta where
  bUsingSingleStatic : Bool := false
  bUsingSingleSprite : Bool := false
  bUsingSingleSkeletal : Bool := false
  bUsingHoldStatic : Bool := false
  bUsingHoldSprite : Bool := false
  bUsingHoldSkeletal : Bool := false
  bUsingHoldSpline : Bool := false
  deriving DecidableEq, Repr

namespace FNoteMeta

/-- The function `FNoteMeta::SetUsingType` (`NoteMeta.h:72-153`), branch by branch. The last
branch assigns six flags and leaves `bUsingHoldSpline` as it is. -/
def SetUsingType (_NoteType : String) (M : FNoteMeta) : FNoteMeta :=
  if FString_eq _NoteType "SingleStatic" then
    { M with
      bUsingSingleStatic := true, bUsingSingleSprite := false, bUsingSingleSkeletal := false,
      bUsingHoldStatic := false, bUsingHoldSprite := false, bUsingHoldSkeletal := false,
      bUsingHoldSpline := false }
  else if FString_eq _NoteType "HoldStatic" || FString_eq _NoteType "HoldSpline" then
    { M with
      bUsingSingleStatic := false, bUsingSingleSprite := false, bUsingSingleSkeletal := false,
      bUsingHoldStatic := true, bUsingHoldSprite := false, bUsingHoldSkeletal := false,
      bUsingHoldSpline := false }
  else if FString_eq _NoteType "SingleSkeletal" then
    { M with
      bUsingSingleStatic := false, bUsingSingleSprite := false, bUsingSingleSkeletal := true,
      bUsingHoldStatic := false, bUsingHoldSprite := false, bUsingHoldSkeletal := false,
      bUsingHoldSpline := false }
  else if FString_eq _NoteType "HoldSkeletal" then
    { M with
      bUsingSingleStatic := false, bUsingSingleSprite := false, bUsingSingleSkeletal := false,
      bUsingHoldStatic := false, bUsingHoldSprite := false, bUsingHoldSkeletal := true,
      bUsingHoldSpline := false }
  else if FString_eq _NoteType "SingleSprite" then
    { M with
      bUsingSingleStatic := false, bUsingSingleSprite := true, bUsingSingleSkeletal := false,
      bUsingHoldStatic := false, bUsingHoldSprite := false, bUsingHoldSkeletal := false,
      bUsingHoldSpline := false }
  else if FString_eq _NoteType "HoldSprite" then
    { M with
      bUsingSingleStatic := false, bUsingSingleSprite := false, bUsingSingleSkeletal := false,
      bUsingHoldStatic := false, bUsingHoldSprite := true, bUsingHoldSkeletal := false,
      bUsingHoldSpline := false }
  else if FString_eq _NoteType "HoldSpline" then
    { M with
      bUsingSingleStatic := false, bUsingSingleSprite := false, bUsingSingleSkeletal := false,
      bUsingHoldStatic := false, bUsingHoldSprite := false, bUsingHoldSkeletal := false,
      bUsingHoldSpline := true }
  else
    { M with
      bUsingSingleStatic := false, bUsingSingleSprite := false, bUsingSingleSkeletal := false,
      bUsingHoldStatic := false, bUsingHoldSprite := false, bUsingHoldSkeletal := false }

/-- The flags of the struct that are set, by name, in the order of their declaration. -/
def UsingFlags (M : FNoteMeta) : List String :=
  (if M.bUsingSingleStatic then ["SingleStatic"] else []) ++
  (if M.bUsingSingleSprite then ["SingleSprite"] else []) ++
  (if M.bUsingSingleSkeletal then ["SingleSkeletal"] else []) ++
  (if M.bUsingHoldStatic then ["HoldStatic"] else []) ++
  (if M.bUsingHoldSprite then ["HoldSprite"] else []) ++
  (if M.bUsingHoldSkeletal then ["HoldSkeletal"] else []) ++
  (if M.bUsingHoldSpline then ["HoldSpline"] else [])

end FNoteMeta

/-! ## Ordering of the chain -/

/-- The `MaxPercentage` values of the head point, the body points and the tail point of a
chain with `bodyNum` body points: the indices `0 .. bodyNum + 1`. -/
def ChainMaxPercentages (N : ASplineMeshHoldNote) (bodyNum : Int) : List ℚ :=
  (N.SplinePointsMeta.take (bodyNum + 2).toNat).map (·.MaxPercentage)

/-- A hold note like that of Scenario C that ends at time 19/10: activated on the lane of
Scenario A at song time `-1` its `TotalNoteLength` is 950. -/
def Hold950_Note : ASplineMeshHoldNote :=
  { ScenarioC_Note with EndTime := 19/10 }

theorem UpdateNotes_Location_cases (bs be : ℚ) (loc : ENoteDistance) (h t : ℚ) :
    (UpdateNotes_Location bs be loc h t = ENoteDistance.InLane ∧
        (h < bs ∨ loc = ENoteDistance.InLane)) ∨
    (UpdateNotes_Location bs be loc h t = ENoteDistance.InButton ∧
        ((bs < h ∧ t < be) ∨ loc = ENoteDistance.InButton)) ∨
    (UpdateNotes_Location bs be loc h t = ENoteDistance.PastButton ∧
        (be ≤ t ∨ loc = ENoteDistance.PastButton)) := by
  unfold UpdateNotes_Location
  cases loc <;> split_ifs <;> simp_all

/-- From a location that is consistent with the positions still to come (an `InButton`
note has its head beyond the start boundary from now on, a `PastButton` note has its tail
at or beyond the end boundary and its head at or beyond the start boundary), no tick
steps backward. -/
theorem LocationTrace_chain (bs be : ℚ) :
    ∀ (obs : List (ℚ × ℚ)) (loc : ENoteDistance),
      List.Pairwise (fun a b : ℚ × ℚ => a.1 ≤ b.1 ∧ a.2 ≤ b.2) obs →
      (loc = ENoteDistance.InButton → ∀ p ∈ obs, bs < p.1) →
      (loc = ENoteDistance.PastButton → ∀ p ∈ obs, be ≤ p.2 ∧ bs ≤ p.1) →
      (∀ p ∈ obs, p.2 ≤ p.1) → bs ≤ be →
      List.Chain' NoBackwardStep (LocationTrace bs be loc obs) := by
  intro obs
  induction obs with
  | nil => intro loc _ _ _ _ _; simp [LocationTrace]
  | cons p rest ih =>
    intro loc hpw hB hP hth hbe
    rw [List.pairwise_cons] at hpw
    obtain ⟨hp, hrest⟩ := hpw
    have hstep : NoBackwardStep loc (UpdateNotes_Location bs be loc p.1 p.2) := by
      constructor
      · intro hl
        have h1 := hB hl p (List.mem_cons_self _ _)
        unfold UpdateNotes_Location
        subst hl
        split_ifs <;> simp_all
        all_goals linarith
      · intro hl
        have h1 := hP hl p (List.mem_cons_self _ _)
        unfold UpdateNotes_Location
        subst hl
        split_ifs <;> simp_all
        all_goals linarith
    have hrec := ih (UpdateNotes_Location bs be loc p.1 p.2) hrest
      (by
        intro hl q hq
        have hmono := hp q hq
        rcases UpdateNotes_Location_cases bs be loc p.1 p.2 with h | h | h
        · rw [h.1] at hl; cases hl
        · rcases h.2 with h2 | h2
          · linarith [h2.1, hmono.1]
          · exact hB h2 q (List.mem_cons_of_mem _ hq)
        · rw [h.1] at hl; cases hl)
      (by
        intro hl q hq
        have hmono := hp q hq
        have hqth := hth q (List.mem_cons_of_mem _ hq)
        rcases UpdateNotes_Location_cases bs be loc p.1 p.2 with h | h | h
        · rw [h.1] at hl; cases hl
        · rw [h.1] at hl; cases hl
        · rcases h.2 with h2 | h2
          · constructor <;> linarith [hmono.2]
          · exact hP h2 q (List.mem_cons_of_mem _ hq))
      (fun q hq => hth q (List.mem_cons_of_mem _ hq)) hbe
    cases rest with
    | nil => simp [LocationTrace, hstep]
    | cons q rest2 =>
      simp only [LocationTrace] at hrec ⊢
      exact List.Chain'.cons hstep hrec

theorem forwardMovement_pairwise (obs : List (ℚ × ℚ)) (h : ForwardMovement obs) :
    List.Pairwise (fun a b : ℚ × ℚ => a.1 ≤ b.1 ∧ a.2 ≤ b.2) obs := by
  unfold ForwardMovement at h
  haveI : IsTrans (ℚ × ℚ) (fun a b : ℚ × ℚ => a.1 ≤ b.1 ∧ a.2 ≤ b.2) :=
    ⟨fun a b c hab hbc => ⟨le_trans hab.1 hbc.1, le_trans hab.2 hbc.2⟩⟩
  exact List.chain'_iff_pairwise.mp h

/-- The lists of distinct locations a trace can show when it starts in `a`. -/
theorem destutter_of_noBackward :
    ∀ (l : List ENoteDistance) (a : ENoteDistance), List.Chain NoBackwardStep a l →
      (a = ENoteDistance.InLane →
        List.destutter' (· ≠ ·) a l ∈
          [[ENoteDistance.InLane],
           [ENoteDistance.InLane, ENoteDistance.InButton],
           [ENoteDistance.InLane, ENoteDistance.InButton, ENoteDistance.PastButton],
           [ENoteDistance.InLane, ENoteDistance.PastButton]]) ∧
      (a = ENoteDistance.InButton →
        List.destutter' (· ≠ ·) a l ∈
          [[ENoteDistance.InButton], [ENoteDistance.InButton, ENoteDistance.PastButton]]) ∧
      (a = ENoteDistance.PastButton →
        List.destutter' (· ≠ ·) a l = [ENoteDistance.PastButton]) := by
  intro l
  induction l with
  | nil => intro a _; cases a <;> simp [List.destutter']
  | cons b l ih =>
    intro a hc
    rw [List.chain_cons] at hc
    obtain ⟨hab, hl⟩ := hc
    obtain ⟨ihL, ihB, ihP⟩ := ih b hl
    unfold NoBackwardStep at hab
    cases a <;> cases b <;> simp_all [List.destutter']
    tauto

/-- C2. Under forward movement (head and tail percentages non-decreasing from tick to
tick, tail ≤ head, BoundaryStart ≤ BoundaryEnd) the classification of
`ULane::UpdateNotes` never moves a note (activated `InLane`, `Lane.cpp:525`) backward:
at every tick an `InButton` note is not set back to `InLane`, and a `PastButton` note
stays `PastButton`. -/
theorem C2_location_never_moves_backward (bs be : ℚ) (obs : List (ℚ × ℚ))
    (hfw : ForwardMovement obs) (hth : TailBehindHead obs) (hbe : bs ≤ be) :
    List.Chain' NoBackwardStep (LocationTrace bs be ENoteDistance.InLane obs) :=
  LocationTrace_chain bs be obs ENoteDistance.InLane (forwardMovement_pairwise obs hfw)
    (by intro h; cases h) (by intro h; cases h) hth hbe

theorem C2_location_never_moves_backward_witness :
    List.Chain' NoBackwardStep
      (LocationTrace (2/5) (3/5) ENoteDistance.InLane
        [(0, 0), (1/2, 9/20), (7/10, 13/20), (4/5, 3/4)]) :=
  C2_location_never_moves_backward (2/5) (3/5) [(0, 0), (1/2, 9/20), (7/10, 13/20), (4/5, 3/4)]
    (by unfold ForwardMovement; norm_num)
    (by unfold TailBehindHead; norm_num)
    (by norm_num)

/-- C1 (as stated) fails: with boundaries 2/5 and 3/5, a note seen at 0 and then, one
large tick later, at 7/10 (head and tail) goes from `InLane` straight to `PastButton`;
its distinct locations `[InLane, PastButton]` are not a prefix of
`[InLane, InButton, PastButton]`. -/
theorem C1_counterexample :
    ForwardMovement [((0 : ℚ), (0 : ℚ)), (7/10, 7/10)] ∧
    TailBehindHead [((0 : ℚ), (0 : ℚ)), (7/10, 7/10)] ∧
    ((2 : ℚ)/5 ≤ 3/5) ∧
    (LocationTrace (2/5) (3/5) ENoteDistance.InLane [(0, 0), (7/10, 7/10)]).destutter (· ≠ ·)
      = [ENoteDistance.InLane, ENoteDistance.PastButton] ∧
    ¬ ((LocationTrace (2/5) (3/5) ENoteDistance.InLane [(0, 0), (7/10, 7/10)]).destutter (· ≠ ·)
        <+: [ENoteDistance.InLane, ENoteDistance.InButton, ENoteDistance.PastButton]) := by
  have htrace : (LocationTrace (2/5) (3/5) ENoteDistance.InLane
      [(0, 0), (7/10, 7/10)]).destutter (· ≠ ·)
      = [ENoteDistance.InLane, ENoteDistance.PastButton] := by
    norm_num [LocationTrace, UpdateNotes_Location, List.destutter, List.destutter']
    decide
  refine ⟨by unfold ForwardMovement; norm_num, by unfold TailBehindHead; norm_num,
    by norm_num, htrace, ?_⟩
  rw [htrace]
  decide

/-- C1 (amended). Under forward movement (head and tail never decrease, tail ≤ head,
BoundaryStart ≤ BoundaryEnd) the distinct locations a note takes over any sequence of
`ULane::UpdateNotes` ticks, in order, never regress: they are `[InLane]`,
`[InLane, InButton]`, `[InLane, InButton, PastButton]` or `[InLane, PastButton]`. -/
theorem C1_locations_never_regress (bs be : ℚ) (obs : List (ℚ × ℚ))
    (hfw : ForwardMovement obs) (hth : TailBehindHead obs) (hbe : bs ≤ be) :
    (LocationTrace bs be ENoteDistance.InLane obs).destutter (· ≠ ·) ∈
      [[ENoteDistance.InLane],
       [ENoteDistance.InLane, ENoteDistance.InButton],
       [ENoteDistance.InLane, ENoteDistance.InButton, ENoteDistance.PastButton],
       [ENoteDistance.InLane, ENoteDistance.PastButton]] := by
  have hchain := LocationTrace_chain bs be obs ENoteDistance.InLane
    (forwardMovement_pairwise obs hfw) (by intro h; cases h) (by intro h; cases h) hth hbe
  cases obs with
  | nil => simp [LocationTrace, List.destutter, List.destutter']
  | cons p rest =>
    simp only [LocationTrace] at hchain ⊢
    exact (destutter_of_noBackward _ _ hchain).1 rfl

theorem C1_locations_never_regress_witness :
    (LocationTrace (2/5) (3/5) ENoteDistance.InLane
        [(0, 0), (1/2, 9/20), (7/10, 13/20), (4/5, 3/4)]).destutter (· ≠ ·) ∈
      [[ENoteDistance.InLane],
       [ENoteDistance.InLane, ENoteDistance.InButton],
       [ENoteDistance.InLane, ENoteDistance.InButton, ENoteDistance.PastButton],
       [ENoteDistance.InLane, ENoteDistance.PastButton]] :=
  C1_locations_never_regress (2/5) (3/5) [(0, 0), (1/2, 9/20), (7/10, 13/20), (4/5, 3/4)]
    (by unfold ForwardMovement; norm_num)
    (by unfold TailBehindHead; norm_num)
    (by norm_num)

/-! ## Miss sweep of `ULane::UpdateNotes` -/

theorem allFlagged_setToBeDeactivated_self (id : Nat) (l : List ABaseNote) :
    AllFlagged id (ULane.SetToBeDeactivated id l) := by
  intro m hm hid
  simp only [ULane.SetToBeDeactivated, List.mem_map] at hm
  obtain ⟨a, ha, rfl⟩ := hm
  by_cases hk : a.Id = id
  · simp [hk]
  · simp only [hk, if_false] at hid

/-- Scenario A through whole frames (`TickComponent`): the note is spawned at song time
`-1`, is missed once when it is past the button, and is then removed at the end of the
path; that is all the lane sends. -/
theorem scenarioA_frames :
    (LaneOp.run SimpleNotes ScenarioA_Start (ScenarioA_Frames.take 1)).1.Notes
      = [{ ScenarioA_Note with
            HeadPathPercentage := 1/4, RootPathPercentage := 1/4, TailPathPercentage := 1/4 }] ∧
    (LaneOp.run SimpleNotes ScenarioA_Start ScenarioA_Frames).2
      = [LaneEvent.OnNoteMiss 0, LaneEvent.NoteReset 0] ∧
    (LaneOp.run SimpleNotes ScenarioA_Start ScenarioA_Frames).1.Notes = [] := by
  decide!

theorem ActivateNote_pressFlags (nc : NoteClasses) (n : ABaseNote) (L L1 : ULane)
    (h : ULane.ActivateNote nc n L = some L1) : SamePressFlags L L1 := by
  unfold ULane.ActivateNote at h
  simp only [Option.map_eq_some'] at h
  obtain ⟨a, _, rfl⟩ := h
  exact ⟨rfl, rfl⟩

theorem NoteSpawn_pressFlags (gm : ARhythmGameGameMode) (nc : NoteClasses)
    (pool : ENoteType → ABaseNote) (draw : Nat → Int) (L L1 : ULane)
    (h : ULane.NoteSpawn gm nc pool draw L = some L1) : SamePressFlags L L1 := by
  unfold ULane.NoteSpawn at h
  split at h
  · cases h; exact ⟨rfl, rfl⟩
  · split_ifs at h
    · split at h
      · cases h
      · split_ifs at h
        · cases h; exact ⟨rfl, rfl⟩
        · simp only [Option.map_eq_some'] at h
          obtain ⟨L3, h3, rfl⟩ := h
          split at h3
          all_goals first
            | (have hflags := ActivateNote_pressFlags _ _ _ _ h3
               exact hflags)
            | (simp only [Option.map_eq_some'] at h3
               obtain ⟨L2, h2, rfl⟩ := h3
               have hflags := ActivateNote_pressFlags _ _ _ _ h2
               exact hflags)
            | (cases h3; exact ⟨rfl, rfl⟩)
    · cases h; exact ⟨rfl, rfl⟩

theorem UpdateNotes_pressFlags (nc : NoteClasses) (dt : ℚ) (L : ULane) :
    SamePressFlags L (ULane.UpdateNotes nc dt L).1 ∧
      ∀ e ∈ (ULane.UpdateNotes nc dt L).2, NotPressEvent e := by
  unfold ULane.UpdateNotes ULane.UpdateNotes_Sweep
  split
  · exact ⟨⟨rfl, rfl⟩, by simp⟩
  · rename_i n _
    cases hi : n.bIgnoresMiss
    · refine ⟨⟨rfl, rfl⟩, ?_⟩
      intro e he
      simp only [Bool.false_eq_true, if_false, List.mem_singleton] at he
      subst he
      exact ⟨by simp, rfl⟩
    · exact ⟨⟨rfl, rfl⟩, by simp⟩
  · refine ⟨⟨rfl, rfl⟩, ?_⟩
    intro e he
    simp only [ULane.DeactivateNote, List.mem_singleton] at he
    subst he
    exact ⟨by simp, rfl⟩

theorem CheckIfNoteWithinBounds_pressFlags (L : ULane) :
    SamePressFlags L (ULane.CheckIfNoteWithinBounds L) := by
  unfold ULane.CheckIfNoteWithinBounds
  split_ifs <;> exact ⟨rfl, rfl⟩

theorem UpdateQueue_pressFlags (L : ULane) : SamePressFlags L (ULane.UpdateQueue L) := by
  unfold ULane.UpdateQueue
  split <;> exact ⟨rfl, rfl⟩

theorem TouchNotHeld_pressFlags (nc : NoteClasses) (t dt : ℚ) (L : ULane) :
    (ULane.TouchNotHeld nc t dt L).1 = L ∧
      ∀ e ∈ (ULane.TouchNotHeld nc t dt L).2, NotPressEvent e := by
  unfold ULane.TouchNotHeld
  split
  · split_ifs
    · refine ⟨rfl, ?_⟩
      intro e he
      simp only [List.mem_singleton] at he
      subst he
      exact ⟨by simp, rfl⟩
    · exact ⟨rfl, by simp⟩
  · exact ⟨rfl, by simp⟩

theorem CustomStart_pressFlags (t : ℚ) (L : ULane) :
    SamePressFlags L (ULane.CustomStart t L) := by
  unfold ULane.CustomStart
  split <;> dsimp only <;> split <;> exact ⟨rfl, rfl⟩

theorem SamePressFlags.trans {A B C : ULane} (h1 : SamePressFlags A B)
    (h2 : SamePressFlags B C) : SamePressFlags A C :=
  ⟨h2.1.trans h1.1, h2.2.trans h1.2⟩

theorem TickComponent_pressFlags (gm : ARhythmGameGameMode) (nc : NoteClasses)
    (pool : ENoteType → ABaseNote) (draw : Nat → Int) (dt : ℚ) (L : ULane)
    (r : ULane × List LaneEvent) (h : ULane.TickComponent gm nc pool draw dt L = some r) :
    SamePressFlags L r.1 ∧ ∀ e ∈ r.2, NotPressEvent e := by
  unfold ULane.TickComponent at h
  split_ifs at h
  · simp only [Option.map_eq_some'] at h
    obtain ⟨L1, h1, rfl⟩ := h
    have hs := NoteSpawn_pressFlags _ _ _ _ _ _ h1
    have hu := UpdateNotes_pressFlags nc dt L1
    have hc := CheckIfNoteWithinBounds_pressFlags (ULane.UpdateNotes nc dt L1).1
    have ht := TouchNotHeld_pressFlags nc gm.SecondsSinceStart dt
      (ULane.CheckIfNoteWithinBounds (ULane.UpdateNotes nc dt L1).1)
    constructor
    · refine hs.trans (hu.1.trans (hc.trans ?_))
      split_ifs
      · rw [ht.1]; exact UpdateQueue_pressFlags _
      · exact UpdateQueue_pressFlags _
    · intro e he
      simp only [List.mem_append] at he
      rcases he with he | he
      · exact hu.2 e he
      · split_ifs at he
        · exact ht.2 e he
        · simp at he
  · cases h
    exact ⟨⟨rfl, rfl⟩, by simp⟩

/-- Every operation other than `TouchHeld`, `TouchReleased` and `NoteHit` leaves the two
press flags alone; no operation other than `TouchHeld` broadcasts `ACompleteMiss` or
forwards `RegisterTouch`. -/
theorem step_pressFlags (nc : NoteClasses) (L : ULane) (op : LaneOp)
    (r : ULane × List LaneEvent) (h : LaneOp.step nc L op = some r) :
    (op.isTouchHeld = false → ∀ e ∈ r.2, NotPressEvent e) ∧
    (op.isTouchReleased = false → L.bInputValid = false → r.1.bInputValid = false) ∧
    (op.isTouchReleased = false → L.bFirstFrame = false → r.1.bFirstFrame = false) ∧
    (op.isTouchHeld = false → L.bFirstFrame = true → r.1.bFirstFrame = true) := by
  cases op with
  | TickComponent gm pool draw dt =>
    obtain ⟨⟨h1, h2⟩, h3⟩ := TickComponent_pressFlags gm nc pool draw dt L r h
    exact ⟨fun _ => h3, fun _ hv => by rw [h1]; exact hv, fun _ hv => by rw [h2]; exact hv,
      fun _ hv => by rw [h2]; exact hv⟩
  | NoteSpawn gm pool draw =>
    simp only [LaneOp.step, Option.map_eq_some'] at h
    obtain ⟨L1, h1, rfl⟩ := h
    obtain ⟨h1, h2⟩ := NoteSpawn_pressFlags _ _ _ _ _ _ h1
    exact ⟨fun _ => by simp, fun _ hv => by rw [h1]; exact hv, fun _ hv => by rw [h2]; exact hv,
      fun _ hv => by rw [h2]; exact hv⟩
  | UpdateNotes dt =>
    simp only [LaneOp.step, Option.some.injEq] at h
    subst h
    obtain ⟨⟨h1, h2⟩, h3⟩ := UpdateNotes_pressFlags nc dt L
    exact ⟨fun _ => h3, fun _ hv => by rw [h1]; exact hv, fun _ hv => by rw [h2]; exact hv,
      fun _ hv => by rw [h2]; exact hv⟩
  | CheckIfNoteWithinBounds =>
    simp only [LaneOp.step, Option.some.injEq] at h
    subst h
    obtain ⟨h1, h2⟩ := CheckIfNoteWithinBounds_pressFlags L
    exact ⟨fun _ => by simp, fun _ hv => by rw [h1]; exact hv, fun _ hv => by rw [h2]; exact hv,
      fun _ hv => by rw [h2]; exact hv⟩
  | UpdateQueue =>
    simp only [LaneOp.step, Option.some.injEq] at h
    subst h
    obtain ⟨h1, h2⟩ := UpdateQueue_pressFlags L
    exact ⟨fun _ => by simp, fun _ hv => by rw [h1]; exact hv, fun _ hv => by rw [h2]; exact hv,
      fun _ hv => by rw [h2]; exact hv⟩
  | NoteHit Note =>
    simp only [LaneOp.step, Option.some.injEq] at h
    subst h
    refine ⟨fun _ e he => ?_, fun _ _ => rfl, fun _ hv => hv, fun _ hv => hv⟩
    simp only [ULane.NoteHit, ULane.DeactivateNote, List.mem_singleton] at he
    subst he
    exact ⟨by simp, rfl⟩
  | NoteMiss Note =>
    simp only [LaneOp.step, Option.some.injEq] at h
    subst h
    exact ⟨fun _ => by simp, fun _ hv => hv, fun _ hv => hv, fun _ hv => hv⟩
  | CompleteMiss =>
    simp only [LaneOp.step, Option.some.injEq] at h
    subst h
    exact ⟨fun _ => by simp, fun _ hv => hv, fun _ hv => hv, fun _ hv => hv⟩
  | TouchHeld t dt =>
    simp only [LaneOp.step, Option.some.injEq] at h
    subst h
    refine ⟨fun hh => by simp [LaneOp.isTouchHeld] at hh, fun _ hv => ?_, fun _ hv => ?_,
      fun hh => by simp [LaneOp.isTouchHeld] at hh⟩
    · unfold ULane.TouchHeld
      cases hf : L.bFirstFrame <;> cases hn : L.NoteWithinBounds <;> simp [hf, hn, hv]
    · unfold ULane.TouchHeld
      cases hn : L.NoteWithinBounds <;> simp [hn, hv]
  | TouchNotHeld t dt =>
    simp only [LaneOp.step, Option.some.injEq] at h
    subst h
    obtain ⟨h1, h2⟩ := TouchNotHeld_pressFlags nc t dt L
    exact ⟨fun _ => h2, fun _ hv => by rw [h1]; exact hv, fun _ hv => by rw [h1]; exact hv,
      fun _ hv => by rw [h1]; exact hv⟩
  | TouchReleased =>
    simp only [LaneOp.step, Option.some.injEq] at h
    subst h
    refine ⟨fun _ e he => ?_, fun hh => by simp [LaneOp.isTouchReleased] at hh,
      fun hh => by simp [LaneOp.isTouchReleased] at hh, fun _ _ => rfl⟩
    simp only [ULane.TouchReleased] at he
    split at he
    · simp only [List.mem_singleton] at he
      subst he
      exact ⟨by simp, rfl⟩
    · simp at he
  | ActivateNote Note =>
    simp only [LaneOp.step, Option.map_eq_some'] at h
    obtain ⟨L1, h1, rfl⟩ := h
    obtain ⟨h1, h2⟩ := ActivateNote_pressFlags _ _ _ _ h1
    exact ⟨fun _ => by simp, fun _ hv => by rw [h1]; exact hv, fun _ hv => by rw [h2]; exact hv,
      fun _ hv => by rw [h2]; exact hv⟩
  | DeactivateNote Note =>
    simp only [LaneOp.step, Option.some.injEq] at h
    subst h
    refine ⟨fun _ e he => ?_, fun _ hv => hv, fun _ hv => hv, fun _ hv => hv⟩
    simp only [ULane.DeactivateNote, List.mem_singleton] at he
    subst he
    exact ⟨by simp, rfl⟩
  | LoadNotes Rows Hold =>
    simp only [LaneOp.step, Option.some.injEq] at h
    subst h
    exact ⟨fun _ => by simp, fun _ hv => hv, fun _ hv => hv, fun _ hv => hv⟩
  | CustomStart t =>
    simp only [LaneOp.step, Option.some.injEq] at h
    subst h
    obtain ⟨h1, h2⟩ := CustomStart_pressFlags t L
    exact ⟨fun _ => by simp, fun _ hv => by rw [h1]; exact hv, fun _ hv => by rw [h2]; exact hv,
      fun _ hv => by rw [h2]; exact hv⟩
  | SetMoveSpeed gm v =>
    simp only [LaneOp.step, Option.some.injEq] at h
    subst h
    exact ⟨fun _ => by simp, fun _ hv => hv, fun _ hv => hv, fun _ hv => hv⟩
  | SetParameters gm i v =>
    simp only [LaneOp.step, Option.some.injEq] at h
    subst h
    exact ⟨fun _ => by simp, fun _ hv => hv, fun _ hv => hv, fun _ hv => hv⟩
  | ResetLane =>
    simp only [LaneOp.step, Option.some.injEq] at h
    subst h
    exact ⟨fun _ => by simp, fun _ hv => hv, fun _ hv => hv, fun _ hv => hv⟩

theorem TouchHeld_invalid (t dt : ℚ) (L : ULane) (hv : L.bInputValid = false) :
    ∀ e ∈ (ULane.TouchHeld t dt L).2, e.isRegisterTouch = false := by
  unfold ULane.TouchHeld
  cases hf : L.bFirstFrame <;> cases hn : L.NoteWithinBounds <;>
    simp [hf, hn, hv, LaneEvent.isRegisterTouch]

theorem TouchHeld_silent (t dt : ℚ) (L : ULane) (hf : L.bFirstFrame = false)
    (hv : L.bInputValid = false) : (ULane.TouchHeld t dt L).2 = [] := by
  unfold ULane.TouchHeld
  cases hn : L.NoteWithinBounds <;> simp [hf, hn, hv]

theorem TouchHeld_first_empty (t dt : ℚ) (L : ULane) (hf : L.bFirstFrame = true)
    (hn : L.NoteWithinBounds = none) :
    (ULane.TouchHeld t dt L).2 = [LaneEvent.ACompleteMiss] ∧
    (ULane.TouchHeld t dt L).1.bInputValid = false ∧
    (ULane.TouchHeld t dt L).1.bFirstFrame = false := by
  unfold ULane.TouchHeld
  simp [hf, hn]

/-- While the press is invalid, no operation but `TouchReleased` makes it valid again and
no `RegisterTouch` is forwarded. -/
theorem run_invalid (nc : NoteClasses) :
    ∀ (ops : List LaneOp) (L : ULane), (∀ op ∈ ops, op.isTouchReleased = false) →
      L.bInputValid = false →
      (LaneOp.run nc L ops).1.bInputValid = false ∧
        ∀ e ∈ (LaneOp.run nc L ops).2, e.isRegisterTouch = false := by
  intro ops
  induction ops with
  | nil => intro L _ hv; exact ⟨hv, by simp [LaneOp.run]⟩
  | cons op ops ih =>
    intro L hops hv
    have hop := hops op (List.mem_cons_self _ _)
    have hrest : ∀ o ∈ ops, o.isTouchReleased = false :=
      fun o ho => hops o (List.mem_cons_of_mem _ ho)
    unfold LaneOp.run
    cases hstep : LaneOp.step nc L op with
    | none => exact ⟨hv, by simp⟩
    | some r =>
      obtain ⟨h1, h2, _, _⟩ := step_pressFlags nc L op r hstep
      obtain ⟨ihv, ihe⟩ := ih r.1 hrest (h2 hop hv)
      refine ⟨ihv, ?_⟩
      intro e he
      simp only [List.mem_append] at he
      rcases he with he | he
      · cases hth : op.isTouchHeld
        · exact (h1 hth e he).2
        · cases op <;> simp [LaneOp.isTouchHeld] at hth
          simp only [LaneOp.step, Option.some.injEq] at hstep
          subst hstep
          exact TouchHeld_invalid _ _ L hv e he
      · exact ihe e he

/-- After the first tick of a press on an empty window (not first frame any more, press
invalid), the rest of the press sends neither `ACompleteMiss` nor `RegisterTouch`. -/
theorem run_silent (nc : NoteClasses) :
    ∀ (ops : List LaneOp) (L : ULane), (∀ op ∈ ops, op.isTouchReleased = false) →
      L.bFirstFrame = false → L.bInputValid = false →
      ∀ e ∈ (LaneOp.run nc L ops).2, NotPressEvent e := by
  intro ops
  induction ops with
  | nil => intro L _ _ _; simp [LaneOp.run]
  | cons op ops ih =>
    intro L hops hf hv
    have hop := hops op (List.mem_cons_self _ _)
    have hrest : ∀ o ∈ ops, o.isTouchReleased = false :=
      fun o ho => hops o (List.mem_cons_of_mem _ ho)
    unfold LaneOp.run
    cases hstep : LaneOp.step nc L op with
    | none => simp
    | some r =>
      obtain ⟨h1, h2, h3, _⟩ := step_pressFlags nc L op r hstep
      have ihe := ih r.1 hrest (h3 hop hf) (h2 hop hv)
      intro e he
      simp only [List.mem_append] at he
      rcases he with he | he
      · cases hth : op.isTouchHeld
        · exact h1 hth e he
        · cases op <;> simp [LaneOp.isTouchHeld] at hth
          simp only [LaneOp.step, Option.some.injEq] at hstep
          subst hstep
          rw [TouchHeld_silent _ _ L hf hv] at he
          simp at he
      · exact ihe e he

/-- Before the first `TouchHeld` the first-frame flag set by `TouchReleased` stays set and
nothing press-related is sent. -/
theorem run_before_press (nc : NoteClasses) :
    ∀ (ops : List LaneOp) (L : ULane), (∀ op ∈ ops, op.isTouchHeld = false) →
      L.bFirstFrame = true →
      (LaneOp.run nc L ops).1.bFirstFrame = true ∧
        ∀ e ∈ (LaneOp.run nc L ops).2, NotPressEvent e := by
  intro ops
  induction ops with
  | nil => intro L _ hf; exact ⟨hf, by simp [LaneOp.run]⟩
  | cons op ops ih =>
    intro L hops hf
    have hop := hops op (List.mem_cons_self _ _)
    have hrest : ∀ o ∈ ops, o.isTouchHeld = false :=
      fun o ho => hops o (List.mem_cons_of_mem _ ho)
    unfold LaneOp.run
    cases hstep : LaneOp.step nc L op with
    | none => exact ⟨hf, by simp⟩
    | some r =>
      obtain ⟨h1, _, _, h4⟩ := step_pressFlags nc L op r hstep
      obtain ⟨ihf, ihe⟩ := ih r.1 hrest (h4 hop hf)
      refine ⟨ihf, ?_⟩
      intro e he
      simp only [List.mem_append] at he
      rcases he with he | he
      · exact h1 hop e he
      · exact ihe e he

theorem count_ACompleteMiss_zero (ev : List LaneEvent) (h : ∀ e ∈ ev, NotPressEvent e) :
    ev.count LaneEvent.ACompleteMiss = 0 := by
  rw [List.count_eq_zero]
  intro hmem
  exact (h _ hmem).1 rfl

/-- C4. A press that starts after a `TouchReleased` (followed by any operations `pre`
other than `TouchHeld`) and whose first `TouchHeld` tick finds `NoteWithinBounds` null:
nothing press-related is sent before it, that first tick broadcasts `ACompleteMiss`, the
whole press (the first tick and any later operations `post` other than `TouchReleased`,
among them ticks that put a note within bounds and further `TouchHeld` ticks) broadcasts
it exactly once and forwards `RegisterTouch` to no note. -/
theorem C4_press_on_empty_window (nc : NoteClasses) (L0 : ULane) (pre post : List LaneOp)
    (t dt : ℚ)
    (hpre : ∀ op ∈ pre, op.isTouchHeld = false)
    (hpost : ∀ op ∈ post, op.isTouchReleased = false)
    (hnull : (LaneOp.run nc (ULane.TouchReleased L0).1 pre).1.NoteWithinBounds = none) :
    (∀ e ∈ (LaneOp.run nc (ULane.TouchReleased L0).1 pre).2, NotPressEvent e) ∧
    (ULane.TouchHeld t dt (LaneOp.run nc (ULane.TouchReleased L0).1 pre).1).2
      = [LaneEvent.ACompleteMiss] ∧
    (LaneOp.run nc (LaneOp.run nc (ULane.TouchReleased L0).1 pre).1
      (LaneOp.TouchHeld t dt :: post)).2.count LaneEvent.ACompleteMiss = 1 ∧
    (∀ e ∈ (LaneOp.run nc (LaneOp.run nc (ULane.TouchReleased L0).1 pre).1
      (LaneOp.TouchHeld t dt :: post)).2, e.isRegisterTouch = false) := by
  obtain ⟨hf, hsil⟩ := run_before_press nc pre (ULane.TouchReleased L0).1 hpre rfl
  obtain ⟨hev, hv1, hf1⟩ := TouchHeld_first_empty t dt _ hf hnull
  have hrest := run_silent nc post _ hpost hf1 hv1
  refine ⟨hsil, hev, ?_, ?_⟩
  · simp only [LaneOp.run, LaneOp.step, hev, List.count_append]
    rw [count_ACompleteMiss_zero _ hrest]
    simp
  · intro e he
    simp only [LaneOp.run, LaneOp.step, hev, List.mem_append, List.mem_singleton] at he
    rcases he with he | he
    · subst he; rfl
    · exact (hrest e he).2

theorem C4_press_on_empty_window_witness :
    (LaneOp.run SimpleNotes (LaneOp.run SimpleNotes (ULane.TouchReleased ScenarioA_Lane).1 []).1
      (LaneOp.TouchHeld 0 (1/2) :: ScenarioB_Press)).1.NoteWithinBounds = some 0 ∧
    (LaneOp.run SimpleNotes (LaneOp.run SimpleNotes (ULane.TouchReleased ScenarioA_Lane).1 []).1
      (LaneOp.TouchHeld 0 (1/2) :: ScenarioB_Press)).2.count LaneEvent.ACompleteMiss = 1 ∧
    (∀ e ∈ (LaneOp.run SimpleNotes
      (LaneOp.run SimpleNotes (ULane.TouchReleased ScenarioA_Lane).1 []).1
      (LaneOp.TouchHeld 0 (1/2) :: ScenarioB_Press)).2, e.isRegisterTouch = false) :=
  ⟨by decide!,
   (C4_press_on_empty_window SimpleNotes ScenarioA_Lane [] ScenarioB_Press 0 (1/2)
      (by simp) (by simp [ScenarioB_Press, LaneOp.isTouchReleased]) rfl).2.2⟩

/-- C5. Press validity is monotone within a press: from a state with `bInputValid` false,
no lane operation other than `TouchReleased` makes it true again, over any sequence of
such operations it stays false and no `RegisterTouch` is forwarded; `NoteHit` and a first
`TouchHeld` tick on an empty window set it false, so after `NoteHit` no `RegisterTouch`
is forwarded until the release; `TouchReleased` sets it true. -/
theorem C5_press_validity_monotone (nc : NoteClasses) (L : ULane) :
    (∀ op r, op.isTouchReleased = false → L.bInputValid = false →
      LaneOp.step nc L op = some r → r.1.bInputValid = false) ∧
    (∀ ops, (∀ op ∈ ops, op.isTouchReleased = false) → L.bInputValid = false →
      (LaneOp.run nc L ops).1.bInputValid = false ∧
        ∀ e ∈ (LaneOp.run nc L ops).2, e.isRegisterTouch = false) ∧
    (∀ Note ops, (∀ op ∈ ops, op.isTouchReleased = false) →
      (ULane.NoteHit Note L).1.bInputValid = false ∧
        ∀ e ∈ (LaneOp.run nc L (LaneOp.NoteHit Note :: ops)).2, e.isRegisterTouch = false) ∧
    (∀ t dt, L.bFirstFrame = true → L.NoteWithinBounds = none →
      (ULane.TouchHeld t dt L).1.bInputValid = false) ∧
    (ULane.TouchReleased L).1.bInputValid = true := by
  refine ⟨?_, fun ops hops hv => run_invalid nc ops L hops hv, ?_, ?_, rfl⟩
  · intro op r hop hv hstep
    exact (step_pressFlags nc L op r hstep).2.1 hop hv
  · intro Note ops hops
    refine ⟨rfl, ?_⟩
    intro e he
    simp only [LaneOp.run, LaneOp.step, List.mem_append] at he
    rcases he with he | he
    · simp only [ULane.NoteHit, ULane.DeactivateNote, List.mem_singleton] at he
      subst he; rfl
    · exact (run_invalid nc ops _ hops rfl).2 e he
  · intro t dt hf hn
    exact (TouchHeld_first_empty t dt L hf hn).2.1

/-! ## Hold note chain -/

theorem modify_append_singleton {α : Type} (f : α → α) (a : α) :
    ∀ (l : List α), (l ++ [a]).modify f l.length = l ++ [f a] := by
  intro l
  induction l with
  | nil => rfl
  | cons b l ih => simp [ih]

/-- On an empty array the first loop of `SetActive` produces, for each index below
`PointsNum`, the default entry with the `MaxPercentage` of that index. -/
theorem SetActive_Points_nil (PL H T TB : ℚ) (bn pn : Int) :
    ASplineMeshHoldNote.SetActive_Points PL H T TB bn pn []
      = (List.range pn.toNat).map
          (fun (i : Nat) => ASplineMeshHoldNote.SetActive_Point PL H T TB bn pn (i : Int) {}) := by
  unfold ASplineMeshHoldNote.SetActive_Points
  generalize pn.toNat = n
  induction n with
  | zero => rfl
  | succ n ih =>
    rw [List.range_succ, List.foldl_append, ih, List.map_append]
    simp only [List.foldl_cons, List.foldl_nil, List.map_cons, List.map_nil]
    have hlen : ((List.range n).map
        (fun (i : Nat) => ASplineMeshHoldNote.SetActive_Point PL H T TB bn pn (i : Int) {})).length = n := by
      simp
    have := modify_append_singleton
      (ASplineMeshHoldNote.SetActive_Point PL H T TB bn pn (n : Int)) ({} : FSplinePointMeta)
      ((List.range n).map
        (fun (i : Nat) => ASplineMeshHoldNote.SetActive_Point PL H T TB bn pn (i : Int) {}))
    rw [hlen] at this
    exact this

theorem SetActive_Reset_length (L : ULane) (now H T : ℚ) (N : ASplineMeshHoldNote) :
    (ASplineMeshHoldNote.SetActive L now H T true (ASplineMeshHoldNote.Reset N)).SplinePointsMeta.length
      = (ASplineMeshHoldNote.BodyNum L now H T (ASplineMeshHoldNote.Reset N) + 3).toNat := by
  simp only [ASplineMeshHoldNote.SetActive, Bool.not_true, Bool.false_eq_true, if_false]
  have : (ASplineMeshHoldNote.Reset N).SplinePointsMeta = [] := rfl
  rw [this, SetActive_Points_nil]
  simp only [List.length_map, List.length_range, ASplineMeshHoldNote.PointsNum,
    ASplineMeshHoldNote.MeshesNum]
  congr 1
  ring

/-- C8 (as stated) fails: in Scenario C the body count is 9 and `SetActive(true)` builds
12 chain points, not `9 + 2 = 11`. -/
theorem C8_counterexample :
    ASplineMeshHoldNote.BodyNum ScenarioA_Lane (-1) 50 50
        (ASplineMeshHoldNote.Reset ScenarioC_Note) = 9 ∧
    (ASplineMeshHoldNote.SetActive ScenarioA_Lane (-1) 50 50 true
        (ASplineMeshHoldNote.Reset ScenarioC_Note)).SplinePointsMeta.length = 12 ∧
    ((ASplineMeshHoldNote.SetActive ScenarioA_Lane (-1) 50 50 true
        (ASplineMeshHoldNote.Reset ScenarioC_Note)).SplinePointsMeta.length : Int)
      ≠ ASplineMeshHoldNote.BodyNum ScenarioA_Lane (-1) 50 50
          (ASplineMeshHoldNote.Reset ScenarioC_Note) + 2 := by
  decide!

/-- C8 (amended). `SetActive(true)` on a reset note builds a chain of exactly
`PointsNum = BodyNum + 3` points (none when that is negative), so `BodyNum + 3` points
whenever the body count is not negative: 12 points in Scenario C (body count 9) and 3
points when the body budget is 0. -/
theorem C8_chain_length (L : ULane) (now H T : ℚ) (N : ASplineMeshHoldNote) :
    (ASplineMeshHoldNote.SetActive L now H T true (ASplineMeshHoldNote.Reset N)).SplinePointsMeta.length
      = (ASplineMeshHoldNote.BodyNum L now H T (ASplineMeshHoldNote.Reset N) + 3).toNat ∧
    (0 ≤ ASplineMeshHoldNote.BodyNum L now H T (ASplineMeshHoldNote.Reset N) →
      ((ASplineMeshHoldNote.SetActive L now H T true
          (ASplineMeshHoldNote.Reset N)).SplinePointsMeta.length : Int)
        = ASplineMeshHoldNote.BodyNum L now H T (ASplineMeshHoldNote.Reset N) + 3) ∧
    (ASplineMeshHoldNote.TotalBodyLength L now H T (ASplineMeshHoldNote.Reset N) = 0 →
      (ASplineMeshHoldNote.SetActive L now H T true
          (ASplineMeshHoldNote.Reset N)).SplinePointsMeta.length = 3) ∧
    (ASplineMeshHoldNote.SetActive ScenarioA_Lane (-1) 50 50 true
        (ASplineMeshHoldNote.Reset ScenarioC_Note)).SplinePointsMeta.length = 12 := by
  have hlen := SetActive_Reset_length L now H T N
  refine ⟨hlen, ?_, ?_, by decide!⟩
  · intro h
    rw [hlen]
    omega
  · intro h
    rw [hlen]
    simp [ASplineMeshHoldNote.BodyNum, h]

/-- C9 (as stated) fails: a hold note whose `TotalNoteLength` is 0, with head and tail 50
long, has `TotalBodyLength = -100` and body count `-1`, which is negative and is not
`ceil(max(0, -100) / 100) = 0`. -/
theorem C9_counterexample :
    ASplineMeshHoldNote.TotalBodyLength ScenarioA_Lane (-1) 50 50 ShortHold_Note = -100 ∧
    ASplineMeshHoldNote.BodyNum ScenarioA_Lane (-1) 50 50 ShortHold_Note = -1 ∧
    ASplineMeshHoldNote.BodyNum ScenarioA_Lane (-1) 50 50 ShortHold_Note
      ≠ ⌈max 0 (ASplineMeshHoldNote.TotalBodyLength ScenarioA_Lane (-1) 50 50 ShortHold_Note)
          / 100⌉ ∧
    ASplineMeshHoldNote.BodyNum ScenarioA_Lane (-1) 50 50 ShortHold_Note < 0 := by
  decide!

/-- C9 (amended). The body count computed by `SetActive` is
`ceil((TotalLength - HeadLength - TailLength) / 100)` with
`TotalLength = MoveSpeed * (EndTime - SpawnTimeOffset - CurrentSongTime)`, without a clamp
at 0: it is `ceil(max(0, ·) / 100)` and not negative when the difference is above `-100`,
and negative otherwise; in Scenario C the total length is 1000, the body budget 900 and
the body count 9. -/
theorem C9_body_count (L : ULane) (now H T : ℚ) (N : ASplineMeshHoldNote) :
    ASplineMeshHoldNote.BodyNum L now H T N
      = ⌈(L.MoveSpeed * (N.EndTime - L.SpawnTimeOffset - now) - H - T) / 100⌉ ∧
    (-100 < ASplineMeshHoldNote.TotalBodyLength L now H T N →
      0 ≤ ASplineMeshHoldNote.BodyNum L now H T N ∧
      ASplineMeshHoldNote.BodyNum L now H T N
        = ⌈max 0 (ASplineMeshHoldNote.TotalBodyLength L now H T N) / 100⌉) ∧
    (ASplineMeshHoldNote.TotalBodyLength L now H T N ≤ -100 →
      ASplineMeshHoldNote.BodyNum L now H T N < 0) ∧
    (ASplineMeshHoldNote.TotalNoteLength ScenarioA_Lane (-1) ScenarioC_Note = 1000 ∧
      ASplineMeshHoldNote.TotalBodyLength ScenarioA_Lane (-1) 50 50 ScenarioC_Note = 900 ∧
      ASplineMeshHoldNote.BodyNum ScenarioA_Lane (-1) 50 50 ScenarioC_Note = 9) := by
  refine ⟨rfl, ?_, ?_, by decide!⟩
  · intro h
    unfold ASplineMeshHoldNote.BodyNum ASplineMeshHoldNote.SingleBodyLength
    generalize ASplineMeshHoldNote.TotalBodyLength L now H T N = b at h ⊢
    constructor
    · have : ((-1 : Int) : ℚ) < b / 100 := by
        push_cast
        linarith
      have := Int.lt_ceil.mpr this
      omega
    · rcases le_or_lt 0 b with hb | hb
      · rw [max_eq_right hb]
      · rw [max_eq_left hb.le]
        simp only [zero_div, Int.ceil_zero]
        rw [Int.ceil_eq_iff]
        constructor
        · push_cast; linarith
        · push_cast; linarith
  · intro h
    unfold ASplineMeshHoldNote.BodyNum ASplineMeshHoldNote.SingleBodyLength
    have : ⌈ASplineMeshHoldNote.TotalBodyLength L now H T N / 100⌉ ≤ (-1 : Int) := by
      rw [Int.ceil_le]
      push_cast
      linarith
    omega

theorem C8_chain_length_witness :
    ((ASplineMeshHoldNote.SetActive ScenarioA_Lane (-1) 50 50 true
        (ASplineMeshHoldNote.Reset ScenarioC_Note)).SplinePointsMeta.length : Int)
      = ASplineMeshHoldNote.BodyNum ScenarioA_Lane (-1) 50 50
          (ASplineMeshHoldNote.Reset ScenarioC_Note) + 3 :=
  (C8_chain_length ScenarioA_Lane (-1) 50 50 ScenarioC_Note).2.1 (by decide!)

theorem C9_body_count_witness :
    0 ≤ ASplineMeshHoldNote.BodyNum ScenarioA_Lane (-1) 50 50 ScenarioC_Note ∧
    ASplineMeshHoldNote.BodyNum ScenarioA_Lane (-1) 50 50 ScenarioC_Note
      = ⌈max 0 (ASplineMeshHoldNote.TotalBodyLength ScenarioA_Lane (-1) 50 50 ScenarioC_Note)
          / 100⌉ :=
  (C9_body_count ScenarioA_Lane (-1) 50 50 ScenarioC_Note).2.1 (by decide!)

theorem MoveTick_Ratchet_cases (L : ULane) (N : ASplineMeshHoldNote) (a : FSplinePointMeta) :
    ASplineMeshHoldNote.MoveTick_Ratchet L N a = N.ActiveSplinePoint ∨
      (ASplineMeshHoldNote.MoveTick_Ratchet L N a = N.ActiveSplinePoint + 1 ∧
        N.ActiveSplinePoint < (N.SplinePointsMeta.length : Int) - 1) := by
  unfold ASplineMeshHoldNote.MoveTick_Ratchet
  split_ifs with hc
  · right
    exact ⟨rfl, by rcases hc with hc | hc; exact hc.2; exact hc.2.1⟩
  · left; rfl

/-- What a `MoveTick` call that runs through has done to the chain and its cursor. -/
theorem MoveTick_some (L : ULane) (d : ℚ) (N N1 : ASplineMeshHoldNote)
    (h : ASplineMeshHoldNote.MoveTick L d N = some N1) :
    0 ≤ N.ActiveSplinePoint ∧ N.ActiveSplinePoint < (N.SplinePointsMeta.length : Int) ∧
    N1.SplinePointsMeta = ASplineMeshHoldNote.MoveTick_Points L d N ∧
    (N1.ActiveSplinePoint = N.ActiveSplinePoint ∨
      (N1.ActiveSplinePoint = N.ActiveSplinePoint + 1 ∧
        N.ActiveSplinePoint < (N.SplinePointsMeta.length : Int) - 1)) ∧
    N1.SplineMeshCmpsNum = N.SplineMeshCmpsNum := by
  unfold ASplineMeshHoldNote.MoveTick at h
  split_ifs at h with hmesh hasp
  split at h
  · cases h
  · rename_i a _
    simp only [Option.some.injEq] at h
    subst h
    refine ⟨hasp.1, hasp.2, rfl, ?_, rfl⟩
    exact MoveTick_Ratchet_cases L N a

/-- The hold note's `MoveTick` writes neither the identity of the note nor its miss
flags nor its location. -/
theorem MoveTick_keeps_flags (L : ULane) (d : ℚ) (N N1 : ASplineMeshHoldNote)
    (h : ASplineMeshHoldNote.MoveTick L d N = some N1) :
    N1.Id = N.Id ∧ N1.bToBeDeactivated = N.bToBeDeactivated ∧
    N1.bIgnoresMiss = N.bIgnoresMiss ∧ N1.Location = N.Location := by
  unfold ASplineMeshHoldNote.MoveTick at h
  split_ifs at h with hmesh hasp
  split at h
  · cases h
  · simp only [Option.some.injEq] at h
    subst h
    exact ⟨rfl, rfl, rfl, rfl⟩

/-- The bounds of the mesh array hold in every iteration when there are at least three
spline points and one mesh less than points. -/
theorem meshAccess_ok (num : Nat) (m : Nat) (h3 : 3 ≤ num) (hm : m + 1 = num) :
    (List.range num).all
      (fun i => ASplineMeshHoldNote.MoveTick_MeshAccessOk (num : Int) (m : Int) (i : Int)) = true := by
  rw [List.all_eq_true]
  intro i hi
  rw [List.mem_range] at hi
  unfold ASplineMeshHoldNote.MoveTick_MeshAccessOk
  split_ifs <;> simp <;> omega

/-- With at least three points, one mesh less than points and the cursor inside the
chain, `MoveTick` runs through. -/
theorem MoveTick_total (L : ULane) (d : ℚ) (N : ASplineMeshHoldNote)
    (h3 : 3 ≤ N.SplinePointsMeta.length)
    (hm : N.SplineMeshCmpsNum + 1 = N.SplinePointsMeta.length)
    (h0 : 0 ≤ N.ActiveSplinePoint)
    (h1 : N.ActiveSplinePoint < (N.SplinePointsMeta.length : Int)) :
    ∃ N1, ASplineMeshHoldNote.MoveTick L d N = some N1 := by
  unfold ASplineMeshHoldNote.MoveTick
  rw [if_pos (meshAccess_ok _ _ h3 hm), if_pos ⟨h0, h1⟩]
  have hlt : N.ActiveSplinePoint.toNat < (ASplineMeshHoldNote.MoveTick_Points L d N).length := by
    unfold ASplineMeshHoldNote.MoveTick_Points
    rw [List.length_mapIdx]
    omega
  rw [List.get?_eq_get hlt]
  exact ⟨_, rfl⟩

theorem HoldTick_apply_inv (n m : Nat) (k : HoldTick) (N N1 : ASplineMeshHoldNote)
    (hinv : HoldInv n m N) (h : k.apply N = some N1) :
    HoldInv n m N1 ∧ CursorNotBack N N1 := by
  obtain ⟨hlen, hmesh, h0, h1, hz⟩ := hinv
  unfold HoldTick.apply at h
  obtain ⟨_, _, hpts, hasp, hm⟩ := MoveTick_some _ _ _ _ h
  have hlen1 : N1.SplinePointsMeta.length = n := by
    rw [hpts]
    unfold ASplineMeshHoldNote.MoveTick_Points
    rw [List.length_mapIdx]
    exact hlen
  have hle : N.ActiveSplinePoint ≤ N1.ActiveSplinePoint := by
    rcases hasp with h | h
    · rw [h]
    · rw [h.1]; change N.ActiveSplinePoint ≤ N.ActiveSplinePoint + 1; omega
  refine ⟨⟨hlen1, hm.trans hmesh, le_trans h0 hle, ?_, ?_⟩, hle⟩
  · rcases hasp with h | h
    · rw [h]; exact h1
    · rw [h.1]
      have := h.2
      change N.ActiveSplinePoint < (N.SplinePointsMeta.length : Int) - 1 at this
      change N.ActiveSplinePoint + 1 < (n : Int)
      rw [hlen] at this
      omega
  · intro i p hp hi
    rw [hpts] at hp
    unfold ASplineMeshHoldNote.MoveTick_Points at hp
    rw [List.getElem?_mapIdx] at hp
    change Option.map _ (N.SplinePointsMeta[i]?) = some p at hp
    cases hq : N.SplinePointsMeta[i]? with
    | none => rw [hq] at hp; cases hp
    | some q =>
      rw [hq] at hp
      simp only [Option.map_some', Option.some.injEq] at hp
      have hlt : N.ActiveSplinePoint < (i : Int) := lt_of_le_of_lt hle hi
      have hnot : ¬ ((i : Int) ≤ N.ActiveSplinePoint) := not_le.mpr hlt
      change (if (i : Int) ≤ N.ActiveSplinePoint then _ else q) = p at hp
      rw [if_neg hnot] at hp
      rw [← hp]
      exact hz i q hq hlt

/-- Every state a sequence of `MoveTick` calls reaches keeps the invariant, and the cursor
never moves back along the sequence. -/
theorem MoveTicks_inv (n m : Nat) :
    ∀ (ks : List HoldTick) (N : ASplineMeshHoldNote), HoldInv n m N →
      (∀ S ∈ N :: MoveTicks N ks, HoldInv n m S) ∧
      List.Chain' CursorNotBack (N :: MoveTicks N ks) := by
  intro ks
  induction ks with
  | nil => intro N h; simp [MoveTicks, h]
  | cons k ks ih =>
    intro N h
    unfold MoveTicks
    cases hk : k.apply N with
    | none => simp [h]
    | some N1 =>
      obtain ⟨h1, hle⟩ := HoldTick_apply_inv n m k N N1 h hk
      obtain ⟨ih1, ih2⟩ := ih N1 h1
      constructor
      · intro S hS
        rcases List.mem_cons.mp hS with hS | hS
        · rw [hS]; exact h
        · exact ih1 S hS
      · exact List.Chain'.cons hle ih2

/-- With at least three points and one mesh less than points, every call of a sequence of
`MoveTick` calls runs through. -/
theorem MoveTicks_total (n m : Nat) (h3 : 3 ≤ n) (hm : m + 1 = n) :
    ∀ (ks : List HoldTick) (N : ASplineMeshHoldNote), HoldInv n m N →
      (MoveTicks N ks).length = ks.length := by
  intro ks
  induction ks with
  | nil => intro N _; rfl
  | cons k ks ih =>
    intro N h
    obtain ⟨hlen, hmesh, h0, h1, _⟩ := h
    obtain ⟨N1, hN1⟩ := MoveTick_total k.Lane k.TickPercentage { N with Location := k.Location }
      (by rw [← hlen] at h3; exact h3) (by rw [← hlen, ← hmesh] at hm; exact hm) h0
      (by rw [← hlen] at h1; exact h1)
    have hk : k.apply N = some N1 := hN1
    unfold MoveTicks
    rw [hk]
    simp only [List.length_cons]
    rw [ih N1 (HoldTick_apply_inv n m k N N1 ⟨hlen, hmesh, h0, h1, by assumption⟩ hk).1]

theorem SetActive_Point_Percentage (PL H T TB : ℚ) (bn pn i : Int) (p : FSplinePointMeta) :
    (ASplineMeshHoldNote.SetActive_Point PL H T TB bn pn i p).Percentage = p.Percentage := by
  unfold ASplineMeshHoldNote.SetActive_Point
  simp only
  split_ifs <;> rfl

/-- A note activated from its reset state with a non-empty chain satisfies the
invariant, with `BodyNum + 3` points and `BodyNum + 2` meshes. -/
theorem SetActive_Reset_inv (L : ULane) (now H T : ℚ) (N : ASplineMeshHoldNote)
    (h : 1 ≤ ASplineMeshHoldNote.BodyNum L now H T (ASplineMeshHoldNote.Reset N) + 3) :
    HoldInv (ASplineMeshHoldNote.BodyNum L now H T (ASplineMeshHoldNote.Reset N) + 3).toNat
      (ASplineMeshHoldNote.BodyNum L now H T (ASplineMeshHoldNote.Reset N) + 2).toNat
      (ASplineMeshHoldNote.SetActive L now H T true (ASplineMeshHoldNote.Reset N)) := by
  refine ⟨SetActive_Reset_length L now H T N, ?_, ?_, ?_, ?_⟩
  · simp [ASplineMeshHoldNote.SetActive, ASplineMeshHoldNote.Reset, ASplineMeshHoldNote.MeshesNum]
  · simp [ASplineMeshHoldNote.SetActive, ASplineMeshHoldNote.Reset]
  · have : (ASplineMeshHoldNote.SetActive L now H T true
        (ASplineMeshHoldNote.Reset N)).ActiveSplinePoint = 0 := by
      simp [ASplineMeshHoldNote.SetActive, ASplineMeshHoldNote.Reset]
    rw [this]
    omega
  · intro i p hp _
    simp only [ASplineMeshHoldNote.SetActive, Bool.not_true, Bool.false_eq_true, if_false] at hp
    have hnil : (ASplineMeshHoldNote.Reset N).SplinePointsMeta = [] := rfl
    rw [hnil, SetActive_Points_nil] at hp
    rw [List.getElem?_map] at hp
    cases hq : (List.range (ASplineMeshHoldNote.PointsNum L now H T
        (ASplineMeshHoldNote.Reset N)).toNat)[i]? with
    | none => rw [hq] at hp; cases hp
    | some j =>
      rw [hq] at hp
      simp only [Option.map_some', Option.some.injEq] at hp
      rw [← hp, SetActive_Point_Percentage]

theorem MoveTicks_nil_of_empty (ks : List HoldTick) (N : ASplineMeshHoldNote)
    (h : N.SplinePointsMeta = []) : MoveTicks N ks = [] := by
  cases ks with
  | nil => rfl
  | cons k ks =>
    unfold MoveTicks
    cases hk : k.apply N with
    | none => rfl
    | some N1 =>
      unfold HoldTick.apply at hk
      obtain ⟨h0, h1, _⟩ := MoveTick_some _ _ _ _ hk
      change N.ActiveSplinePoint < (N.SplinePointsMeta.length : Int) at h1
      rw [h] at h1
      simp only [List.length_nil, Nat.cast_zero] at h1
      change 0 ≤ N.ActiveSplinePoint at h0
      omega

/-- C6 (as stated) fails: a hold note whose `TotalNoteLength` is 0, with head and tail
150 long, has body count `-3`; `SetActive` builds an empty chain for it, and
`ActiveSplinePoint = 0` is then above `chainLength - 1 = -1`. -/
theorem C6_counterexample :
    ASplineMeshHoldNote.BodyNum ScenarioA_Lane (-1) 150 150
        (ASplineMeshHoldNote.Reset ShortHold_Note) = -3 ∧
    (ASplineMeshHoldNote.SetActive ScenarioA_Lane (-1) 150 150 true
        (ASplineMeshHoldNote.Reset ShortHold_Note)).SplinePointsMeta = [] ∧
    ¬ (0 ≤ (ASplineMeshHoldNote.SetActive ScenarioA_Lane (-1) 150 150 true
          (ASplineMeshHoldNote.Reset ShortHold_Note)).ActiveSplinePoint ∧
       (ASplineMeshHoldNote.SetActive ScenarioA_Lane (-1) 150 150 true
          (ASplineMeshHoldNote.Reset ShortHold_Note)).ActiveSplinePoint
        ≤ ((ASplineMeshHoldNote.SetActive ScenarioA_Lane (-1) 150 150 true
          (ASplineMeshHoldNote.Reset ShortHold_Note)).SplinePointsMeta.length : Int) - 1) := by
  decide!

/-- C6 (amended). For every hold note chain built by `SetActive` on a reset note that
has at least one point, and every sequence of `MoveTick` calls (any tick sizes, lanes,
locations and press states): along the states reached `ActiveSplinePoint` never
decreases, the chain keeps its length, and `0 ≤ ActiveSplinePoint ≤ chainLength - 1`;
when the body count is not negative every call of the sequence runs through. -/
theorem C6_cursor_ratchet (L : ULane) (now H T : ℚ) (N0 : ASplineMeshHoldNote)
    (ks : List HoldTick)
    (hne : (ASplineMeshHoldNote.SetActive L now H T true
      (ASplineMeshHoldNote.Reset N0)).SplinePointsMeta ≠ []) :
    List.Chain' CursorNotBack
      (ASplineMeshHoldNote.SetActive L now H T true (ASplineMeshHoldNote.Reset N0) ::
        MoveTicks (ASplineMeshHoldNote.SetActive L now H T true (ASplineMeshHoldNote.Reset N0)) ks) ∧
    (∀ S ∈ ASplineMeshHoldNote.SetActive L now H T true (ASplineMeshHoldNote.Reset N0) ::
        MoveTicks (ASplineMeshHoldNote.SetActive L now H T true (ASplineMeshHoldNote.Reset N0)) ks,
      S.SplinePointsMeta.length
        = (ASplineMeshHoldNote.SetActive L now H T true
            (ASplineMeshHoldNote.Reset N0)).SplinePointsMeta.length ∧
      0 ≤ S.ActiveSplinePoint ∧
      S.ActiveSplinePoint ≤ (S.SplinePointsMeta.length : Int) - 1) ∧
    (0 ≤ ASplineMeshHoldNote.BodyNum L now H T (ASplineMeshHoldNote.Reset N0) →
      (MoveTicks (ASplineMeshHoldNote.SetActive L now H T true (ASplineMeshHoldNote.Reset N0))
        ks).length = ks.length) := by
  have hlen := SetActive_Reset_length L now H T N0
  have h1 : 1 ≤ ASplineMeshHoldNote.BodyNum L now H T (ASplineMeshHoldNote.Reset N0) + 3 := by
    by_contra hcon
    apply hne
    apply List.eq_nil_of_length_eq_zero
    rw [hlen]
    omega
  have hinv := SetActive_Reset_inv L now H T N0 h1
  obtain ⟨hall, hchain⟩ := MoveTicks_inv _ _ ks _ hinv
  refine ⟨hchain, ?_, ?_⟩
  · intro S hS
    obtain ⟨hl, _, h0, hlt, _⟩ := hall S hS
    refine ⟨by rw [hl, hlen], h0, ?_⟩
    rw [hl]
    omega
  · intro hb
    exact MoveTicks_total _ _ (by omega) (by omega) ks _ hinv

theorem C6_cursor_ratchet_witness :
    List.Chain' CursorNotBack (ScenarioC_Active :: MoveTicks ScenarioC_Active ScenarioC_Ticks) ∧
    (MoveTicks ScenarioC_Active ScenarioC_Ticks).length = 9 :=
  ⟨(C6_cursor_ratchet ScenarioA_Lane (-1) 50 50 ScenarioC_Note ScenarioC_Ticks (by decide!)).1,
   (C6_cursor_ratchet ScenarioA_Lane (-1) 50 50 ScenarioC_Note ScenarioC_Ticks
      (by decide!)).2.2 (by decide!)⟩

/-- C7. For a hold note activated by `SetActive` from its reset state and moved by any
sequence of `MoveTick` calls: a further `MoveTick` executed while the note is `InButton`
and the lane reports button pressed and input valid, with the button percentage not
negative, leaves every chain point, active or not, at a `Percentage` that is at most
`ParentLane->GetButtonPercentageAlongMovementPath()`; and when the body count is not
negative that call does run through. -/
theorem C7_held_points_capped (L : ULane) (now H T : ℚ) (N0 : ASplineMeshHoldNote)
    (pre : List HoldTick) (k : HoldTick) (S : ASplineMeshHoldNote)
    (hS : S ∈ ASplineMeshHoldNote.SetActive L now H T true (ASplineMeshHoldNote.Reset N0) ::
      MoveTicks (ASplineMeshHoldNote.SetActive L now H T true (ASplineMeshHoldNote.Reset N0)) pre)
    (hloc : k.Location = ENoteDistance.InButton)
    (hpress : k.Lane.bButtonIsPressed = true) (hvalid : k.Lane.bInputValid = true)
    (hB : 0 ≤ k.Lane.GetButtonPercentageAlongMovementPath) :
    (∀ S1, k.apply S = some S1 →
      ∀ p ∈ S1.SplinePointsMeta, p.Percentage ≤ k.Lane.GetButtonPercentageAlongMovementPath) ∧
    (0 ≤ ASplineMeshHoldNote.BodyNum L now H T (ASplineMeshHoldNote.Reset N0) →
      ∃ S1, k.apply S = some S1) := by
  have hlen := SetActive_Reset_length L now H T N0
  constructor
  · intro S1 hstep
    -- the chain is not empty, since the call ran through
    have h1 : 1 ≤ ASplineMeshHoldNote.BodyNum L now H T (ASplineMeshHoldNote.Reset N0) + 3 := by
      by_contra hcon
      have hnil : (ASplineMeshHoldNote.SetActive L now H T true
          (ASplineMeshHoldNote.Reset N0)).SplinePointsMeta = [] := by
        apply List.eq_nil_of_length_eq_zero
        rw [hlen]
        omega
      rw [MoveTicks_nil_of_empty pre _ hnil, List.mem_singleton] at hS
      subst hS
      unfold HoldTick.apply at hstep
      obtain ⟨h0, h1, _⟩ := MoveTick_some _ _ _ _ hstep
      change _ < ((ASplineMeshHoldNote.SetActive L now H T true
          (ASplineMeshHoldNote.Reset N0)).SplinePointsMeta.length : Int) at h1
      rw [hnil] at h1
      simp only [List.length_nil, Nat.cast_zero] at h1
      change 0 ≤ (ASplineMeshHoldNote.SetActive L now H T true
          (ASplineMeshHoldNote.Reset N0)).ActiveSplinePoint at h0
      omega
    obtain ⟨hall, _⟩ := MoveTicks_inv _ _ pre _ (SetActive_Reset_inv L now H T N0 h1)
    obtain ⟨_, _, _, _, hz⟩ := hall S hS
    unfold HoldTick.apply at hstep
    obtain ⟨_, _, hpts, _, _⟩ := MoveTick_some _ _ _ _ hstep
    have hmax : ASplineMeshHoldNote.MoveTick_MaxPercentage k.Lane
        { S with Location := k.Location } = k.Lane.GetButtonPercentageAlongMovementPath := by
      simp [ASplineMeshHoldNote.MoveTick_MaxPercentage, ASplineMeshHoldNote.MoveTick_Held,
        hloc, hpress, hvalid]
    intro p hp
    rw [hpts] at hp
    obtain ⟨i, hi⟩ := List.getElem?_of_mem hp
    unfold ASplineMeshHoldNote.MoveTick_Points at hi
    rw [List.getElem?_mapIdx, hmax] at hi
    change Option.map _ (S.SplinePointsMeta[i]?) = some p at hi
    cases hq : S.SplinePointsMeta[i]? with
    | none => rw [hq] at hi; cases hi
    | some q =>
      rw [hq] at hi
      simp only [Option.map_some', Option.some.injEq] at hi
      change (if (i : Int) ≤ S.ActiveSplinePoint then _ else q) = p at hi
      split_ifs at hi with hle
      · rw [← hi]
        unfold ASplineMeshHoldNote.MoveTick_Point
        split_ifs with hlt
        · exact le_of_lt hlt
        · exact le_refl _
      · rw [← hi, hz i q hq (not_le.mp hle)]
        exact hB
  · intro hb
    obtain ⟨hall, _⟩ := MoveTicks_inv _ _ pre _ (SetActive_Reset_inv L now H T N0 (by omega))
    obtain ⟨hl, hm, h0, hlt, _⟩ := hall S hS
    exact MoveTick_total k.Lane k.TickPercentage { S with Location := k.Location }
      (by rw [hl]; omega) (by rw [hl, hm]; omega) h0 (by rw [hl]; exact hlt)

theorem C7_held_points_capped_witness :
    (∀ S1, ScenarioC_HeldTick.apply
        ((MoveTicks ScenarioC_Active ScenarioC_Ticks).getLastD ScenarioC_Active) = some S1 →
      ∀ p ∈ S1.SplinePointsMeta,
        p.Percentage ≤ ScenarioC_HeldTick.Lane.GetButtonPercentageAlongMovementPath) ∧
    ((ScenarioC_HeldTick.apply
        ((MoveTicks ScenarioC_Active ScenarioC_Ticks).getLastD ScenarioC_Active)).map
      (fun S1 => S1.SplinePointsMeta.map (·.Percentage)))
      = some [1/2, 1/2, 2/5, 3/10, 1/5, 1/10, 0, 0, 0, 0, 0, 0] :=
  ⟨(C7_held_points_capped ScenarioA_Lane (-1) 50 50 ScenarioC_Note ScenarioC_Ticks
      ScenarioC_HeldTick ((MoveTicks ScenarioC_Active ScenarioC_Ticks).getLastD ScenarioC_Active)
      (by decide!) rfl rfl rfl (by decide!)).1,
   by decide!⟩

/-! ## Lane scheduler -/

/-- A due row whose type for this lane is EMPTY, HOLD or END_HOLD makes `NoteSpawn`
return at `Lane.cpp:138`, before `NoteIndex++` at line 179: the lane is left as it is. -/
theorem NoteSpawn_marker_row (gm : ARhythmGameGameMode) (nc : NoteClasses)
    (pool : ENoteType → ABaseNote) (draw : Nat → Int) (L : ULane) (row : FLevelMapRow)
    (t : ENoteType) (hrow : L.LevelMap.get? L.NoteIndex = some row)
    (hdue : row.Time - L.SpawnTimeOffset ≤ gm.SecondsSinceStart)
    (ht : row.Lanes.get? L.LaneIdx = some t)
    (hmark : t = ENoteType.EMPTY ∨ t = ENoteType.HOLD ∨ t = ENoteType.END_HOLD) :
    ULane.NoteSpawn gm nc pool draw L = some L := by
  unfold ULane.NoteSpawn
  rw [hrow]
  simp only [hdue, if_true, ht, hmark]

/-- C10 at the failing input. The first row of the map is due and EMPTY for the lane:
`NoteSpawn` activates no note and leaves `NoteIndex` at 0, where the claim has 1; and
however often and however late the scheduler is called again, the lane stays as it is,
so the SINGLE note of the second row is never spawned. -/
theorem C10_marker_row_not_advanced (nc : NoteClasses) (pool : ENoteType → ABaseNote)
    (draw : Nat → Int) :
    MarkerRow_Lane.LevelMap.get? MarkerRow_Lane.NoteIndex
      = some { Time := 0, Lanes := [ENoteType.EMPTY] } ∧
    (0 : ℚ) - MarkerRow_Lane.SpawnTimeOffset ≤ (PlayingAt 0).SecondsSinceStart ∧
    ULane.NoteSpawn (PlayingAt 0) nc pool draw MarkerRow_Lane = some MarkerRow_Lane ∧
    MarkerRow_Lane.NoteIndex = 0 ∧ MarkerRow_Lane.NoteIndex ≠ 0 + 1 ∧
    (∀ (now : Nat → ℚ) (k : Nat), (∀ i, 0 ≤ now i) →
      NoteSpawnTimes nc pool draw now k MarkerRow_Lane = some MarkerRow_Lane) := by
  have hstep : ∀ now : ℚ, 0 ≤ now →
      ULane.NoteSpawn (PlayingAt now) nc pool draw MarkerRow_Lane = some MarkerRow_Lane := by
    intro now hnow
    apply NoteSpawn_marker_row (PlayingAt now) nc pool draw MarkerRow_Lane
      { Time := 0, Lanes := [ENoteType.EMPTY] } ENoteType.EMPTY rfl _ rfl (Or.inl rfl)
    show (0 : ℚ) - 1 ≤ now
    linarith
  refine ⟨rfl, by decide!, hstep 0 (le_refl _), rfl, by decide, ?_⟩
  intro now k hnow
  induction k with
  | zero => rfl
  | succ k ih =>
    unfold NoteSpawnTimes
    rw [hstep _ (hnow _)]
    exact ih

/-- C11 (as stated) fails: with two rows due at song time 0, one `NoteSpawn` call spawns
the first and stops; `NoteIndex` is 1, below the length 2 of the map, and the row it
stands at (time 1/10, offset 1) is due. -/
theorem C11_counterexample :
    (ULane.NoteSpawn (PlayingAt 0) SimpleNotes ScenarioA_Pool (fun _ => 1) TwoDueRows_Lane).map
        (fun L => (L.NoteIndex, L.LevelMap.length, L.Notes.length)) = some (1, 2, 1) ∧
    (ULane.NoteSpawn (PlayingAt 0) SimpleNotes ScenarioA_Pool (fun _ => 1) TwoDueRows_Lane).map
        (fun L => (L.LevelMap.get? L.NoteIndex).map
          (fun row => decide (row.Time - L.SpawnTimeOffset ≤ (PlayingAt 0).SecondsSinceStart)))
      = some (some true) ∧
    ¬ (∀ L, ULane.NoteSpawn (PlayingAt 0) SimpleNotes ScenarioA_Pool (fun _ => 1) TwoDueRows_Lane
          = some L → NoDueRowLeft (PlayingAt 0).SecondsSinceStart L) := by
  refine ⟨by decide!, by decide!, ?_⟩
  intro h
  have hL : ULane.NoteSpawn (PlayingAt 0) SimpleNotes ScenarioA_Pool (fun _ => 1) TwoDueRows_Lane
      = some { TwoDueRows_Lane with
          NoteIndex := 1,
          Notes := [SimpleNotes.SetActive
            { ScenarioA_Pool ENoteType.SINGLE with Location := ENoteDistance.InLane }] } := by
    decide!
  rcases h _ hL with h1 | ⟨row, hrow, hdue⟩
  · revert h1; decide
  · have hr : row = { Time := 1/10, Lanes := [ENoteType.SINGLE] } := by
      have : ({ TwoDueRows_Lane with
          NoteIndex := 1,
          Notes := [SimpleNotes.SetActive
            { ScenarioA_Pool ENoteType.SINGLE with Location := ENoteDistance.InLane }] }
            : ULane).LevelMap.get? 1 = some { Time := 1/10, Lanes := [ENoteType.SINGLE] } := rfl
      change _ = some row at hrow
      rw [this] at hrow
      exact (Option.some.inj hrow).symm
    subst hr
    revert hdue
    decide!

theorem ActivateNote_some (nc : NoteClasses) (n : ABaseNote) (L L1 : ULane)
    (h : ULane.ActivateNote nc n L = some L1) :
    ∃ k : ABaseNote, L1 = { L with Notes := L.Notes ++ [nc.SetActive k] } ∧
      k.NoteType = n.NoteType ∧
      (n.NoteType ≠ ENoteType.HOLD → k = { n with Location := ENoteDistance.InLane }) ∧
      (n.NoteType = ENoteType.HOLD → ∃ p, L.HoldNoteData.get? L.HoldNoteIndex = some p ∧
        k = { n with Location := ENoteDistance.InLane, HoldDuration := some p.2 }) := by
  unfold ULane.ActivateNote at h
  simp only [Option.map_eq_some'] at h
  obtain ⟨a, ha, rfl⟩ := h
  refine ⟨a, rfl, ?_⟩
  by_cases ht : n.NoteType = ENoteType.HOLD
  · rw [if_pos ht, Option.map_eq_some'] at ha
    obtain ⟨p, hp, rfl⟩ := ha
    exact ⟨rfl, fun hne => absurd ht hne, fun _ => ⟨p, hp, rfl⟩⟩
  · rw [if_neg ht, Option.some.injEq] at ha
    subst ha
    exact ⟨rfl, fun _ => rfl, fun hh => absurd hh ht⟩

theorem RandSwapForSpecial_not_marker (L : ULane) (gm : ARhythmGameGameMode) (draw : Nat → Int)
    (t : ENoteType) (h : ¬ IsMarker t) : ¬ IsMarker (ULane.RandSwapForSpecial L gm draw t) := by
  unfold ULane.RandSwapForSpecial
  by_cases hs : t = ENoteType.SINGLE
  · subst hs
    simp only [ne_eq, not_true_eq_false, if_false]
    unfold IsMarker
    split_ifs <;> simp
  · simp only [ne_eq, hs, not_false_eq_true, if_true]
    exact h

/-- What `NoteSpawn` does on a due row that is not a marker, when it runs through: the
entry of the map is overwritten with the substituted type, one note is appended and
`NoteIndex` advances by one. -/
theorem NoteSpawn_spawn_row (gm : ARhythmGameGameMode) (nc : NoteClasses)
    (pool : ENoteType → ABaseNote) (draw : Nat → Int) (L L1 : ULane) (row : FLevelMapRow)
    (t : ENoteType) (hrow : L.LevelMap.get? L.NoteIndex = some row)
    (hdue : row.Time - L.SpawnTimeOffset ≤ gm.SecondsSinceStart)
    (ht : row.Lanes.get? L.LaneIdx = some t) (hmark : ¬ IsMarker t)
    (h : ULane.NoteSpawn gm nc pool draw L = some L1) :
    L1.NoteIndex = L.NoteIndex + 1 ∧
    L1.LevelMap = L.LevelMap.set L.NoteIndex
      { row with Lanes := row.Lanes.set L.LaneIdx (ULane.RandSwapForSpecial L gm draw t) } ∧
    L1.SpawnTimeOffset = L.SpawnTimeOffset ∧ L1.HoldNoteData = L.HoldNoteData ∧
    L1.LaneIdx = L.LaneIdx ∧
    ∃ n, L1.Notes = L.Notes ++ [n] := by
  have hm1 := RandSwapForSpecial_not_marker L gm draw t hmark
  unfold ULane.NoteSpawn at h
  rw [hrow] at h
  simp only [hdue, if_true, ht] at h
  have hmark' : ¬ (t = ENoteType.EMPTY ∨ t = ENoteType.HOLD ∨ t = ENoteType.END_HOLD) := hmark
  simp only [hmark', if_false, Option.map_eq_some'] at h
  obtain ⟨L3, h3, rfl⟩ := h
  unfold IsMarker at hm1
  split at h3
  all_goals first
    | (obtain ⟨k, hk, _⟩ := ActivateNote_some _ _ _ _ h3
       subst hk
       exact ⟨rfl, rfl, rfl, rfl, rfl, _, rfl⟩)
    | (simp only [Option.map_eq_some'] at h3
       obtain ⟨L2, h2, rfl⟩ := h3
       obtain ⟨k, hk, _⟩ := ActivateNote_some _ _ _ _ h2
       subst hk
       exact ⟨rfl, rfl, rfl, rfl, rfl, _, rfl⟩)
    | (rename_i hne1 hne2 hne3 hne4 hne5 hne6
       exfalso
       generalize ULane.RandSwapForSpecial L gm draw t = t1 at *
       cases t1 <;> simp_all)

/-- C11 (amended). One `NoteSpawn` call processes at most one row. When no row is due (the
scheduler is at the end of the map or the row it stands at is not due yet) the lane is
left as it is and no due row is left. When the row at `NoteIndex` is due and is not a
marker row and the call runs through, exactly one note is activated and `NoteIndex`
advances by exactly one; no due row is left after the call provided the row after it is
not due as well. -/
theorem C11_one_row_per_tick (gm : ARhythmGameGameMode) (nc : NoteClasses)
    (pool : ENoteType → ABaseNote) (draw : Nat → Int) (L : ULane) :
    (NoDueRowLeft gm.SecondsSinceStart L →
      ULane.NoteSpawn gm nc pool draw L = some L) ∧
    (∀ (row : FLevelMapRow) (t : ENoteType) (L1 : ULane),
      L.LevelMap.get? L.NoteIndex = some row →
      row.Time - L.SpawnTimeOffset ≤ gm.SecondsSinceStart →
      row.Lanes.get? L.LaneIdx = some t → ¬ IsMarker t →
      ULane.NoteSpawn gm nc pool draw L = some L1 →
      L1.NoteIndex = L.NoteIndex + 1 ∧ L1.Notes.length = L.Notes.length + 1 ∧
      ((∀ next, L.LevelMap.get? (L.NoteIndex + 1) = some next →
          next.Time - L.SpawnTimeOffset > gm.SecondsSinceStart) →
        NoDueRowLeft gm.SecondsSinceStart L1)) := by
  constructor
  · intro h
    unfold ULane.NoteSpawn
    rcases h with h | ⟨row, hrow, hnot⟩
    · rw [List.get?_eq_none.mpr h]
    · rw [hrow]
      simp only [not_le.mpr hnot, if_false]
  · intro row t L1 hrow hdue ht hmark h
    obtain ⟨hidx, hmap, hoff, _, _, n, hn⟩ :=
      NoteSpawn_spawn_row gm nc pool draw L L1 row t hrow hdue ht hmark h
    refine ⟨hidx, by rw [hn]; simp, ?_⟩
    intro hnext
    unfold NoDueRowLeft
    rw [hidx, hmap, hoff, List.length_set]
    by_cases hlen : L.LevelMap.length ≤ L.NoteIndex + 1
    · exact Or.inl hlen
    · right
      have hlt : L.NoteIndex + 1 < L.LevelMap.length := not_le.mp hlen
      refine ⟨L.LevelMap[L.NoteIndex + 1], ?_, ?_⟩
      · rw [List.get?_eq_getElem?, List.getElem?_set_ne (by omega)]
        exact List.getElem?_eq_getElem hlt
      · apply hnext
        rw [List.get?_eq_getElem?]
        exact List.getElem?_eq_getElem hlt

theorem C11_one_row_per_tick_witness :
    NoDueRowLeft (PlayingAt (-1)).SecondsSinceStart
      { ScenarioA_Start with
        NoteIndex := 1,
        Notes := [SimpleNotes.SetActive
          { ScenarioA_Pool ENoteType.SINGLE with Location := ENoteDistance.InLane }] } :=
  ((C11_one_row_per_tick (PlayingAt (-1)) SimpleNotes ScenarioA_Pool (fun _ => 1)
      ScenarioA_Start).2 { Time := 0, Lanes := [ENoteType.SINGLE] } ENoteType.SINGLE _ rfl
      (by decide!) rfl (by unfold IsMarker; decide) (by decide!)).2.2
    (by intro next h; cases h)

/-! ## Special substitution -/

/-- C12 (as stated) fails: with `BombSpawnFreq = 5`, both other frequencies 0 and every
draw 0, but the switch `bBombsEnabled` off, the code leaves SINGLE as it is; the reference
of the claim (bomb check enabled iff its frequency is positive) yields BOMB. -/
theorem C12_counterexample :
    ULane.RandSwapForSpecial BombsOff_Lane (PlayingAt 0) (fun _ => 0) ENoteType.SINGLE
      = ENoteType.SINGLE ∧
    RandSwapForSpecial_Reference BombsOff_Lane.BombSpawnFreq (PlayingAt 0).IgcNoteSpawnFreq
      (PlayingAt 0).RandNoteSpawnFreq (fun _ => 0) ENoteType.SINGLE = ENoteType.BOMB ∧
    ULane.RandSwapForSpecial BombsOff_Lane (PlayingAt 0) (fun _ => 0) ENoteType.SINGLE
      ≠ RandSwapForSpecial_Reference BombsOff_Lane.BombSpawnFreq (PlayingAt 0).IgcNoteSpawnFreq
          (PlayingAt 0).RandNoteSpawnFreq (fun _ => 0) ENoteType.SINGLE := by
  decide

/-- C12 (amended). `ULane::RandSwapForSpecial` equals the reference in which the bomb check
is enabled iff `bBombsEnabled` is on and `BombSpawnFreq > 0` (the igc and rand checks
enabled iff their frequency is positive), for every input type, every configuration and
every sequence of draws; it equals the reference of the claim whenever `bBombsEnabled` is
on. -/
theorem C12_rand_swap_reference (L : ULane) (gm : ARhythmGameGameMode) (draw : Nat → Int)
    (t : ENoteType) :
    ULane.RandSwapForSpecial L gm draw t
      = RandSwapForSpecial_Switched L.bBombsEnabled L.BombSpawnFreq gm.IgcNoteSpawnFreq
          gm.RandNoteSpawnFreq draw t ∧
    (L.bBombsEnabled = true →
      ULane.RandSwapForSpecial L gm draw t
        = RandSwapForSpecial_Reference L.BombSpawnFreq gm.IgcNoteSpawnFreq
            gm.RandNoteSpawnFreq draw t) := by
  have key : ULane.RandSwapForSpecial L gm draw t
      = RandSwapForSpecial_Switched L.bBombsEnabled L.BombSpawnFreq gm.IgcNoteSpawnFreq
          gm.RandNoteSpawnFreq draw t := by
    unfold ULane.RandSwapForSpecial RandSwapForSpecial_Switched
    by_cases hs : t = ENoteType.SINGLE
    · subst hs
      simp only [ne_eq, not_true_eq_false, if_false, if_true, LastTriggered]
      cases L.bBombsEnabled <;>
        by_cases hb : L.BombSpawnFreq > 0 <;>
        by_cases hi : gm.IgcNoteSpawnFreq > 0 <;>
        by_cases hr : gm.RandNoteSpawnFreq > 0 <;>
        simp [hb, hi, hr]
    · simp [hs]
  refine ⟨key, ?_⟩
  intro hon
  rw [key]
  unfold RandSwapForSpecial_Switched RandSwapForSpecial_Reference
  rw [hon]
  simp

theorem C12_rand_swap_reference_witness :
    ULane.RandSwapForSpecial { BombsOff_Lane with bBombsEnabled := true } (PlayingAt 0)
        (fun _ => 0) ENoteType.SINGLE
      = RandSwapForSpecial_Reference 5 0 0 (fun _ => 0) ENoteType.SINGLE :=
  (C12_rand_swap_reference { BombsOff_Lane with bBombsEnabled := true } (PlayingAt 0)
    (fun _ => 0) ENoteType.SINGLE).2 rfl

/-- C13. With `IgcNoteSpawnFreq = 1`, `RandNoteSpawnFreq = 0` and every draw 0,
`ULane::RandSwapForSpecial` turns SINGLE into IGC, whatever the bomb check did before it,
so in particular with `BombSpawnFreq = 0`, where the bomb check is disabled and makes no
draw at all. -/
theorem C13_igc_only (L : ULane) (gm : ARhythmGameGameMode)
    (hi : gm.IgcNoteSpawnFreq = 1) (hr : gm.RandNoteSpawnFreq = 0) :
    ULane.RandSwapForSpecial L gm (fun _ => 0) ENoteType.SINGLE = ENoteType.IGC ∧
    (L.BombSpawnFreq = 0 →
      ULane.RandSwapForSpecial L gm (fun k => if k = 0 then 0 else 1) ENoteType.SINGLE
        = ENoteType.IGC) := by
  constructor
  · unfold ULane.RandSwapForSpecial
    simp [hi, hr]
  · intro hb
    unfold ULane.RandSwapForSpecial
    simp [hb, hi, hr]

theorem C13_igc_only_witness :
    ULane.RandSwapForSpecial ScenarioA_Lane
        { bIsPlaying := true, SecondsSinceStart := 0, GameSpeed := 1,
          IgcNoteSpawnFreq := 1, RandNoteSpawnFreq := 0 }
        (fun _ => 0) ENoteType.SINGLE = ENoteType.IGC :=
  (C13_igc_only ScenarioA_Lane
    { bIsPlaying := true, SecondsSinceStart := 0, GameSpeed := 1,
      IgcNoteSpawnFreq := 1, RandNoteSpawnFreq := 0 } rfl rfl).1

/-- C14. With `BombSpawnFreq`, `IgcNoteSpawnFreq` and `RandNoteSpawnFreq` all 0,
`ULane::RandSwapForSpecial` leaves SINGLE unchanged for every sequence of draws and
either value of `bBombsEnabled`. -/
theorem C14_all_frequencies_zero (L : ULane) (gm : ARhythmGameGameMode) (draw : Nat → Int)
    (hb : L.BombSpawnFreq = 0) (hi : gm.IgcNoteSpawnFreq = 0) (hr : gm.RandNoteSpawnFreq = 0) :
    ULane.RandSwapForSpecial L gm draw ENoteType.SINGLE = ENoteType.SINGLE := by
  unfold ULane.RandSwapForSpecial
  simp [hb, hi, hr]

theorem C14_all_frequencies_zero_witness :
    ULane.RandSwapForSpecial { ScenarioA_Lane with bBombsEnabled := true } (PlayingAt 0)
        (fun _ => 0) ENoteType.SINGLE = ENoteType.SINGLE :=
  C14_all_frequencies_zero { ScenarioA_Lane with bBombsEnabled := true } (PlayingAt 0)
    (fun _ => 0) rfl rfl rfl

/-! ## Hold durations -/

theorem HoldDurations_append_other (l : List ABaseNote) (n : ABaseNote)
    (h : n.NoteType ≠ ENoteType.HOLD) : HoldDurations (l ++ [n]) = HoldDurations l := by
  simp [HoldDurations, List.filter_append, h]

theorem HoldDurations_append_hold (l : List ABaseNote) (n : ABaseNote)
    (h : n.NoteType = ENoteType.HOLD) :
    HoldDurations (l ++ [n]) = HoldDurations l ++ [n.HoldDuration] := by
  simp [HoldDurations, List.filter_append, h]

/-- What a `NoteSpawn` call that runs through has done to the notes and the hold cursor:
nothing, or one note from the pool is appended, a hold note (with `HoldNoteIndex` advanced
by one) exactly when the pool was asked for `ENoteType::HOLD`. -/
theorem NoteSpawn_effect (gm : ARhythmGameGameMode) (nc : NoteClasses)
    (pool : ENoteType → ABaseNote) (draw : Nat → Int) (L L1 : ULane)
    (h : ULane.NoteSpawn gm nc pool draw L = some L1) :
    L1 = L ∨
    ∃ (tp : ENoteType) (k : ABaseNote),
      L1.Notes = L.Notes ++ [nc.SetActive k] ∧ L1.HoldNoteData = L.HoldNoteData ∧
      k.NoteType = (pool tp).NoteType ∧
      ((tp = ENoteType.HOLD ∧ L1.HoldNoteIndex = L.HoldNoteIndex + 1) ∨
        (tp ≠ ENoteType.HOLD ∧ L1.HoldNoteIndex = L.HoldNoteIndex)) ∧
      ((pool tp).NoteType = ENoteType.HOLD →
        ∃ p, L.HoldNoteData.get? L.HoldNoteIndex = some p ∧ k.HoldDuration = some p.2) := by
  unfold ULane.NoteSpawn at h
  split at h
  · left; exact (Option.some.inj h).symm
  · split_ifs at h with hdue
    · split at h
      · cases h
      · split_ifs at h with hmark
        · left; exact (Option.some.inj h).symm
        · right
          simp only [Option.map_eq_some'] at h
          obtain ⟨L3, h3, rfl⟩ := h
          split at h3
          · obtain ⟨k, hk, hty, _, hhold⟩ := ActivateNote_some _ _ _ _ h3
            subst hk
            refine ⟨ENoteType.SINGLE, k, rfl, rfl, hty, Or.inr ⟨by decide, rfl⟩, ?_⟩
            intro hh
            obtain ⟨p, hp, hkp⟩ := hhold hh
            exact ⟨p, hp, by rw [hkp]⟩
          · simp only [Option.map_eq_some'] at h3
            obtain ⟨L2, h2, rfl⟩ := h3
            obtain ⟨k, hk, hty, _, hhold⟩ := ActivateNote_some _ _ _ _ h2
            subst hk
            refine ⟨ENoteType.HOLD, k, rfl, rfl, hty, Or.inl ⟨rfl, rfl⟩, ?_⟩
            intro hh
            obtain ⟨p, hp, hkp⟩ := hhold hh
            exact ⟨p, hp, by rw [hkp]⟩
          · obtain ⟨k, hk, hty, _, hhold⟩ := ActivateNote_some _ _ _ _ h3
            subst hk
            refine ⟨ENoteType.SINGLE, k, rfl, rfl, hty, Or.inr ⟨by decide, rfl⟩, ?_⟩
            intro hh
            obtain ⟨p, hp, hkp⟩ := hhold hh
            exact ⟨p, hp, by rw [hkp]⟩
          · obtain ⟨k, hk, hty, _, hhold⟩ := ActivateNote_some _ _ _ _ h3
            subst hk
            refine ⟨ENoteType.BOMB, k, rfl, rfl, hty, Or.inr ⟨by decide, rfl⟩, ?_⟩
            intro hh
            obtain ⟨p, hp, hkp⟩ := hhold hh
            exact ⟨p, hp, by rw [hkp]⟩
          · obtain ⟨k, hk, hty, _, hhold⟩ := ActivateNote_some _ _ _ _ h3
            subst hk
            refine ⟨ENoteType.IGC, k, rfl, rfl, hty, Or.inr ⟨by decide, rfl⟩, ?_⟩
            intro hh
            obtain ⟨p, hp, hkp⟩ := hhold hh
            exact ⟨p, hp, by rw [hkp]⟩
          · obtain ⟨k, hk, hty, _, hhold⟩ := ActivateNote_some _ _ _ _ h3
            subst hk
            refine ⟨ENoteType.RANDOM, k, rfl, rfl, hty, Or.inr ⟨by decide, rfl⟩, ?_⟩
            intro hh
            obtain ⟨p, hp, hkp⟩ := hhold hh
            exact ⟨p, hp, by rw [hkp]⟩
          · rename_i t hne1 hne2 hne3 hne4 hne5 hne6
            exfalso
            have hm := RandSwapForSpecial_not_marker L gm draw _ hmark
            unfold IsMarker at hm
            generalize ULane.RandSwapForSpecial L gm draw _ = t1 at *
            cases t1 <;> simp_all
    · left; exact (Option.some.inj h).symm

theorem NoteSpawn_holdsInTableOrder (gm : ARhythmGameGameMode) (nc : NoteClasses)
    (pool : ENoteType → ABaseNote) (draw : Nat → Int) (L L1 : ULane)
    (hnc : SetActiveKeepsHold nc) (hpool : PoolTyped pool) (hinv : HoldsInTableOrder L)
    (h : ULane.NoteSpawn gm nc pool draw L = some L1) :
    HoldsInTableOrder L1 ∧ L1.HoldNoteData = L.HoldNoteData := by
  rcases NoteSpawn_effect gm nc pool draw L L1 h with rfl | ⟨tp, k, hn, hd, hty, hidx, hhold⟩
  · exact ⟨hinv, rfl⟩
  · refine ⟨?_, hd⟩
    unfold HoldsInTableOrder at hinv ⊢
    rw [hn, hd]
    rcases hidx with ⟨htp, hi⟩ | ⟨htp, hi⟩
    · have hkt : (pool tp).NoteType = ENoteType.HOLD := (hpool tp).mpr htp
      obtain ⟨p, hp, hkp⟩ := hhold hkt
      rw [HoldDurations_append_hold _ _ (by rw [(hnc k).1, hty, hkt]), (hnc k).2, hkp, hi,
        List.take_succ, hinv]
      rw [List.get?_eq_getElem?] at hp
      rw [hp]
      simp
    · have hkt : (pool tp).NoteType ≠ ENoteType.HOLD := fun hh => htp ((hpool tp).mp hh)
      rw [HoldDurations_append_other _ _ (by rw [(hnc k).1, hty]; exact hkt), hi, hinv]

theorem NoteSpawnCalls_holdsInTableOrder (nc : NoteClasses) (hnc : SetActiveKeepsHold nc) :
    ∀ (cs : List SpawnCall) (L L1 : ULane), (∀ c ∈ cs, PoolTyped c.pool) →
      HoldsInTableOrder L → NoteSpawnCalls nc L cs = some L1 →
      HoldsInTableOrder L1 ∧ L1.HoldNoteData = L.HoldNoteData := by
  intro cs
  induction cs with
  | nil =>
    intro L L1 _ hinv h
    simp only [NoteSpawnCalls, Option.some.injEq] at h
    subst h
    exact ⟨hinv, rfl⟩
  | cons c cs ih =>
    intro L L1 hp hinv h
    simp only [NoteSpawnCalls, Option.bind_eq_some] at h
    obtain ⟨L2, h2, hrest⟩ := h
    obtain ⟨hinv2, hd2⟩ := NoteSpawn_holdsInTableOrder c.gm nc c.pool c.draw L L2 hnc
      (hp c (List.mem_cons_self _ _)) hinv h2
    obtain ⟨hinv1, hd1⟩ := ih L2 L1 (fun d hd => hp d (List.mem_cons_of_mem _ hd)) hinv2 hrest
    exact ⟨hinv1, hd1.trans hd2⟩

/-- C15. When `NoteSpawn` spawns a due BEG_HOLD row while `HoldNoteIndex = h` lies inside
the hold table (the pool handing out a hold note for `ENoteType::HOLD`), the note is
activated with the duration of entry `h` of the table and `HoldNoteIndex` becomes `h + 1`.
Hence over any sequence of `NoteSpawn` calls from a lane without notes and with
`HoldNoteIndex = 0` (as `ResetLane` leaves it), the durations of the hold notes spawned are,
in order, the first `HoldNoteIndex` entries of the table: the k-th hold note has the k-th
entry. -/
theorem C15_hold_duration_in_order (nc : NoteClasses) :
    (∀ (gm : ARhythmGameGameMode) (pool : ENoteType → ABaseNote) (draw : Nat → Int) (L : ULane)
        (row : FLevelMapRow) (p : ℚ × ℚ),
      L.LevelMap.get? L.NoteIndex = some row →
      row.Time - L.SpawnTimeOffset ≤ gm.SecondsSinceStart →
      row.Lanes.get? L.LaneIdx = some ENoteType.BEG_HOLD →
      L.HoldNoteData.get? L.HoldNoteIndex = some p →
      (pool ENoteType.HOLD).NoteType = ENoteType.HOLD →
      ∃ L1, ULane.NoteSpawn gm nc pool draw L = some L1 ∧
        L1.Notes = L.Notes ++
          [nc.SetActive { pool ENoteType.HOLD with
            Location := ENoteDistance.InLane, HoldDuration := some p.2 }] ∧
        L1.HoldNoteIndex = L.HoldNoteIndex + 1 ∧ L1.NoteIndex = L.NoteIndex + 1) ∧
    (SetActiveKeepsHold nc →
      ∀ (cs : List SpawnCall) (L L1 : ULane), (∀ c ∈ cs, PoolTyped c.pool) →
        NoteSpawnCalls nc (ULane.ResetLane L) cs = some L1 →
        HoldDurations L1.Notes
          = (L.HoldNoteData.take L1.HoldNoteIndex).map (fun p => some p.2)) := by
  constructor
  · intro gm pool draw L row p hrow hdue ht hp hpool
    unfold ULane.NoteSpawn
    rw [hrow]
    simp only [hdue, if_true, ht]
    have hsw : ULane.RandSwapForSpecial L gm draw ENoteType.BEG_HOLD = ENoteType.BEG_HOLD := by
      unfold ULane.RandSwapForSpecial
      simp
    rw [hsw]
    simp only [reduceCtorEq, or_self, if_false]
    unfold ULane.ActivateNote
    simp only [hpool, if_true, hp, Option.map_some']
    exact ⟨_, rfl, rfl, rfl, rfl⟩
  · intro hnc cs L L1 hp h
    have hreset : HoldsInTableOrder (ULane.ResetLane L) := by
      unfold HoldsInTableOrder ULane.ResetLane HoldDurations
      simp
    obtain ⟨hinv, hd⟩ := NoteSpawnCalls_holdsInTableOrder nc hnc cs _ L1 hp hreset h
    unfold HoldsInTableOrder at hinv
    rw [hinv, hd]
    rfl

theorem simpleNotes_keepsHold : SetActiveKeepsHold SimpleNotes := by
  intro n
  exact ⟨rfl, rfl⟩

theorem scenarioA_pool_typed : PoolTyped ScenarioA_Pool := by
  intro t
  exact Iff.rfl

theorem C15_hold_duration_in_order_witness :
    (∃ L1, ULane.NoteSpawn (PlayingAt 0) SimpleNotes ScenarioA_Pool (fun _ => 1)
          (ULane.ResetLane TwoHolds_Lane) = some L1 ∧
        L1.Notes = (ULane.ResetLane TwoHolds_Lane).Notes ++
          [SimpleNotes.SetActive { ScenarioA_Pool ENoteType.HOLD with
            Location := ENoteDistance.InLane, HoldDuration := some ((0 : ℚ), (2 : ℚ)).2 }] ∧
        L1.HoldNoteIndex = (ULane.ResetLane TwoHolds_Lane).HoldNoteIndex + 1 ∧
        L1.NoteIndex = (ULane.ResetLane TwoHolds_Lane).NoteIndex + 1) ∧
    (NoteSpawnCalls SimpleNotes (ULane.ResetLane TwoHolds_Lane) TwoHolds_Calls).map
        (fun L => (L.HoldNoteIndex, HoldDurations L.Notes)) = some (2, [some 2, some 3]) ∧
    ∀ L1, NoteSpawnCalls SimpleNotes (ULane.ResetLane TwoHolds_Lane) TwoHolds_Calls = some L1 →
      HoldDurations L1.Notes
        = (TwoHolds_Lane.HoldNoteData.take L1.HoldNoteIndex).map (fun p => some p.2) :=
  ⟨(C15_hold_duration_in_order SimpleNotes).1 (PlayingAt 0) ScenarioA_Pool (fun _ => 1)
      (ULane.ResetLane TwoHolds_Lane) { Time := 0, Lanes := [ENoteType.BEG_HOLD] } (0, 2)
      (by decide!) (by decide!) (by decide!) (by decide!) (by decide!),
   by decide!,
   fun L1 h => (C15_hold_duration_in_order SimpleNotes).2 simpleNotes_keepsHold TwoHolds_Calls
      TwoHolds_Lane L1
      (by
        intro c hc
        simp only [TwoHolds_Calls, List.mem_cons, List.mem_singleton, List.not_mem_nil,
          or_false] at hc
        rcases hc with rfl | rfl | rfl <;> exact scenarioA_pool_typed) h⟩

/-! ## Lead time (`ULane::SetMoveSpeed`) -/

/-- C16. For every lane, game mode and new speed `v`, `ULane::SetMoveSpeed` stores `v` as
`MoveSpeed`, stores and returns
`SpawnTimeOffset = ButtonPercentageAlongPath * PathLength / MoveSpeed * GameSpeed` (the
path length being `MovementPath->GetSplineLength()`) and changes nothing else, where the
button percentage is the midpoint of the two boundary percentages. With boundaries at 40%
and 60%, path length 1000, speed 500 and game speed 1 the result is exactly 1. -/
theorem C16_spawn_time_offset (gm : ARhythmGameGameMode) (v : ℚ) (L : ULane) :
    (ULane.SetMoveSpeed gm v L).1
      = { L with
          MoveSpeed := v,
          SpawnTimeOffset :=
            (L.GetButtonPercentageAlongMovementPath * L.SplineLength / v * gm.GameSpeed) } ∧
    (ULane.SetMoveSpeed gm v L).2
      = L.GetButtonPercentageAlongMovementPath * L.SplineLength / v * gm.GameSpeed ∧
    L.GetButtonPercentageAlongMovementPath
      = (L.GetBoundaryStartPercentage + L.GetBoundaryEndPercentage) / 2 ∧
    (L.GetBoundaryStartPercentage = 2 / 5 → L.GetBoundaryEndPercentage = 3 / 5 →
      L.SplineLength = 1000 → v = 500 → gm.GameSpeed = 1 →
      (ULane.SetMoveSpeed gm v L).2 = 1) := by
  have hmid : L.GetButtonPercentageAlongMovementPath
      = (L.GetBoundaryStartPercentage + L.GetBoundaryEndPercentage) / 2 := by
    unfold ULane.GetButtonPercentageAlongMovementPath
    ring
  have hret : (ULane.SetMoveSpeed gm v L).2
      = L.GetButtonPercentageAlongMovementPath * L.SplineLength / v * gm.GameSpeed := rfl
  refine ⟨rfl, hret, hmid, ?_⟩
  intro hs he hl hv hg
  rw [hret, hmid, hs, he, hl, hv, hg]
  norm_num

theorem C16_spawn_time_offset_witness :
    ULane.GetBoundaryStartPercentage { ScenarioA_Lane with MoveSpeed := 0, SpawnTimeOffset := 0 }
      = 2 / 5 ∧
    ULane.GetBoundaryEndPercentage { ScenarioA_Lane with MoveSpeed := 0, SpawnTimeOffset := 0 }
      = 3 / 5 ∧
    (ULane.SetMoveSpeed (PlayingAt 0) 500
      { ScenarioA_Lane with MoveSpeed := 0, SpawnTimeOffset := 0 }).2 = 1 :=
  ⟨by decide!, by decide!,
   (C16_spawn_time_offset (PlayingAt 0) 500
      { ScenarioA_Lane with MoveSpeed := 0, SpawnTimeOffset := 0 }).2.2.2
      (by decide!) (by decide!) (by decide!) rfl (by decide!)⟩

/-- A `MoveTick` call that runs through advances the root by
`MoveTick_Advance`. -/
theorem MoveTick_root (L : ULane) (d : ℚ) (N N1 : ASplineMeshHoldNote)
    (h : ASplineMeshHoldNote.MoveTick L d N = some N1) :
    N1.RootPathPercentage = ASplineMeshHoldNote.MoveTick_Advance N.RootPathPercentage d := by
  unfold ASplineMeshHoldNote.MoveTick at h
  split_ifs at h with hmesh hasp
  split at h
  · cases h
  · simp only [Option.some.injEq] at h
    subst h
    rfl

/-- When every call of the sequence runs through, the root of the last state is the fold
of the advances. -/
theorem MoveTicks_root : ∀ (ks : List HoldTick) (N : ASplineMeshHoldNote),
    (MoveTicks N ks).length = ks.length →
    ((MoveTicks N ks).getLastD N).RootPathPercentage
      = RootPathTicks N.RootPathPercentage (ks.map (·.TickPercentage)) := by
  intro ks
  induction ks with
  | nil => intro N _; rfl
  | cons k ks ih =>
    intro N hlen
    unfold MoveTicks at hlen ⊢
    cases hk : k.apply N with
    | none => rw [hk] at hlen; simp at hlen
    | some N1 =>
      rw [hk] at hlen
      simp only [List.length_cons, add_left_inj] at hlen
      simp only [List.getLastD_cons, List.map_cons]
      rw [ih N1 hlen]
      have hroot := MoveTick_root k.Lane k.TickPercentage { N with Location := k.Location } N1 hk
      unfold RootPathTicks
      rw [List.foldl_cons, hroot]

/-- Ticks that are not negative and do not carry the root to 1 add up. -/
theorem RootPathTicks_sum : ∀ (ticks : List ℚ) (r : ℚ), (∀ t ∈ ticks, 0 ≤ t) →
    r + ticks.sum < 1 → RootPathTicks r ticks = r + ticks.sum := by
  intro ticks
  induction ticks with
  | nil => intro r _ _; simp [RootPathTicks]
  | cons t ts ih =>
    intro r hpos hlt
    have hts : 0 ≤ ts.sum := List.sum_nonneg (fun x hx => hpos x (List.mem_cons_of_mem _ hx))
    rw [List.sum_cons] at hlt
    have hstep : ASplineMeshHoldNote.MoveTick_Advance r t = r + t := by
      unfold ASplineMeshHoldNote.MoveTick_Advance
      rw [if_pos (by linarith)]
    unfold RootPathTicks
    rw [List.foldl_cons, hstep]
    have := ih (r + t) (fun x hx => hpos x (List.mem_cons_of_mem _ hx)) (by linarith)
    unfold RootPathTicks at this
    rw [this, List.sum_cons]
    ring

theorem tickPercentage_sum (L : ULane) : ∀ (dts : List ℚ),
    (dts.map (ULane.TickPercentage L)).sum = L.MoveSpeed * dts.sum / L.MovementPathLength := by
  intro dts
  induction dts with
  | nil => simp
  | cons d ds ih =>
    rw [List.map_cons, List.sum_cons, List.sum_cons, ih]
    unfold ULane.TickPercentage
    ring

/-- C17. Lead time, with rational arithmetic: let the lane have a positive path length,
the spline length being that path length, and a button percentage below 1; let
`SetMoveSpeed` set a positive speed with `GameSpeed = 1`. A hold note activated by
`SetActive` (root percentage 0) and then moved by any sequence of `MoveTick` calls whose
tick percentages are `MoveSpeed * DeltaTime / MovementPathLength` for frame times that are
not negative and sum to the `SpawnTimeOffset` returned, has its `RootPathPercentage`
exactly at `GetButtonPercentageAlongMovementPath()`; every call runs through when the body
count is not negative. -/
theorem C17_lead_time (gm : ARhythmGameGameMode) (v : ℚ) (L : ULane) (now H T : ℚ)
    (N0 : ASplineMeshHoldNote) (ks : List HoldTick) (dts : List ℚ)
    (hg : gm.GameSpeed = 1) (hv : 0 < v) (hP : 0 < L.MovementPathLength)
    (hS : L.SplineLength = L.MovementPathLength)
    (hb : L.GetButtonPercentageAlongMovementPath < 1)
    (hdt : ∀ dt ∈ dts, 0 ≤ dt)
    (hsum : dts.sum = (ULane.SetMoveSpeed gm v L).2)
    (hks : ks.map (·.TickPercentage)
      = dts.map (ULane.TickPercentage (ULane.SetMoveSpeed gm v L).1))
    (hbody : 0 ≤ ASplineMeshHoldNote.BodyNum (ULane.SetMoveSpeed gm v L).1 now H T
      (ASplineMeshHoldNote.Reset N0)) :
    (ASplineMeshHoldNote.SetActive (ULane.SetMoveSpeed gm v L).1 now H T true
      (ASplineMeshHoldNote.Reset N0)).RootPathPercentage = 0 ∧
    (MoveTicks (ASplineMeshHoldNote.SetActive (ULane.SetMoveSpeed gm v L).1 now H T true
      (ASplineMeshHoldNote.Reset N0)) ks).length = ks.length ∧
    ((MoveTicks (ASplineMeshHoldNote.SetActive (ULane.SetMoveSpeed gm v L).1 now H T true
        (ASplineMeshHoldNote.Reset N0)) ks).getLastD
      (ASplineMeshHoldNote.SetActive (ULane.SetMoveSpeed gm v L).1 now H T true
        (ASplineMeshHoldNote.Reset N0))).RootPathPercentage
      = L.GetButtonPercentageAlongMovementPath := by
  have hroot0 : (ASplineMeshHoldNote.SetActive (ULane.SetMoveSpeed gm v L).1 now H T true
      (ASplineMeshHoldNote.Reset N0)).RootPathPercentage = 0 := by
    simp [ASplineMeshHoldNote.SetActive]
  have hinv := SetActive_Reset_inv (ULane.SetMoveSpeed gm v L).1 now H T N0 (by omega)
  have hlen := MoveTicks_total _ _ (by omega) (by omega) ks _ hinv
  refine ⟨hroot0, hlen, ?_⟩
  rw [MoveTicks_root ks _ hlen, hroot0, hks]
  have htot : (dts.map (ULane.TickPercentage (ULane.SetMoveSpeed gm v L).1)).sum
      = L.GetButtonPercentageAlongMovementPath := by
    rw [tickPercentage_sum, hsum]
    have h2 : (ULane.SetMoveSpeed gm v L).2
        = L.GetButtonPercentageAlongMovementPath * L.SplineLength / v * gm.GameSpeed := rfl
    have h3 : (ULane.SetMoveSpeed gm v L).1.MoveSpeed = v := rfl
    have h4 : (ULane.SetMoveSpeed gm v L).1.MovementPathLength = L.MovementPathLength := rfl
    rw [h2, h3, h4, hg, hS]
    field_simp
  rw [RootPathTicks_sum _ 0 ?_ (by rw [htot, zero_add]; exact hb), htot, zero_add]
  intro t ht
  rw [List.mem_map] at ht
  obtain ⟨dt, hmem, rfl⟩ := ht
  have h3 : (ULane.SetMoveSpeed gm v L).1.MoveSpeed = v := rfl
  have h4 : (ULane.SetMoveSpeed gm v L).1.MovementPathLength = L.MovementPathLength := rfl
  unfold ULane.TickPercentage
  rw [h3, h4]
  exact div_nonneg (mul_nonneg hv.le (hdt dt hmem)) hP.le

theorem C17_lead_time_witness :
    (MoveTicks (ASplineMeshHoldNote.SetActive (ULane.SetMoveSpeed (PlayingAt 0) 500
        ScenarioA_Unset).1 (-1) 50 50 true (ASplineMeshHoldNote.Reset ScenarioC_Note))
      LeadTime_Ticks).length = 3 ∧
    ((MoveTicks (ASplineMeshHoldNote.SetActive (ULane.SetMoveSpeed (PlayingAt 0) 500
        ScenarioA_Unset).1 (-1) 50 50 true (ASplineMeshHoldNote.Reset ScenarioC_Note))
        LeadTime_Ticks).getLastD
      (ASplineMeshHoldNote.SetActive (ULane.SetMoveSpeed (PlayingAt 0) 500
        ScenarioA_Unset).1 (-1) 50 50 true
        (ASplineMeshHoldNote.Reset ScenarioC_Note))).RootPathPercentage
      = ScenarioA_Unset.GetButtonPercentageAlongMovementPath ∧
    ScenarioA_Unset.GetButtonPercentageAlongMovementPath = 1 / 2 :=
  ⟨(C17_lead_time (PlayingAt 0) 500 ScenarioA_Unset (-1) 50 50 ScenarioC_Note LeadTime_Ticks
      [1/2, 1/4, 1/4] rfl (by norm_num) (by decide!) (by decide!) (by decide!)
      (by decide!) (by decide!) (by decide!) (by decide!)).2.1,
   (C17_lead_time (PlayingAt 0) 500 ScenarioA_Unset (-1) 50 50 ScenarioC_Note LeadTime_Ticks
      [1/2, 1/4, 1/4] rfl (by norm_num) (by decide!) (by decide!) (by decide!)
      (by decide!) (by decide!) (by decide!) (by decide!)).2.2,
   by decide!⟩

/-- The index `findIdx?` finds is the length of the longest prefix without a hit. -/
theorem findIdx_takeWhile {α : Type} (p : α → Bool) : ∀ (l : List α),
    l.findIdx? p = if l.any p then some (l.takeWhile (fun x => !p x)).length else none := by
  intro l
  induction l with
  | nil => rfl
  | cons x xs ih =>
    rw [List.findIdx?_cons]
    cases hx : p x with
    | true => simp [List.takeWhile, hx]
    | false =>
      simp only [Bool.false_eq_true, if_false, zero_add, List.any_cons, hx, Bool.false_or,
        List.takeWhile, Bool.not_false, List.length_cons]
      rw [List.findIdx?_succ, ih]
      split_ifs <;> simp

/-- C18. What `ULane::CustomStart(t)` does to the two cursors, for every lane and every
`t`: when some row has `Time > t`, `NoteIndex` becomes the index of the first such row (the
number of rows before it), and otherwise `NoteIndex` keeps its prior value instead of
becoming the number of rows; the same holds for `HoldNoteIndex` and the hold table. On a
map with rows at times 10 and 20, the matching hold table and both cursors at 0,
`CustomStart(50)` leaves both cursors at 0 where 2 rows and 2 entries are not later than
50, and the next `NoteSpawn` at song time 50 spawns the row of time 10. -/
theorem C18_custom_start_cursors :
    (∀ (t : ℚ) (L : ULane),
      (ULane.CustomStart t L).NoteIndex
        = (if L.LevelMap.any (fun r => decide (t < r.Time)) then
            (L.LevelMap.takeWhile (fun r => !decide (t < r.Time))).length
          else L.NoteIndex) ∧
      (ULane.CustomStart t L).HoldNoteIndex
        = (if L.HoldNoteData.any (fun p => decide (t < p.1)) then
            (L.HoldNoteData.takeWhile (fun p => !decide (t < p.1))).length
          else L.HoldNoteIndex)) ∧
    (ULane.CustomStart 50 PastEnd_Lane).NoteIndex = 0 ∧
    (ULane.CustomStart 50 PastEnd_Lane).HoldNoteIndex = 0 ∧
    (PastEnd_Lane.LevelMap.filter (fun r => decide (r.Time ≤ 50))).length = 2 ∧
    (PastEnd_Lane.HoldNoteData.filter (fun p => decide (p.1 ≤ 50))).length = 2 ∧
    (ULane.NoteSpawn (PlayingAt 50) SimpleNotes ScenarioA_Pool (fun _ => 1)
        (ULane.CustomStart 50 PastEnd_Lane)).map
      (fun L => (L.NoteIndex, L.HoldNoteIndex, L.Notes.map (·.HoldDuration)))
      = some (1, 1, [some 1]) := by
  refine ⟨?_, by decide!, by decide!, by decide!, by decide!, by decide!⟩
  intro t L
  unfold ULane.CustomStart
  simp only [findIdx_takeWhile]
  constructor
  · split_ifs <;> rfl
  · split_ifs <;> rfl

/-! ## Entering the button window -/

theorem simpleNotes_keepsLocation : MoveTickKeepsLocation SimpleNotes := by
  intro n d
  rfl

/-- C19 as stated fails: an `InLane` note whose head percentage equals `BoundaryStart`
exactly (40%), with its tail at 30% before `BoundaryEnd` (60%), is still `InLane` after
the classification of `ULane::UpdateNotes`, and after the whole call. -/
theorem C19_counterexample :
    AtBoundary_Note.Location = ENoteDistance.InLane ∧
    AtBoundary_Note.HeadPathPercentage ≥ AtBoundary_Lane.GetBoundaryStartPercentage ∧
    AtBoundary_Note.TailPathPercentage < AtBoundary_Lane.GetBoundaryEndPercentage ∧
    (AtBoundary_Lane.UpdateNotes_Classify AtBoundary_Note).Location = ENoteDistance.InLane ∧
    (ULane.UpdateNotes SimpleNotes (1/100) AtBoundary_Lane).1.Notes.map (·.Location)
      = [ENoteDistance.InLane] := by
  decide!

/-- C19 (amended). For a note of the lane that is `InLane` with its tail percentage below
`BoundaryEnd`, the first loop of the next `ULane::UpdateNotes` call leaves it `InButton`
when its head percentage is strictly greater than `BoundaryStart`, and leaves it `InLane`
when its head percentage is at most `BoundaryStart`, the case of equality included. -/
theorem C19_in_button_strict (nc : NoteClasses) (dt : ℚ) (L : ULane) (i : Nat) (n : ABaseNote)
    (hk : MoveTickKeepsLocation nc) (hn : L.Notes.get? i = some n)
    (hloc : n.Location = ENoteDistance.InLane)
    (ht : n.TailPathPercentage < L.GetBoundaryEndPercentage) :
    (L.GetBoundaryStartPercentage < n.HeadPathPercentage →
      ((ULane.UpdateNotes_Move nc dt L).Notes.get? i).map (·.Location)
        = some ENoteDistance.InButton) ∧
    (n.HeadPathPercentage ≤ L.GetBoundaryStartPercentage →
      ((ULane.UpdateNotes_Move nc dt L).Notes.get? i).map (·.Location)
        = some ENoteDistance.InLane) := by
  have hget : ((ULane.UpdateNotes_Move nc dt L).Notes.get? i).map (·.Location)
      = some (L.UpdateNotes_Classify n).Location := by
    unfold ULane.UpdateNotes_Move
    simp only [List.get?_eq_getElem?, List.getElem?_map] at hn ⊢
    rw [hn]
    simp only [Option.map_some']
    rw [hk]
  rw [hget]
  unfold ULane.UpdateNotes_Classify UpdateNotes_Location
  simp only [hloc]
  constructor
  · intro hh
    rw [if_neg (by simp), if_pos ⟨hh, ht, by decide⟩]
  · intro hh
    rw [if_neg (by simp), if_neg (by intro hc; exact absurd hc.1 (not_lt.mpr hh)),
      if_neg (by intro hc; exact absurd hc.1 (not_le.mpr ht))]

theorem C19_in_button_strict_witness :
    ((ULane.UpdateNotes_Move SimpleNotes (1/100) PastBoundary_Lane).Notes.get? 0).map
        (·.Location) = some ENoteDistance.InButton ∧
    ((ULane.UpdateNotes_Move SimpleNotes (1/100) AtBoundary_Lane).Notes.get? 0).map
        (·.Location) = some ENoteDistance.InLane :=
  ⟨(C19_in_button_strict SimpleNotes (1/100) PastBoundary_Lane 0 PastBoundary_Note
      simpleNotes_keepsLocation rfl rfl (by decide!)).1 (by decide!),
   (C19_in_button_strict SimpleNotes (1/100) AtBoundary_Lane 0 AtBoundary_Note
      simpleNotes_keepsLocation rfl rfl (by decide!)).2 (by decide!)⟩

/-! ## Miss sweep with several notes -/

theorem sweepTarget_append (pre : List ABaseNote) (h : SweepPasses pre) (l : List ABaseNote) :
    ULane.UpdateNotes_SweepTarget (pre ++ l) = ULane.UpdateNotes_SweepTarget l := by
  induction pre with
  | nil => rfl
  | cons a rest ih =>
    obtain ⟨h1, h2⟩ := h a (List.mem_cons_self _ _)
    rw [List.cons_append, ULane.UpdateNotes_SweepTarget, if_neg h1, if_neg h2]
    exact ih (fun m hm => h m (List.mem_cons_of_mem _ hm))

/-- C20 as stated fails: with two notes that both become `PastButton` in one
`ULane::UpdateNotes` call, the call flags the first and broadcasts its miss, then leaves
the loop; the second note is `PastButton` with `bToBeDeactivated` still false and no miss
has been broadcast for it. -/
theorem C20_counterexample :
    TwoPast_Lane.Notes.map (fun n => (n.Id, n.Location, n.bToBeDeactivated, n.bIgnoresMiss))
      = [(0, ENoteDistance.InButton, false, false), (1, ENoteDistance.InButton, false, false)] ∧
    (ULane.UpdateNotes SimpleNotes (1/100) TwoPast_Lane).1.Notes.map
        (fun n => (n.Id, n.Location, n.bToBeDeactivated))
      = [(0, ENoteDistance.PastButton, true), (1, ENoteDistance.PastButton, false)] ∧
    (ULane.UpdateNotes SimpleNotes (1/100) TwoPast_Lane).2 = [LaneEvent.OnNoteMiss 0] := by
  decide!

/-- C20 (amended). In a `ULane::UpdateNotes` call, let `n` be a note that after the first
loop is `PastButton` with `bToBeDeactivated` false, and let no note before it in `Notes`
take a branch of the second loop (none is `PastButton` and unflagged, none is flagged with
its tail at the end of the path). Then the call sets `bToBeDeactivated` of `n`, changes no
other note, and broadcasts exactly the miss of `n` when `n` does not ignore misses and
nothing when it does. The second loop handles one note per call. -/
theorem C20_first_past_button_flagged (nc : NoteClasses) (dt : ℚ) (L : ULane)
    (pre post : List ABaseNote) (n : ABaseNote)
    (hM : (ULane.UpdateNotes_Move nc dt L).Notes = pre ++ n :: post)
    (hpre : SweepPasses pre) (hloc : n.Location = ENoteDistance.PastButton)
    (hflag : n.bToBeDeactivated = false) :
    (ULane.UpdateNotes nc dt L).1.Notes = ULane.SetToBeDeactivated n.Id (pre ++ n :: post) ∧
    AllFlagged n.Id (ULane.UpdateNotes nc dt L).1.Notes ∧
    (ULane.UpdateNotes nc dt L).2
      = (if n.bIgnoresMiss then [] else [LaneEvent.OnNoteMiss n.Id]) := by
  have hT : ULane.UpdateNotes_SweepTarget (ULane.UpdateNotes_Move nc dt L).Notes
      = some (SweepAction.Miss n) := by
    rw [hM, sweepTarget_append pre hpre]
    unfold ULane.UpdateNotes_SweepTarget
    rw [if_pos ⟨hloc, hflag⟩]
  have hN : (ULane.UpdateNotes nc dt L).1.Notes
      = ULane.SetToBeDeactivated n.Id (pre ++ n :: post) := by
    unfold ULane.UpdateNotes ULane.UpdateNotes_Sweep
    rw [hT, ← hM]
    by_cases hi : n.bIgnoresMiss = true <;> simp [hi, ULane.NoteMiss]
  refine ⟨hN, ?_, ?_⟩
  · rw [hN]
    exact allFlagged_setToBeDeactivated_self _ _
  · unfold ULane.UpdateNotes ULane.UpdateNotes_Sweep
    rw [hT]

theorem C20_first_past_button_flagged_witness :
    (ULane.UpdateNotes SimpleNotes (1/100) OnePast_Lane).1.Notes.map
        (fun n => (n.Id, n.Location, n.bToBeDeactivated))
      = [(0, ENoteDistance.InLane, false), (1, ENoteDistance.PastButton, true)] ∧
    AllFlagged 1 (ULane.UpdateNotes SimpleNotes (1/100) OnePast_Lane).1.Notes ∧
    (ULane.UpdateNotes SimpleNotes (1/100) OnePast_Lane).2 = [LaneEvent.OnNoteMiss 1] :=
  ⟨by decide!,
   (C20_first_past_button_flagged SimpleNotes (1/100) OnePast_Lane
      [SimpleNotes.MoveTick (OnePast_Lane.UpdateNotes_Classify { ScenarioA_Note with Id := 0 })
        (OnePast_Lane.TickPercentage (1/100))] []
      (SimpleNotes.MoveTick (OnePast_Lane.UpdateNotes_Classify Past_Note1)
        (OnePast_Lane.TickPercentage (1/100)))
      rfl (by intro m hm; rw [List.mem_singleton] at hm; subst hm; decide!)
      (by decide!) (by decide!)).2⟩

/-! ## Root advance of the hold note -/

/-- C21 at the failing input. Every `MoveTick` call that runs through leaves
`RootPathPercentage` at `r + d` when `r + d < 1` and at `r` otherwise, which is
`min(r + d, 1)` exactly when `r + d < 1` or `r = 1`. The hold note of Scenario C moved by
ticks of 30%, 30%, 30% and 20% has its root at 3/10, 3/5, 9/10 and then still at 9/10,
where `min(9/10 + 1/5, 1) = 1`. -/
theorem C21_root_not_clamped :
    (∀ (L : ULane) (d : ℚ) (N : ASplineMeshHoldNote),
      (ASplineMeshHoldNote.MoveTick L d N).map (·.RootPathPercentage)
        = (ASplineMeshHoldNote.MoveTick L d N).map
            (fun _ => if N.RootPathPercentage + d < 1 then N.RootPathPercentage + d
              else N.RootPathPercentage)) ∧
    (∀ r d : ℚ, ASplineMeshHoldNote.MoveTick_Advance r d = min (r + d) 1 ↔ (r + d < 1 ∨ r = 1)) ∧
    (MoveTicks ScenarioC_Active NearEnd_Ticks).map (·.RootPathPercentage)
      = [3/10, 3/5, 9/10, 9/10] ∧
    min ((9/10 : ℚ) + 1/5) 1 = 1 := by
  refine ⟨?_, ?_, by decide!, by norm_num⟩
  · intro L d N
    cases h : ASplineMeshHoldNote.MoveTick L d N with
    | none => rfl
    | some N1 =>
      simp only [Option.map_some', Option.some.injEq]
      rw [MoveTick_root L d N N1 h]
      rfl
  · intro r d
    unfold ASplineMeshHoldNote.MoveTick_Advance
    by_cases h : r + d < 1
    · rw [if_pos h, min_eq_left h.le]
      simp [h]
    · rw [if_neg h, min_eq_right (not_lt.mp h)]
      simp [h]

/-! ## Growth of the chain points -/

theorem MoveTick_Point_Percentage (d M : ℚ) (p : FSplinePointMeta) :
    (ASplineMeshHoldNote.MoveTick_Point d M p).Percentage = min (p.Percentage + d) M := by
  unfold ASplineMeshHoldNote.MoveTick_Point
  split_ifs with h
  · exact (min_eq_left h.le).symm
  · exact (min_eq_right (not_lt.mp h)).symm

theorem MoveTick_Points_getElem (L : ULane) (d : ℚ) (N : ASplineMeshHoldNote) (i : Nat) :
    (ASplineMeshHoldNote.MoveTick_Points L d N)[i]?
      = (N.SplinePointsMeta[i]?).map
          (fun p => if (i : Int) ≤ N.ActiveSplinePoint then
            ASplineMeshHoldNote.MoveTick_Point d (ASplineMeshHoldNote.MoveTick_MaxPercentage L N) p
          else p) := by
  unfold ASplineMeshHoldNote.MoveTick_Points
  rw [List.getElem?_mapIdx]

/-- C22 as stated fails: the hold note of Scenario C, moved with the button up until its
head point is at 55% of the path while the note is `InButton`, and then moved by a tick of
10% with the button pressed and the input valid (ceiling at the button, 50%), has its
head point pulled back from 11/20 to 1/2. -/
theorem C22_counterexample :
    ((MoveTicks ScenarioC_Active LatePress_Ticks).getLast?).map ChainPercentages
      = some [11/20, 3/10, 1/20, 0, 0, 0, 0, 0, 0, 0, 0, 0] ∧
    ((MoveTicks ScenarioC_Active (LatePress_Ticks ++ [ScenarioC_HeldTick])).getLast?).map
        ChainPercentages
      = some [1/2, 2/5, 3/20, 0, 0, 0, 0, 0, 0, 0, 0, 0] ∧
    (0 : ℚ) ≤ ScenarioC_HeldTick.TickPercentage ∧ (1/2 : ℚ) < 11/20 := by
  decide!

/-- C22 (amended). For every `MoveTick` call that runs through and every chain point `i`:
a point up to the cursor is left at `min(Percentage + TickPercentage, MaxPercentage)` with
`MaxPercentage` the ceiling of the call (the button percentage when the note is held, 1
otherwise), a point beyond the cursor is left as it is; hence, when `TickPercentage ≥ 0`
and the point is not beyond the ceiling before the call, its `Percentage` after the call
is at least its `Percentage` before. -/
theorem C22_point_growth (L : ULane) (d : ℚ) (N N1 : ASplineMeshHoldNote) (i : Nat)
    (p : FSplinePointMeta)
    (h : ASplineMeshHoldNote.MoveTick L d N = some N1)
    (hp : N.SplinePointsMeta[i]? = some p) :
    ∃ q, N1.SplinePointsMeta[i]? = some q ∧
      q.Percentage
        = (if (i : Int) ≤ N.ActiveSplinePoint then
            min (p.Percentage + d) (ASplineMeshHoldNote.MoveTick_MaxPercentage L N)
          else p.Percentage) ∧
      (0 ≤ d → p.Percentage ≤ ASplineMeshHoldNote.MoveTick_MaxPercentage L N →
        p.Percentage ≤ q.Percentage) := by
  obtain ⟨_, _, hpts, _, _⟩ := MoveTick_some L d N N1 h
  have hq := MoveTick_Points_getElem L d N i
  rw [hp, Option.map_some'] at hq
  rw [← hpts] at hq
  refine ⟨_, hq, ?_, ?_⟩
  · split_ifs with hi
    · exact MoveTick_Point_Percentage _ _ _
    · rfl
  · intro hd hle
    split_ifs with hi
    · rw [MoveTick_Point_Percentage]
      exact le_min (by linarith) hle
    · exact le_refl _

theorem C22_point_growth_witness :
    ∃ q, ((ASplineMeshHoldNote.MoveTick ScenarioC_HeldTick.Lane (1/10)
          { ScenarioC_Active with Location := ENoteDistance.InButton }).getD
          ScenarioC_Active).SplinePointsMeta[0]? = some q ∧
      q.Percentage = 1/10 ∧ (0 : ℚ) ≤ q.Percentage :=
  (C22_point_growth ScenarioC_HeldTick.Lane (1/10)
    { ScenarioC_Active with Location := ENoteDistance.InButton }
    ((ASplineMeshHoldNote.MoveTick ScenarioC_HeldTick.Lane (1/10)
      { ScenarioC_Active with Location := ENoteDistance.InButton }).getD ScenarioC_Active)
    0 { Percentage := 0, MaxPercentage := 1/20 } (by decide!) (by decide!)).imp
    (fun q hq => ⟨hq.1, hq.2.1.trans (by decide!), hq.2.2 (by norm_num) (by decide!)⟩)

/-! ## Several notes in the button window -/

/-- C23 as stated fails: with two notes `InButton` (ids 0 and 1, in that order in `Notes`)
`CheckIfNoteWithinBounds` sets `NoteWithinBounds` to note 0, the first of them, while the
last `InButton` note in the order of `Notes` is note 1. -/
theorem C23_counterexample :
    (TwoInButton_Lane.Notes.filter (fun n => decide (n.Location = ENoteDistance.InButton))).map
        (·.Id) = [0, 1] ∧
    (ULane.CheckIfNoteWithinBounds TwoInButton_Lane).NoteWithinBounds = some 0 ∧
    (ULane.CheckIfNoteWithinBounds TwoInButton_Lane).NoteWithinBounds ≠ some 1 := by
  decide!

/-- C23 (amended). `ULane::CheckIfNoteWithinBounds` sets `NoteWithinBounds` to the first
note, in the order of `Notes`, that is `InButton`, whatever notes follow it (the scan
leaves the loop there); the notes themselves are left alone. -/
theorem C23_first_in_button_wins (L : ULane) (pre post : List ABaseNote) (n : ABaseNote)
    (hN : L.Notes = pre ++ n :: post)
    (hpre : ∀ m ∈ pre, m.Location ≠ ENoteDistance.InButton)
    (hn : n.Location = ENoteDistance.InButton) :
    (ULane.CheckIfNoteWithinBounds L).NoteWithinBounds = some n.Id ∧
    (ULane.CheckIfNoteWithinBounds L).Notes = L.Notes := by
  have hlen : ¬ L.Notes.length = 0 := by
    rw [hN]
    simp
  have hfind : L.Notes.find? (fun m => decide (m.Location = ENoteDistance.InButton))
      = some n := by
    rw [hN, List.find?_append]
    have hnone : pre.find? (fun m => decide (m.Location = ENoteDistance.InButton)) = none := by
      rw [List.find?_eq_none]
      intro m hm
      simpa using hpre m hm
    rw [hnone, Option.none_or, List.find?_cons_of_pos]
    simpa using hn
  unfold ULane.CheckIfNoteWithinBounds
  rw [if_neg hlen]
  simp only [hfind, Option.map_some']
  exact ⟨trivial, trivial⟩

theorem C23_first_in_button_wins_witness :
    (ULane.CheckIfNoteWithinBounds TwoInButton_Lane).NoteWithinBounds = some 0 :=
  (C23_first_in_button_wins TwoInButton_Lane
    [{ ScenarioA_Note with
        Id := 2, Location := ENoteDistance.PastButton, bToBeDeactivated := true,
        HeadPathPercentage := 7/10, RootPathPercentage := 7/10, TailPathPercentage := 7/10 }]
    [{ ScenarioA_Note with
        Id := 1, Location := ENoteDistance.InButton,
        HeadPathPercentage := 9/20, RootPathPercentage := 9/20, TailPathPercentage := 9/20 }]
    { ScenarioA_Note with
        Id := 0, Location := ENoteDistance.InButton,
        HeadPathPercentage := 11/20, RootPathPercentage := 11/20, TailPathPercentage := 11/20 }
    rfl (by intro m hm; rw [List.mem_singleton] at hm; subst hm; decide) rfl).1

/-! ## The loaded map under `NoteSpawn` -/

/-- C24 as stated fails: on the map `[{Time: 0, Lane0: SINGLE}]` of Scenario A a
`NoteSpawn` call with `IgcNoteSpawnFreq = 1` and a draw of 0 writes IGC into the map
entry. The entry stays IGC: after `ResetLane`, a `NoteSpawn` call with all substitutions
switched off spawns an IGC note from the row that was loaded as SINGLE. -/
theorem C24_counterexample :
    ScenarioA_Start.LevelMap = [{ Time := 0, Lanes := [ENoteType.SINGLE] }] ∧
    (ULane.NoteSpawn IgcOn_Game SimpleNotes ScenarioA_Pool (fun _ => 0) ScenarioA_Start).map
        (·.LevelMap) = some [{ Time := 0, Lanes := [ENoteType.IGC] }] ∧
    ((ULane.NoteSpawn IgcOn_Game SimpleNotes ScenarioA_Pool (fun _ => 0) ScenarioA_Start).bind
        (fun L => ULane.NoteSpawn (PlayingAt 0) SimpleNotes ScenarioA_Pool (fun _ => 1)
          (ULane.ResetLane L))).map
        (fun L => (L.LevelMap, L.Notes.map (·.NoteType)))
      = some ([{ Time := 0, Lanes := [ENoteType.IGC] }], [ENoteType.IGC]) := by
  decide!

/-- What a `NoteSpawn` call that runs through has done to the map: nothing, or the entry
of this lane in the row at `NoteIndex` is overwritten with the substituted type. -/
theorem NoteSpawn_levelMap (gm : ARhythmGameGameMode) (nc : NoteClasses)
    (pool : ENoteType → ABaseNote) (draw : Nat → Int) (L L1 : ULane)
    (h : ULane.NoteSpawn gm nc pool draw L = some L1) :
    L1.LevelMap = L.LevelMap ∨
    ∃ (row : FLevelMapRow) (t : ENoteType),
      L.LevelMap.get? L.NoteIndex = some row ∧ row.Lanes.get? L.LaneIdx = some t ∧
      L1.LevelMap = L.LevelMap.set L.NoteIndex
        { row with Lanes := row.Lanes.set L.LaneIdx (ULane.RandSwapForSpecial L gm draw t) } := by
  unfold ULane.NoteSpawn at h
  split at h
  · left; rw [← Option.some.inj h]
  · rename_i row hrow
    split_ifs at h with hdue
    · split at h
      · cases h
      · rename_i t ht
        split_ifs at h with hmark
        · left; rw [← Option.some.inj h]
        · right
          refine ⟨row, t, hrow, ht, ?_⟩
          simp only [Option.map_eq_some'] at h
          obtain ⟨L3, h3, rfl⟩ := h
          split at h3
          all_goals first
            | (obtain ⟨k, hk, _⟩ := ActivateNote_some _ _ _ _ h3
               subst hk
               rfl)
            | (simp only [Option.map_eq_some'] at h3
               obtain ⟨L2, h2, rfl⟩ := h3
               obtain ⟨k, hk, _⟩ := ActivateNote_some _ _ _ _ h2
               subst hk
               rfl)
            | (rw [← Option.some.inj h3])
    · left; rw [← Option.some.inj h]
theorem RandSwapForSpecial_other (L : ULane) (gm : ARhythmGameGameMode) (draw : Nat → Int)
    (t : ENoteType) (h : t ≠ ENoteType.SINGLE) : ULane.RandSwapForSpecial L gm draw t = t := by
  unfold ULane.RandSwapForSpecial
  rw [if_pos h]

/-- C24 (amended). For every lane state, song time, frequency configuration and draws, a
`NoteSpawn` call that runs through changes the loaded `LevelMap` in at most one place, the
note type of this lane in the row at `NoteIndex`: every row's `Time` is the same after the
call as before, every other row is the same, every other lane's entry of that row is the
same, and the entry of this lane either is the same or was SINGLE and now holds the result
of `RandSwapForSpecial`; `HoldNoteData` is the same. -/
theorem C24_level_map_frame (gm : ARhythmGameGameMode) (nc : NoteClasses)
    (pool : ENoteType → ABaseNote) (draw : Nat → Int) (L L1 : ULane)
    (h : ULane.NoteSpawn gm nc pool draw L = some L1) :
    L1.LevelMap.map (·.Time) = L.LevelMap.map (·.Time) ∧
    (∀ i, i ≠ L.NoteIndex → L1.LevelMap.get? i = L.LevelMap.get? i) ∧
    (∀ row, L.LevelMap.get? L.NoteIndex = some row →
      ∃ row1, L1.LevelMap.get? L.NoteIndex = some row1 ∧ row1.Time = row.Time ∧
        (∀ j, j ≠ L.LaneIdx → row1.Lanes.get? j = row.Lanes.get? j) ∧
        (∀ t, row.Lanes.get? L.LaneIdx = some t →
          ∃ t1, row1.Lanes.get? L.LaneIdx = some t1 ∧
            (t1 = t ∨ (t = ENoteType.SINGLE ∧
              t1 = ULane.RandSwapForSpecial L gm draw ENoteType.SINGLE)))) ∧
    L1.HoldNoteData = L.HoldNoteData := by
  have hhold : L1.HoldNoteData = L.HoldNoteData := by
    rcases NoteSpawn_effect gm nc pool draw L L1 h with rfl | ⟨_, _, _, hd, _⟩
    · rfl
    · exact hd
  rcases NoteSpawn_levelMap gm nc pool draw L L1 h with hsame | ⟨row, t, hrow, ht, hset⟩
  · rw [hsame]
    refine ⟨rfl, fun _ _ => rfl, ?_, hhold⟩
    intro row hrow
    exact ⟨row, hrow, rfl, fun _ _ => rfl, fun t ht => ⟨t, ht, Or.inl rfl⟩⟩
  · have hlt : L.NoteIndex < L.LevelMap.length := by
      rw [List.get?_eq_getElem?] at hrow
      exact (List.getElem?_eq_some_iff.mp hrow).1
    have hjlt : L.LaneIdx < row.Lanes.length := by
      rw [List.get?_eq_getElem?] at ht
      exact (List.getElem?_eq_some_iff.mp ht).1
    refine ⟨?_, ?_, ?_, hhold⟩
    · rw [hset]
      apply List.ext_getElem?
      intro i
      rw [List.getElem?_map, List.getElem?_map, List.getElem?_set]
      by_cases hi : L.NoteIndex = i
      · subst hi
        rw [if_pos rfl, if_pos hlt]
        rw [List.get?_eq_getElem?] at hrow
        rw [hrow]
        rfl
      · rw [if_neg hi]
    · intro i hi
      rw [hset, List.get?_eq_getElem?, List.get?_eq_getElem?, List.getElem?_set,
        if_neg (fun hh => hi hh.symm)]
    · intro row2 hrow2
      rw [hrow] at hrow2
      cases Option.some.inj hrow2
      refine ⟨{ row with
        Lanes := row.Lanes.set L.LaneIdx (ULane.RandSwapForSpecial L gm draw t) },
        ?_, rfl, ?_, ?_⟩
      · rw [hset, List.get?_eq_getElem?, List.getElem?_set, if_pos rfl, if_pos hlt]
      · intro j hj
        show (row.Lanes.set L.LaneIdx _).get? j = row.Lanes.get? j
        rw [List.get?_eq_getElem?, List.get?_eq_getElem?, List.getElem?_set,
          if_neg (fun hh => hj hh.symm)]
      · intro t2 ht2
        rw [ht] at ht2
        cases Option.some.inj ht2
        refine ⟨ULane.RandSwapForSpecial L gm draw t, ?_, ?_⟩
        · show (row.Lanes.set L.LaneIdx _).get? L.LaneIdx = _
          rw [List.get?_eq_getElem?, List.getElem?_set, if_pos rfl, if_pos hjlt]
        · by_cases hs : t = ENoteType.SINGLE
          · right
            exact ⟨hs, by rw [hs]⟩
          · left
            exact RandSwapForSpecial_other L gm draw t hs
theorem C24_level_map_frame_witness :
    ((ULane.NoteSpawn IgcOn_Game SimpleNotes ScenarioA_Pool (fun _ => 0)
        ScenarioA_Start).getD ScenarioA_Start).LevelMap.map (·.Time)
      = ScenarioA_Start.LevelMap.map (·.Time) ∧
    ∃ row1, ((ULane.NoteSpawn IgcOn_Game SimpleNotes ScenarioA_Pool (fun _ => 0)
        ScenarioA_Start).getD ScenarioA_Start).LevelMap.get? ScenarioA_Start.NoteIndex
        = some row1 ∧
      row1.Time = 0 ∧
      ∃ t1, row1.Lanes.get? ScenarioA_Start.LaneIdx = some t1 ∧
        (t1 = ENoteType.SINGLE ∨ (ENoteType.SINGLE = ENoteType.SINGLE ∧
          t1 = ULane.RandSwapForSpecial ScenarioA_Start IgcOn_Game (fun _ => 0)
            ENoteType.SINGLE)) :=
  ⟨(C24_level_map_frame IgcOn_Game SimpleNotes ScenarioA_Pool (fun _ => 0) ScenarioA_Start
      ((ULane.NoteSpawn IgcOn_Game SimpleNotes ScenarioA_Pool (fun _ => 0)
        ScenarioA_Start).getD ScenarioA_Start) (by decide!)).1,
   ((C24_level_map_frame IgcOn_Game SimpleNotes ScenarioA_Pool (fun _ => 0) ScenarioA_Start
      ((ULane.NoteSpawn IgcOn_Game SimpleNotes ScenarioA_Pool (fun _ => 0)
        ScenarioA_Start).getD ScenarioA_Start) (by decide!)).2.2.1
      { Time := 0, Lanes := [ENoteType.SINGLE] } rfl).imp
    (fun _ hr => ⟨hr.1, hr.2.1, hr.2.2.2 ENoteType.SINGLE rfl⟩)⟩

/-! ## Loading a map -/

/-- C25 as stated fails: the map with a row at time 2 followed by a row at time 1 is not
strictly increasing, and `ULane::LoadNotes` installs it as it is. With
`SpawnTimeOffset = 1` the scheduler at song time 0 then spawns nothing although the row of
time 1 is due, because the cursor stands at the row of time 2. -/
theorem C25_counterexample :
    ¬ List.Chain' (fun a b : ℚ => a < b) (Unsorted_Rows.map (·.Time)) ∧
    (ULane.LoadNotes Unsorted_Rows [] ScenarioA_Start).LevelMap = Unsorted_Rows ∧
    ((1 : ℚ) - (ULane.LoadNotes Unsorted_Rows [] ScenarioA_Start).SpawnTimeOffset
      ≤ (PlayingAt 0).SecondsSinceStart) ∧
    ULane.NoteSpawn (PlayingAt 0) SimpleNotes ScenarioA_Pool (fun _ => 1)
        (ULane.LoadNotes Unsorted_Rows [] ScenarioA_Start)
      = some (ULane.LoadNotes Unsorted_Rows [] ScenarioA_Start) ∧
    (ULane.LoadNotes Unsorted_Rows [] ScenarioA_Start).Notes = [] := by
  refine ⟨?_, rfl, by decide!, by decide!, rfl⟩
  simp [Unsorted_Rows]

/-- C25 (amended). `ULane::LoadNotes` checks nothing: for every input, whatever the order
of the Time column, it installs the given rows as `LevelMap` and the given table as
`HoldNoteData` and changes nothing else of the lane. The scheduler then takes the rows in
the order of the map: as long as the row at `NoteIndex` is not due, `NoteSpawn` leaves the
lane as it is, whatever the times of the rows after it. -/
theorem C25_load_notes_installs (Rows : List FLevelMapRow) (HoldNoteData : List (ℚ × ℚ))
    (L : ULane) :
    (ULane.LoadNotes Rows HoldNoteData L).LevelMap = Rows ∧
    (ULane.LoadNotes Rows HoldNoteData L).HoldNoteData = HoldNoteData ∧
    { ULane.LoadNotes Rows HoldNoteData L with
      LevelMap := L.LevelMap, HoldNoteData := L.HoldNoteData } = L ∧
    (∀ (gm : ARhythmGameGameMode) (nc : NoteClasses) (pool : ENoteType → ABaseNote)
        (draw : Nat → Int) (row : FLevelMapRow),
      Rows.get? L.NoteIndex = some row →
      gm.SecondsSinceStart < row.Time - L.SpawnTimeOffset →
      ULane.NoteSpawn gm nc pool draw (ULane.LoadNotes Rows HoldNoteData L)
        = some (ULane.LoadNotes Rows HoldNoteData L)) := by
  refine ⟨rfl, rfl, rfl, ?_⟩
  intro gm nc pool draw row hrow hnot
  unfold ULane.NoteSpawn
  have hrow2 : (ULane.LoadNotes Rows HoldNoteData L).LevelMap.get?
      (ULane.LoadNotes Rows HoldNoteData L).NoteIndex = some row := hrow
  rw [hrow2]
  have hnot2 : ¬ (row.Time - (ULane.LoadNotes Rows HoldNoteData L).SpawnTimeOffset
      ≤ gm.SecondsSinceStart) := not_le.mpr hnot
  simp only [hnot2, if_false]

theorem C25_load_notes_installs_witness :
    (ULane.LoadNotes Unsorted_Rows [] ScenarioA_Start).LevelMap = Unsorted_Rows ∧
    ULane.NoteSpawn (PlayingAt 0) SimpleNotes ScenarioA_Pool (fun _ => 1)
        (ULane.LoadNotes Unsorted_Rows [] ScenarioA_Start)
      = some (ULane.LoadNotes Unsorted_Rows [] ScenarioA_Start) :=
  ⟨(C25_load_notes_installs Unsorted_Rows [] ScenarioA_Start).1,
   (C25_load_notes_installs Unsorted_Rows [] ScenarioA_Start).2.2.2 (PlayingAt 0) SimpleNotes
     ScenarioA_Pool (fun _ => 1) { Time := 2, Lanes := [ENoteType.SINGLE] } rfl (by decide!)⟩

/-! ## The note within bounds across a reset -/

/-- C26 at the failing input. `ULane::ResetLane` empties `Notes` and leaves
`NoteWithinBounds` as it is, for every lane, and `CheckIfNoteWithinBounds` returns at once
on a lane without notes (`NoteHit` and `NoteMiss` do clear `NoteWithinBounds`). On a lane whose note 0 is within bounds, after `ResetLane` the
lane owns no note and `NoteWithinBounds` is still note 0; it is still note 0 after a full
tick of the restarted level, and a press is forwarded to note 0 (`RegisterTouch`). -/
theorem C26_reset_leaves_note_within_bounds :
    (∀ L : ULane, (ULane.ResetLane L).Notes = [] ∧
      (ULane.ResetLane L).NoteWithinBounds = L.NoteWithinBounds) ∧
    (∀ L : ULane, ULane.CheckIfNoteWithinBounds { L with Notes := [] }
      = { L with Notes := [] }) ∧
    (∀ (L : ULane) (Note : Nat), (ULane.NoteHit Note L).1.NoteWithinBounds = none ∧
      (ULane.NoteMiss Note L).NoteWithinBounds = none) ∧
    InWindow_Lane.NoteWithinBounds = some 0 ∧
    InWindow_Lane.Notes.map (·.Id) = [0] ∧
    (ULane.ResetLane InWindow_Lane).Notes = [] ∧
    (ULane.ResetLane InWindow_Lane).NoteWithinBounds = some 0 ∧
    (ULane.TickComponent (PlayingAt 0) SimpleNotes ScenarioA_Pool (fun _ => 1) (1/100)
        (ULane.ResetLane InWindow_Lane)).map
        (fun r => (r.1.Notes, r.1.NoteWithinBounds, r.2)) = some ([], some 0, []) ∧
    (ULane.TouchHeld 0 (1/100) (ULane.ResetLane InWindow_Lane)).2
      = [LaneEvent.RegisterTouch 0 0 (1/100)] := by
  refine ⟨fun _ => ⟨rfl, rfl⟩, fun _ => rfl, fun _ _ => ⟨rfl, rfl⟩, rfl, rfl, rfl, rfl,
    by decide!, by decide!⟩

/-! ## Download bookkeeping (`UPatchController`) -/

/-- The bound on the iterations is never what ends the loop: once it covers the entries
from the index on, a larger bound gives the same result. -/
theorem FinishedDownloadingChunk_Loop_fuel (status : Int → EChunkStatus)
    (Success Failure : Int → PatchEvent) :
    ∀ (fuel k i : Nat) (list : List Int) (ev : List PatchEvent), list.length ≤ i + fuel →
      UPatchController.FinishedDownloadingChunk_Loop status Success Failure (fuel + k) i list ev
        = UPatchController.FinishedDownloadingChunk_Loop status Success Failure fuel i list ev := by
  intro fuel
  induction fuel with
  | zero =>
    intro k i list ev h
    have hnone : list.get? i = none := List.get?_eq_none.mpr (by omega)
    cases k with
    | zero => rfl
    | succ k =>
      rw [Nat.zero_add]
      unfold UPatchController.FinishedDownloadingChunk_Loop
      rw [hnone]
  | succ fuel ih =>
    intro k i list ev h
    rw [Nat.add_right_comm]
    unfold UPatchController.FinishedDownloadingChunk_Loop
    cases hget : list.get? i with
    | none => rfl
    | some id =>
      have hlt : i < list.length := by
        rw [List.get?_eq_getElem?] at hget
        exact (List.getElem?_eq_some_iff.mp hget).1
      have herase : (list.eraseIdx i).length ≤ i + 1 + fuel := by
        rw [List.length_eraseIdx, if_pos hlt]
        omega
      have hkeep : list.length ≤ i + 1 + fuel := by omega
      dsimp only
      generalize status id = st
      cases st
      · exact ih k (i + 1) (list.eraseIdx i) _ herase
      · exact ih k (i + 1) list ev hkeep
      · exact ih k (i + 1) list ev hkeep
      · exact ih k (i + 1) (list.eraseIdx i) _ herase
      · exact ih k (i + 1) (list.eraseIdx i) _ herase
      · exact ih k (i + 1) (list.eraseIdx i) _ herase

theorem take_eraseIdx_self (l : List Int) (i : Nat) : (l.eraseIdx i).take i = l.take i := by
  induction l generalizing i with
  | nil => simp
  | cons a l ih =>
    cases i with
    | zero => simp
    | succ i => simp [List.eraseIdx, ih]

/-- The loop from index `i` on leaves the entries in front of `i` alone. -/
theorem FinishedDownloadingChunk_Loop_take (status : Int → EChunkStatus)
    (Success Failure : Int → PatchEvent) :
    ∀ (fuel i : Nat) (list : List Int) (ev : List PatchEvent),
      (UPatchController.FinishedDownloadingChunk_Loop status Success Failure fuel i list ev).1.take i
        = list.take i := by
  intro fuel
  induction fuel with
  | zero => intro i list ev; rfl
  | succ fuel ih =>
    intro i list ev
    unfold UPatchController.FinishedDownloadingChunk_Loop
    cases hget : list.get? i with
    | none => rfl
    | some id =>
      have hstep : ∀ (l2 : List Int) (ev2 : List PatchEvent), l2.take i = list.take i →
          (UPatchController.FinishedDownloadingChunk_Loop status Success Failure fuel (i + 1)
            l2 ev2).1.take i = list.take i := by
        intro l2 ev2 h2
        have h := congrArg (List.take i) (ih (i + 1) l2 ev2)
        rw [List.take_take, List.take_take, Nat.min_eq_left (Nat.le_succ i)] at h
        rw [h, h2]
      dsimp only
      generalize status id = st
      cases st
      · exact hstep _ _ (take_eraseIdx_self list i)
      · exact hstep _ _ rfl
      · exact hstep _ _ rfl
      · exact hstep _ _ (take_eraseIdx_self list i)
      · exact hstep _ _ (take_eraseIdx_self list i)
      · exact hstep _ _ (take_eraseIdx_self list i)

/-- C27 at the failing input. With the levels 1 and 2 and the songs 7, 8 and 9 in the
download lists and every chunk mounted, `FinishedDownloadingChunk` notifies and removes
level 1 and the songs 7 and 9 only: level 2 and song 8 stay in their lists, mounted and
without a notification, because `RemoveAt(i)` moves the next entry to index `i` and the
loop then goes on at `i + 1`. In general, whenever the first entry of the level list is
removed, the second entry is still in the list after the call, whatever its status. The
bound on the iterations in the model does not cut a loop short. -/
theorem C27_entry_after_removed_is_skipped :
    (UPatchController.FinishedDownloadingChunk AllMounted TwoLevels_Controller).1
      = { LevelDownloadList := [2], SongDownloadList := [8] } ∧
    (UPatchController.FinishedDownloadingChunk AllMounted TwoLevels_Controller).2
      = [PatchEvent.OnLevelDownloadSuccess 1, PatchEvent.OnSongDownloadSuccess 7,
         PatchEvent.OnSongDownloadSuccess 9] ∧
    AllMounted.LevelStatus 2 = EChunkStatus.Mounted ∧
    AllMounted.SongStatus 8 = EChunkStatus.Mounted ∧
    (∀ (D : FChunkDownloader) (P : UPatchController) (a b : Int) (rest : List Int),
      P.LevelDownloadList = a :: b :: rest → IsFinished (D.LevelStatus a) →
      (UPatchController.FinishedDownloadingChunk D P).1.LevelDownloadList.head? = some b) ∧
    (∀ (status : Int → EChunkStatus) (Success Failure : Int → PatchEvent) (list : List Int)
        (ev : List PatchEvent) (k : Nat),
      UPatchController.FinishedDownloadingChunk_Loop status Success Failure (list.length + k) 0
          list ev
        = UPatchController.FinishedDownloadingChunk_Loop status Success Failure list.length 0
            list ev) := by
  refine ⟨by decide, by decide, rfl, rfl, ?_, ?_⟩
  · intro D P a b rest hP hfin
    have htake : ∀ (ev : List PatchEvent),
        (UPatchController.FinishedDownloadingChunk_Loop D.LevelStatus
          PatchEvent.OnLevelDownloadSuccess PatchEvent.OnLevelDownloadFailure
          (rest.length + 1) 1 (b :: rest) ev).1.head? = some b := by
      intro ev
      have h := FinishedDownloadingChunk_Loop_take D.LevelStatus
        PatchEvent.OnLevelDownloadSuccess PatchEvent.OnLevelDownloadFailure
        (rest.length + 1) 1 (b :: rest) ev
      generalize (UPatchController.FinishedDownloadingChunk_Loop D.LevelStatus
        PatchEvent.OnLevelDownloadSuccess PatchEvent.OnLevelDownloadFailure
        (rest.length + 1) 1 (b :: rest) ev).1 = l at h
      cases l with
      | nil => simp at h
      | cons x xs =>
        simp only [List.take_succ_cons, List.take_zero, List.cons.injEq, and_true] at h
        rw [h]
        rfl
    unfold UPatchController.FinishedDownloadingChunk
    simp only [hP, List.length_cons]
    unfold UPatchController.FinishedDownloadingChunk_Loop
    simp only [List.get?_cons_zero, List.eraseIdx_cons_zero, Nat.zero_add]
    rcases hfin with h | h | h | h <;> rw [h] <;> exact htake _
  · intro status Success Failure list ev k
    exact FinishedDownloadingChunk_Loop_fuel status Success Failure list.length k 0 list ev
      (by omega)

/-! ## Note type resolver (`FNoteMeta`) -/

/-- Strings that compare equal select the same branch. -/
theorem SetUsingType_congr (s t : String) (M : FNoteMeta) (h : FString_eq s t = true) :
    FNoteMeta.SetUsingType s M = FNoteMeta.SetUsingType t M := by
  have hst : s.data.map Char.toLower = t.data.map Char.toLower := of_decide_eq_true h
  have heq : ∀ lit, FString_eq s lit = FString_eq t lit := by
    intro lit
    unfold FString_eq
    rw [hst]
  unfold FNoteMeta.SetUsingType
  simp only [heq]

/-- C28 at the failing input. `SetUsingType("HoldSpline")` is caught by the branch of
`"HoldStatic"` (`NoteMeta.h:84`), so afterwards `bUsingHoldStatic` is the flag that is set
and `bUsingHoldSpline` is false: the branch of `"HoldSpline"` at line 134 is never reached.
For a string that is no selector the last branch leaves `bUsingHoldSpline` as it was, here
true. For every prior value of the flags: each of the six other selectors sets exactly
its own flag, `"HoldSpline"` sets exactly `bUsingHoldStatic`, a string that compares equal
to no selector clears the six other flags and keeps `bUsingHoldSpline`, and strings that
compare equal give the same result. -/
theorem C28_hold_spline_sets_hold_static :
    FNoteMeta.UsingFlags (FNoteMeta.SetUsingType "HoldSpline" {}) = ["HoldStatic"] ∧
    (FNoteMeta.SetUsingType "HoldSpline" {}).bUsingHoldSpline = false ∧
    FNoteMeta.UsingFlags (FNoteMeta.SetUsingType "Other" { bUsingHoldSpline := true })
      = ["HoldSpline"] ∧
    (∀ M : FNoteMeta,
      FNoteMeta.UsingFlags (FNoteMeta.SetUsingType "SingleStatic" M) = ["SingleStatic"] ∧
      FNoteMeta.UsingFlags (FNoteMeta.SetUsingType "SingleSprite" M) = ["SingleSprite"] ∧
      FNoteMeta.UsingFlags (FNoteMeta.SetUsingType "SingleSkeletal" M) = ["SingleSkeletal"] ∧
      FNoteMeta.UsingFlags (FNoteMeta.SetUsingType "HoldStatic" M) = ["HoldStatic"] ∧
      FNoteMeta.UsingFlags (FNoteMeta.SetUsingType "HoldSprite" M) = ["HoldSprite"] ∧
      FNoteMeta.UsingFlags (FNoteMeta.SetUsingType "HoldSkeletal" M) = ["HoldSkeletal"] ∧
      FNoteMeta.UsingFlags (FNoteMeta.SetUsingType "HoldSpline" M) = ["HoldStatic"] ∧
      (∀ s : String,
        FString_eq s "SingleStatic" = false → FString_eq s "SingleSprite" = false →
        FString_eq s "SingleSkeletal" = false → FString_eq s "HoldStatic" = false →
        FString_eq s "HoldSprite" = false → FString_eq s "HoldSkeletal" = false →
        FString_eq s "HoldSpline" = false →
        FNoteMeta.SetUsingType s M = { bUsingHoldSpline := M.bUsingHoldSpline }) ∧
      (∀ s t : String, FString_eq s t = true →
        FNoteMeta.SetUsingType s M = FNoteMeta.SetUsingType t M)) := by
  refine ⟨by decide, by decide, by decide, ?_⟩
  intro M
  refine ⟨rfl, rfl, rfl, rfl, rfl, rfl, rfl, ?_, fun s t h => SetUsingType_congr s t M h⟩
  intro s h1 h2 h3 h4 h5 h6 h7
  unfold FNoteMeta.SetUsingType
  simp [h1, h2, h3, h4, h5, h6, h7]

/-! ## Ordering of the chain -/

theorem clamp_MaxPercentage (p : FSplinePointMeta) (h : p.MaxPercentage ≤ 1) :
    (if p.MaxPercentage > 1 then { p with MaxPercentage := 1 } else p).MaxPercentage
      = p.MaxPercentage := by
  rw [if_neg (not_lt.mpr h)]

/-- The `MaxPercentage` the first loop of `SetActive` gives to the point `i` of a chain
with `k` body points, when nothing is clamped. -/
theorem SetActive_Point_MaxPercentage (PL H T TB : ℚ) (k i : Nat) (hi : i < k + 2)
    (hH : H / PL ≤ 1) (hS : ASplineMeshHoldNote.SingleBodyLength / PL ≤ 1) (hT : T / PL ≤ 1)
    (hR : (((ASplineMeshHoldNote.truncToInt TB).tmod
      (ASplineMeshHoldNote.truncToInt ASplineMeshHoldNote.SingleBodyLength) : Int) : ℚ) / PL ≤ 1) :
    (ASplineMeshHoldNote.SetActive_Point PL H T TB (k : Int) ((k : Int) + 2 + 1) (i : Int)
      {}).MaxPercentage
      = (if i = 0 then H / PL
        else if i < k then ASplineMeshHoldNote.SingleBodyLength / PL
        else if i = k then
          (((ASplineMeshHoldNote.truncToInt TB).tmod
            (ASplineMeshHoldNote.truncToInt ASplineMeshHoldNote.SingleBodyLength) : Int) : ℚ) / PL
        else T / PL) := by
  unfold ASplineMeshHoldNote.SetActive_Point
  by_cases h0 : i = 0
  · have h0' : (i : Int) = 0 := by omega
    rw [if_pos h0, if_pos h0']
    exact clamp_MaxPercentage _ hH
  · have h0' : ¬ ((i : Int) = 0) := by omega
    rw [if_neg h0, if_neg h0']
    by_cases h1 : i < k
    · have h1' : (i : Int) < (k : Int) := by omega
      rw [if_pos h1, if_pos h1']
      exact clamp_MaxPercentage _ hS
    · have h1' : ¬ ((i : Int) < (k : Int)) := by omega
      rw [if_neg h1, if_neg h1']
      by_cases h2 : i = k
      · have h2' : (i : Int) = (k : Int) := by omega
        rw [if_pos h2, if_pos h2']
        exact clamp_MaxPercentage _ hR
      · have h2' : ¬ ((i : Int) = (k : Int)) := by omega
        have h3 : (i : Int) = (k : Int) + 2 + 1 - 2 := by omega
        rw [if_neg h2, if_neg h2', if_pos h3]
        exact clamp_MaxPercentage _ hT

theorem sum_range_head (a c : ℚ) : ∀ k : Nat,
    ((List.range (k + 1)).map (fun i => if i = 0 then a else c)).sum = a + k * c := by
  intro k
  induction k with
  | zero => simp [List.range_succ]
  | succ k ih =>
    rw [List.range_succ, List.map_append, List.sum_append, ih]
    simp
    ring

theorem chain_sum (a c r t : ℚ) (m : Nat) :
    ((List.range (m + 1 + 2)).map
      (fun i => if i = 0 then a else if i < m + 1 then c else if i = m + 1 then r else t)).sum
      = a + m * c + r + t := by
  have hhead : (List.range (m + 1)).map
      (fun i => if i = 0 then a else if i < m + 1 then c else if i = m + 1 then r else t)
      = (List.range (m + 1)).map (fun i => if i = 0 then a else c) := by
    apply List.map_congr_left
    intro i hi
    rw [List.mem_range] at hi
    by_cases h0 : i = 0
    · rw [if_pos h0, if_pos h0]
    · rw [if_neg h0, if_neg h0, if_pos hi]
  rw [List.range_succ, List.range_succ, List.map_append, List.map_append, List.sum_append,
    List.sum_append, hhead, sum_range_head]
  simp

theorem ceil_div_hundred (b : Nat) : ⌈(b : ℚ) / 100⌉ = (((b + 99) / 100 : Nat) : Int) := by
  have h1 : ((b + 99) / 100) * 100 < b + 100 := by omega
  have h2 : b ≤ ((b + 99) / 100) * 100 := by omega
  generalize (b + 99) / 100 = k at h1 h2
  have h1q : (k : ℚ) * 100 < (b : ℚ) + 100 := by exact_mod_cast h1
  have h2q : (b : ℚ) ≤ (k : ℚ) * 100 := by exact_mod_cast h2
  rw [Int.ceil_eq_iff]
  constructor
  · rw [lt_div_iff₀ (by norm_num : (0 : ℚ) < 100)]
    push_cast
    linarith
  · rw [div_le_iff₀ (by norm_num : (0 : ℚ) < 100)]
    push_cast
    linarith
theorem truncToInt_natCast (b : Nat) : ASplineMeshHoldNote.truncToInt (b : ℚ) = (b : Int) := by
  unfold ASplineMeshHoldNote.truncToInt
  rw [if_pos (Nat.cast_nonneg b)]
  exact Int.floor_natCast b

theorem truncToInt_SingleBodyLength :
    ASplineMeshHoldNote.truncToInt ASplineMeshHoldNote.SingleBodyLength = 100 := by
  have h : ASplineMeshHoldNote.SingleBodyLength = ((100 : Nat) : ℚ) := by
    unfold ASplineMeshHoldNote.SingleBodyLength
    norm_num
  rw [h, truncToInt_natCast]
  rfl

theorem tmod_natCast_hundred (b : Nat) : ((b : Int).tmod 100) = ((b % 100 : Nat) : Int) := by
  rfl
/-- The sum of the `MaxPercentage` values of the head point, the body points and the tail
point of a chain built by `SetActive` on a reset note, when the body budget is the whole
number `b`, the path length is positive and nothing is clamped: the total length over the
path length, less one body segment when `b` is a positive multiple of 100. -/
theorem SetActive_chain_sum (L : ULane) (now H T : ℚ) (N : ASplineMeshHoldNote) (b : Nat)
    (hB : ASplineMeshHoldNote.TotalBodyLength L now H T (ASplineMeshHoldNote.Reset N) = (b : ℚ))
    (hPL : 0 < L.MovementPathLength)
    (hH : H / L.MovementPathLength ≤ 1)
    (hS : ASplineMeshHoldNote.SingleBodyLength / L.MovementPathLength ≤ 1)
    (hT : T / L.MovementPathLength ≤ 1) :
    (ChainMaxPercentages
        (ASplineMeshHoldNote.SetActive L now H T true (ASplineMeshHoldNote.Reset N))
        (ASplineMeshHoldNote.BodyNum L now H T (ASplineMeshHoldNote.Reset N))).sum
      = (H + T + (b : ℚ) - (if b % 100 = 0 ∧ 0 < b then 100 else 0)) / L.MovementPathLength := by
  have hbn : ASplineMeshHoldNote.BodyNum L now H T (ASplineMeshHoldNote.Reset N)
      = (((b + 99) / 100 : Nat) : Int) := by
    unfold ASplineMeshHoldNote.BodyNum
    rw [hB]
    have h100 : ASplineMeshHoldNote.SingleBodyLength = 100 := rfl
    rw [h100]
    exact ceil_div_hundred b
  have hR : (((ASplineMeshHoldNote.truncToInt (b : ℚ)).tmod
      (ASplineMeshHoldNote.truncToInt ASplineMeshHoldNote.SingleBodyLength) : Int) : ℚ)
      = ((b % 100 : Nat) : ℚ) := by
    rw [truncToInt_natCast, truncToInt_SingleBodyLength, tmod_natCast_hundred]
    norm_cast
  have hRle : ((b % 100 : Nat) : ℚ) / L.MovementPathLength ≤ 1 := by
    have h1 : ((b % 100 : Nat) : ℚ) ≤ ASplineMeshHoldNote.SingleBodyLength := by
      have : b % 100 ≤ 100 := by omega
      have h2 : ((b % 100 : Nat) : ℚ) ≤ ((100 : Nat) : ℚ) := by exact_mod_cast this
      unfold ASplineMeshHoldNote.SingleBodyLength
      simpa using h2
    exact le_trans (div_le_div_of_nonneg_right h1 hPL.le) hS
  have hpts : (ASplineMeshHoldNote.SetActive L now H T true
      (ASplineMeshHoldNote.Reset N)).SplinePointsMeta
      = (List.range ((b + 99) / 100 + 3)).map
          (fun (i : Nat) => ASplineMeshHoldNote.SetActive_Point L.MovementPathLength H T (b : ℚ)
            (((b + 99) / 100 : Nat) : Int) ((((b + 99) / 100 : Nat) : Int) + 2 + 1) (i : Int) {}) := by
    simp only [ASplineMeshHoldNote.SetActive, Bool.not_true, Bool.false_eq_true, if_false]
    have hnil : (ASplineMeshHoldNote.Reset N).SplinePointsMeta = [] := rfl
    rw [hnil, SetActive_Points_nil, hB]
    simp only [ASplineMeshHoldNote.PointsNum, ASplineMeshHoldNote.MeshesNum, hbn]
    have htn : ((((b + 99) / 100 : Nat) : Int) + 2 + 1).toNat = (b + 99) / 100 + 3 := by omega
    rw [htn]
  unfold ChainMaxPercentages
  rw [hpts, hbn]
  have htn2 : ((((b + 99) / 100 : Nat) : Int) + 2).toNat = (b + 99) / 100 + 2 := by omega
  rw [htn2, ← List.map_take, List.take_range, Nat.min_eq_left (by omega), List.map_map]
  generalize hk : (b + 99) / 100 = k
  have hmap : (List.range (k + 2)).map
      ((fun (p : FSplinePointMeta) => p.MaxPercentage) ∘
        (fun (i : Nat) => ASplineMeshHoldNote.SetActive_Point L.MovementPathLength H T (b : ℚ)
          (k : Int) ((k : Int) + 2 + 1) (i : Int) {}))
      = (List.range (k + 2)).map
          (fun i => if i = 0 then H / L.MovementPathLength
            else if i < k then ASplineMeshHoldNote.SingleBodyLength / L.MovementPathLength
            else if i = k then ((b % 100 : Nat) : ℚ) / L.MovementPathLength
            else T / L.MovementPathLength) := by
    apply List.map_congr_left
    intro i hi
    rw [List.mem_range] at hi
    rw [Function.comp_apply,
      SetActive_Point_MaxPercentage L.MovementPathLength H T (b : ℚ) k i hi hH hS hT
        (by rw [hR]; exact hRle), hR]
  rw [hmap]
  cases k with
  | zero =>
    have hb0 : b = 0 := by omega
    subst hb0
    simp [List.range_succ]
    ring
  | succ m =>
    rw [chain_sum]
    have hpos : 0 < b := by omega
    have h100 : ASplineMeshHoldNote.SingleBodyLength = 100 := rfl
    rw [h100]
    by_cases hr : b % 100 = 0
    · rw [if_pos ⟨hr, hpos⟩, hr]
      have hbm : b = (m + 1) * 100 := by omega
      have hbq : (b : ℚ) = ((m : ℚ) + 1) * 100 := by exact_mod_cast hbm
      rw [hbq]
      push_cast
      field_simp
      ring
    · rw [if_neg (fun h => hr h.1)]
      have hbm : b = m * 100 + b % 100 := by omega
      have hbq : (b : ℚ) = (m : ℚ) * 100 + ((b % 100 : Nat) : ℚ) := by exact_mod_cast hbm
      rw [hbq]
      field_simp
      ring

/-- C30 at the failing input. In Scenario C (`TotalNoteLength` 1000, head and tail 50 long,
path length 1000) the body budget is 900, a whole number that is not negative, the body
count is 9 and no `MaxPercentage` is clamped; the points 1 to 8 get 100/1000 each and the
last body point gets `900 % 100 = 0`, so the `MaxPercentage` values of the indices 0 to 10
sum to 9/10 and not to `1000 / 1000 = 1`: the chain is one body segment short. With
`TotalNoteLength` 950 (body budget 850) the last body point gets 50/1000 and the sum is
950/1000. In general, for a body budget that is the whole number `b`, a positive path
length and no clamping, the sum is the total length over the path length, less one body
segment exactly when `b` is a positive multiple of 100. -/
theorem C30_chain_one_segment_short :
    ASplineMeshHoldNote.TotalNoteLength ScenarioA_Lane (-1)
      (ASplineMeshHoldNote.Reset ScenarioC_Note) = 1000 ∧
    ASplineMeshHoldNote.TotalBodyLength ScenarioA_Lane (-1) 50 50
      (ASplineMeshHoldNote.Reset ScenarioC_Note) = 900 ∧
    ASplineMeshHoldNote.BodyNum ScenarioA_Lane (-1) 50 50
      (ASplineMeshHoldNote.Reset ScenarioC_Note) = 9 ∧
    ChainMaxPercentages ScenarioC_Active 9
      = [1/20, 1/10, 1/10, 1/10, 1/10, 1/10, 1/10, 1/10, 1/10, 0, 1/20] ∧
    (ChainMaxPercentages ScenarioC_Active 9).sum = 9/10 ∧
    (1000 : ℚ) / ScenarioA_Lane.MovementPathLength = 1 ∧
    ASplineMeshHoldNote.BodyNum ScenarioA_Lane (-1) 50 50
      (ASplineMeshHoldNote.Reset Hold950_Note) = 9 ∧
    ChainMaxPercentages
        (ASplineMeshHoldNote.SetActive ScenarioA_Lane (-1) 50 50 true
          (ASplineMeshHoldNote.Reset Hold950_Note)) 9
      = [1/20, 1/10, 1/10, 1/10, 1/10, 1/10, 1/10, 1/10, 1/10, 1/20, 1/20] ∧
    (ChainMaxPercentages
        (ASplineMeshHoldNote.SetActive ScenarioA_Lane (-1) 50 50 true
          (ASplineMeshHoldNote.Reset Hold950_Note)) 9).sum
      = 950 / ScenarioA_Lane.MovementPathLength ∧
    (∀ (L : ULane) (now H T : ℚ) (N : ASplineMeshHoldNote) (b : Nat),
      ASplineMeshHoldNote.TotalBodyLength L now H T (ASplineMeshHoldNote.Reset N) = (b : ℚ) →
      0 < L.MovementPathLength → H / L.MovementPathLength ≤ 1 →
      ASplineMeshHoldNote.SingleBodyLength / L.MovementPathLength ≤ 1 →
      T / L.MovementPathLength ≤ 1 →
      (ChainMaxPercentages
          (ASplineMeshHoldNote.SetActive L now H T true (ASplineMeshHoldNote.Reset N))
          (ASplineMeshHoldNote.BodyNum L now H T (ASplineMeshHoldNote.Reset N))).sum
        = (H + T + (b : ℚ) - (if b % 100 = 0 ∧ 0 < b then 100 else 0))
            / L.MovementPathLength) := by
  refine ⟨by decide!, by decide!, by decide!, by decide!, by decide!, by decide!, by decide!,
    by decide!, by decide!, ?_⟩
  intro L now H T N b hB hPL hH hS hT
  exact SetActive_chain_sum L now H T N b hB hPL hH hS hT

end Ritmo
